import Mathlib

/-!
# project-initializer: the generation engine

A shallow embedding of `internal/generator` (and the few facts of `cmd` the
claims refer to) of `urcop/project-initializer`, with theorems about it.

* Go strings are Lean `String`s (sequences of Unicode scalar values).
* A generated file body is kept as a `Template`: the sequence of pieces the Go
  code concatenates, where a piece is either literal text of the generator or
  one of the two configuration values that are interpolated (`config.Name`,
  `config.ModuleName`).  `render` substitutes the values and gives the bytes
  that are written.
* The file system is explicit state; whether a system call fails is decided by
  an environment that may look at the current state.
-/

namespace ProjectInitializer

/-! ## Strings -/

/-- Search for a contiguous block: `needle` starts `hay`. -/
def startsWith {α : Type} [DecidableEq α] : List α → List α → Bool
  | [], _ => true
  | _ :: _, [] => false
  | a :: as, b :: bs => decide (a = b) && startsWith as bs

/-- Search for a contiguous block: `needle` occurs somewhere in `hay`. -/
def hasInfix {α : Type} [DecidableEq α] (needle : List α) : List α → Bool
  | [] => needle.isEmpty
  | b :: bs => startsWith needle (b :: bs) || hasInfix needle bs

/-- The capitals of the Unicode Character Database with their small letters,
in the form of Go's `unicode.CaseRanges` (Unicode 15.0, the tables of Go 1.21
and later): `(first, last, step, small)` stands for the capitals `first`,
`first + step`, and so on up to `last`; the small letter of `first` is
`small`, and every capital of the range is as far from its small letter as
`first` is.  The ranges come in rising order and do not overlap. -/
def lowerRanges : List (Nat × Nat × Nat × Nat) :=
  [(0x0041, 0x005A, 1, 0x0061), (0x00C0, 0x00D6, 1, 0x00E0), (0x00D8, 0x00DE, 1, 0x00F8),
   (0x0100, 0x012E, 2, 0x0101), (0x0130, 0x0130, 1, 0x0069), (0x0132, 0x0136, 2, 0x0133),
   (0x0139, 0x0147, 2, 0x013A), (0x014A, 0x0176, 2, 0x014B), (0x0178, 0x0178, 1, 0x00FF),
   (0x0179, 0x017D, 2, 0x017A), (0x0181, 0x0181, 1, 0x0253), (0x0182, 0x0184, 2, 0x0183),
   (0x0186, 0x0186, 1, 0x0254), (0x0187, 0x0187, 1, 0x0188), (0x0189, 0x018A, 1, 0x0256),
   (0x018B, 0x018B, 1, 0x018C), (0x018E, 0x018E, 1, 0x01DD), (0x018F, 0x018F, 1, 0x0259),
   (0x0190, 0x0190, 1, 0x025B), (0x0191, 0x0191, 1, 0x0192), (0x0193, 0x0193, 1, 0x0260),
   (0x0194, 0x0194, 1, 0x0263), (0x0196, 0x0196, 1, 0x0269), (0x0197, 0x0197, 1, 0x0268),
   (0x0198, 0x0198, 1, 0x0199), (0x019C, 0x019C, 1, 0x026F), (0x019D, 0x019D, 1, 0x0272),
   (0x019F, 0x019F, 1, 0x0275), (0x01A0, 0x01A4, 2, 0x01A1), (0x01A6, 0x01A6, 1, 0x0280),
   (0x01A7, 0x01A7, 1, 0x01A8), (0x01A9, 0x01A9, 1, 0x0283), (0x01AC, 0x01AC, 1, 0x01AD),
   (0x01AE, 0x01AE, 1, 0x0288), (0x01AF, 0x01AF, 1, 0x01B0), (0x01B1, 0x01B2, 1, 0x028A),
   (0x01B3, 0x01B5, 2, 0x01B4), (0x01B7, 0x01B7, 1, 0x0292), (0x01B8, 0x01B8, 1, 0x01B9),
   (0x01BC, 0x01BC, 1, 0x01BD), (0x01C4, 0x01C4, 1, 0x01C6), (0x01C5, 0x01C5, 1, 0x01C6),
   (0x01C7, 0x01C7, 1, 0x01C9), (0x01C8, 0x01C8, 1, 0x01C9), (0x01CA, 0x01CA, 1, 0x01CC),
   (0x01CB, 0x01DB, 2, 0x01CC), (0x01DE, 0x01EE, 2, 0x01DF), (0x01F1, 0x01F1, 1, 0x01F3),
   (0x01F2, 0x01F4, 2, 0x01F3), (0x01F6, 0x01F6, 1, 0x0195), (0x01F7, 0x01F7, 1, 0x01BF),
   (0x01F8, 0x021E, 2, 0x01F9), (0x0220, 0x0220, 1, 0x019E), (0x0222, 0x0232, 2, 0x0223),
   (0x023A, 0x023A, 1, 0x2C65), (0x023B, 0x023B, 1, 0x023C), (0x023D, 0x023D, 1, 0x019A),
   (0x023E, 0x023E, 1, 0x2C66), (0x0241, 0x0241, 1, 0x0242), (0x0243, 0x0243, 1, 0x0180),
   (0x0244, 0x0244, 1, 0x0289), (0x0245, 0x0245, 1, 0x028C), (0x0246, 0x024E, 2, 0x0247),
   (0x0370, 0x0372, 2, 0x0371), (0x0376, 0x0376, 1, 0x0377), (0x037F, 0x037F, 1, 0x03F3),
   (0x0386, 0x0386, 1, 0x03AC), (0x0388, 0x038A, 1, 0x03AD), (0x038C, 0x038C, 1, 0x03CC),
   (0x038E, 0x038F, 1, 0x03CD), (0x0391, 0x03A1, 1, 0x03B1), (0x03A3, 0x03AB, 1, 0x03C3),
   (0x03CF, 0x03CF, 1, 0x03D7), (0x03D8, 0x03EE, 2, 0x03D9), (0x03F4, 0x03F4, 1, 0x03B8),
   (0x03F7, 0x03F7, 1, 0x03F8), (0x03F9, 0x03F9, 1, 0x03F2), (0x03FA, 0x03FA, 1, 0x03FB),
   (0x03FD, 0x03FF, 1, 0x037B), (0x0400, 0x040F, 1, 0x0450), (0x0410, 0x042F, 1, 0x0430),
   (0x0460, 0x0480, 2, 0x0461), (0x048A, 0x04BE, 2, 0x048B), (0x04C0, 0x04C0, 1, 0x04CF),
   (0x04C1, 0x04CD, 2, 0x04C2), (0x04D0, 0x052E, 2, 0x04D1), (0x0531, 0x0556, 1, 0x0561),
   (0x10A0, 0x10C5, 1, 0x2D00), (0x10C7, 0x10C7, 1, 0x2D27), (0x10CD, 0x10CD, 1, 0x2D2D),
   (0x13A0, 0x13EF, 1, 0xAB70), (0x13F0, 0x13F5, 1, 0x13F8), (0x1C90, 0x1CBA, 1, 0x10D0),
   (0x1CBD, 0x1CBF, 1, 0x10FD), (0x1E00, 0x1E94, 2, 0x1E01), (0x1E9E, 0x1E9E, 1, 0x00DF),
   (0x1EA0, 0x1EFE, 2, 0x1EA1), (0x1F08, 0x1F0F, 1, 0x1F00), (0x1F18, 0x1F1D, 1, 0x1F10),
   (0x1F28, 0x1F2F, 1, 0x1F20), (0x1F38, 0x1F3F, 1, 0x1F30), (0x1F48, 0x1F4D, 1, 0x1F40),
   (0x1F59, 0x1F5F, 2, 0x1F51), (0x1F68, 0x1F6F, 1, 0x1F60), (0x1F88, 0x1F8F, 1, 0x1F80),
   (0x1F98, 0x1F9F, 1, 0x1F90), (0x1FA8, 0x1FAF, 1, 0x1FA0), (0x1FB8, 0x1FB9, 1, 0x1FB0),
   (0x1FBA, 0x1FBB, 1, 0x1F70), (0x1FBC, 0x1FBC, 1, 0x1FB3), (0x1FC8, 0x1FCB, 1, 0x1F72),
   (0x1FCC, 0x1FCC, 1, 0x1FC3), (0x1FD8, 0x1FD9, 1, 0x1FD0), (0x1FDA, 0x1FDB, 1, 0x1F76),
   (0x1FE8, 0x1FE9, 1, 0x1FE0), (0x1FEA, 0x1FEB, 1, 0x1F7A), (0x1FEC, 0x1FEC, 1, 0x1FE5),
   (0x1FF8, 0x1FF9, 1, 0x1F78), (0x1FFA, 0x1FFB, 1, 0x1F7C), (0x1FFC, 0x1FFC, 1, 0x1FF3),
   (0x2126, 0x2126, 1, 0x03C9), (0x212A, 0x212A, 1, 0x006B), (0x212B, 0x212B, 1, 0x00E5),
   (0x2132, 0x2132, 1, 0x214E), (0x2160, 0x216F, 1, 0x2170), (0x2183, 0x2183, 1, 0x2184),
   (0x24B6, 0x24CF, 1, 0x24D0), (0x2C00, 0x2C2F, 1, 0x2C30), (0x2C60, 0x2C60, 1, 0x2C61),
   (0x2C62, 0x2C62, 1, 0x026B), (0x2C63, 0x2C63, 1, 0x1D7D), (0x2C64, 0x2C64, 1, 0x027D),
   (0x2C67, 0x2C6B, 2, 0x2C68), (0x2C6D, 0x2C6D, 1, 0x0251), (0x2C6E, 0x2C6E, 1, 0x0271),
   (0x2C6F, 0x2C6F, 1, 0x0250), (0x2C70, 0x2C70, 1, 0x0252), (0x2C72, 0x2C72, 1, 0x2C73),
   (0x2C75, 0x2C75, 1, 0x2C76), (0x2C7E, 0x2C7F, 1, 0x023F), (0x2C80, 0x2CE2, 2, 0x2C81),
   (0x2CEB, 0x2CED, 2, 0x2CEC), (0x2CF2, 0x2CF2, 1, 0x2CF3), (0xA640, 0xA66C, 2, 0xA641),
   (0xA680, 0xA69A, 2, 0xA681), (0xA722, 0xA72E, 2, 0xA723), (0xA732, 0xA76E, 2, 0xA733),
   (0xA779, 0xA77B, 2, 0xA77A), (0xA77D, 0xA77D, 1, 0x1D79), (0xA77E, 0xA786, 2, 0xA77F),
   (0xA78B, 0xA78B, 1, 0xA78C), (0xA78D, 0xA78D, 1, 0x0265), (0xA790, 0xA792, 2, 0xA791),
   (0xA796, 0xA7A8, 2, 0xA797), (0xA7AA, 0xA7AA, 1, 0x0266), (0xA7AB, 0xA7AB, 1, 0x025C),
   (0xA7AC, 0xA7AC, 1, 0x0261), (0xA7AD, 0xA7AD, 1, 0x026C), (0xA7AE, 0xA7AE, 1, 0x026A),
   (0xA7B0, 0xA7B0, 1, 0x029E), (0xA7B1, 0xA7B1, 1, 0x0287), (0xA7B2, 0xA7B2, 1, 0x029D),
   (0xA7B3, 0xA7B3, 1, 0xAB53), (0xA7B4, 0xA7C2, 2, 0xA7B5), (0xA7C4, 0xA7C4, 1, 0xA794),
   (0xA7C5, 0xA7C5, 1, 0x0282), (0xA7C6, 0xA7C6, 1, 0x1D8E), (0xA7C7, 0xA7C9, 2, 0xA7C8),
   (0xA7D0, 0xA7D0, 1, 0xA7D1), (0xA7D6, 0xA7D8, 2, 0xA7D7), (0xA7F5, 0xA7F5, 1, 0xA7F6),
   (0xFF21, 0xFF3A, 1, 0xFF41), (0x10400, 0x10427, 1, 0x10428), (0x104B0, 0x104D3, 1, 0x104D8),
   (0x10570, 0x1057A, 1, 0x10597), (0x1057C, 0x1058A, 1, 0x105A3), (0x1058C, 0x10592, 1, 0x105B3),
   (0x10594, 0x10595, 1, 0x105BB), (0x10C80, 0x10CB2, 1, 0x10CC0), (0x118A0, 0x118BF, 1, 0x118C0),
   (0x16E40, 0x16E5F, 1, 0x16E60), (0x1E900, 0x1E921, 1, 0x1E922)]

/-- The small letter of a rune according to the ranges, if the rune is one of
their capitals. -/
def lowerIn : List (Nat × Nat × Nat × Nat) → Nat → Option Nat
  | [], _ => none
  | (first, last, step, small) :: rest, n =>
    if n < first then none
    else if n ≤ last then
      if (n - first) % step = 0 then some (small + (n - first)) else none
    else lowerIn rest n

/-- Go `unicode.ToLower`: the small letter of a capital (or title-case
letter), every other rune as it is. -/
def unicodeToLower (c : Char) : Char :=
  match lowerIn lowerRanges c.toNat with
  | some n => Char.ofNat n
  | none => c

/-- Go `strings.ToLower`. -/
def stringsToLower (s : String) : String := ⟨s.data.map unicodeToLower⟩

/-- Go `strings.Contains`. -/
def stringsContains (s substr : String) : Bool := hasInfix substr.data s.data

/-! ## Paths (`path/filepath` on a Unix system) -/

/-- Cut a path at every separator. -/
def splitSep : List Char → List (List Char)
  | [] => [[]]
  | c :: cs =>
    if c = '/' then [] :: splitSep cs
    else
      match splitSep cs with
      | [] => [[c]]
      | x :: xs => (c :: x) :: xs

/-- One pass of `filepath.Clean` over the path elements, keeping the cleaned
elements so far (last one first). -/
def cleanElems (rooted : Bool) : List (List Char) → List (List Char) → List (List Char)
  | acc, [] => acc
  | acc, e :: es =>
    if e = [] ∨ e = ['.'] then cleanElems rooted acc es
    else if e = ['.', '.'] then
      match acc with
      | [] => if rooted then cleanElems rooted [] es else cleanElems rooted [e] es
      | a :: as =>
        if a = ['.', '.'] then cleanElems rooted (e :: a :: as) es
        else cleanElems rooted as es
    else cleanElems rooted (e :: acc) es

/-- Put path elements together with separators. -/
def joinSep : List (List Char) → List Char
  | [] => []
  | [e] => e
  | e :: es => e ++ '/' :: joinSep es

/-- Go `filepath.Clean`. -/
def filepathClean (path : String) : String :=
  if path.data = [] then "."
  else
    let rooted := startsWith ['/'] path.data
    let out := joinSep (cleanElems rooted [] (splitSep path.data)).reverse
    if rooted then ⟨'/' :: out⟩
    else if out = [] then "."
    else ⟨out⟩

/-- Go `filepath.Join`: empty elements are dropped, the rest is joined with
separators and cleaned; the result is empty when there is nothing to join. -/
def filepathJoin (elem : List String) : String :=
  match elem.filter (fun e => e.data ≠ []) with
  | [] => ""
  | es => filepathClean ⟨joinSep (es.map String.data)⟩

/-! ## Errors and the file system -/

/-- A Go `error` value: one coming from a system call, or one made by
`fmt.Errorf(pre + "%w", cause)`. -/
inductive GoError where
  | sys (text : String)
  | wrap (pre : String) (cause : GoError)
deriving DecidableEq, Repr

/-- The text of an error, as `Error()` gives it. -/
def GoError.text : GoError → String
  | .sys t => t
  | .wrap pre cause => pre ++ cause.text

/-- The two system calls the generator makes. -/
inductive FsOp where
  | mkdirAll (path : String)
  | writeFile (path : String) (data : String)
deriving DecidableEq, Repr

/-- The state of the file system: which paths are directories, and the content
of every regular file. -/
structure FS where
  dirs : String → Bool
  files : String → Option String

/-- The path itself and every directory above it that `os.MkdirAll` makes
sure of: the prefixes of the path that end right before a separator. -/
def dirChain : List Char → List Char → List String
  | pre, [] => if pre = [] then [] else [⟨pre.reverse⟩]
  | pre, c :: cs =>
    if c = '/' ∧ pre ≠ [] then ⟨pre.reverse⟩ :: dirChain (c :: pre) cs
    else dirChain (c :: pre) cs

/-- What a successful system call does to the file system. -/
def FS.apply (fs : FS) : FsOp → FS
  | .mkdirAll path =>
    { fs with dirs := fun q => fs.dirs q || decide (q ∈ dirChain [] path.data) }
  | .writeFile path data =>
    { fs with files := fun q => if q = path then some data else fs.files q }

/-- The world the generator runs in: the file system and the record of every
system call made so far (oldest first), failed ones included. -/
structure World where
  fs : FS
  log : List FsOp

/-- The operating system: says whether a call fails in a given state. -/
structure Env where
  fault : FS → FsOp → Option GoError

/-- A Go function that returns `error` and acts on the file system. -/
def Act := World → Option GoError × World

/-- A system call: it is recorded, and either fails leaving the file system as
it is, or takes effect. -/
def syscall (env : Env) (op : FsOp) : Act := fun w =>
  match env.fault w.fs op with
  | some err => (some err, { w with log := w.log ++ [op] })
  | none => (none, { fs := w.fs.apply op, log := w.log ++ [op] })

/-- Go `os.MkdirAll(path, 0755)`. -/
def osMkdirAll (env : Env) (path : String) : Act := syscall env (.mkdirAll path)

/-- Go `os.WriteFile(path, data, 0644)`. -/
def osWriteFile (env : Env) (path : String) (data : String) : Act :=
  syscall env (.writeFile path data)

/-- Go `return nil`. -/
def retNil : Act := fun w => (none, w)

/-- Go `if err := a(); err != nil { return f(err) }` followed by `rest`. -/
def check (a : Act) (f : GoError → GoError) (rest : Act) : Act := fun w =>
  match a w with
  | (some err, w1) => (some (f err), w1)
  | (none, w1) => rest w1

/-! ## Configuration and templates -/

/-- Go `ProjectConfig`. -/
structure ProjectConfig where
  Name : String
  ModuleName : String
  Framework : String
  Database : String
  EnableGRPC : Bool
  Path : String
deriving DecidableEq, Repr

/-- Go `Generator`. -/
structure Generator where
  projectPath : String
deriving DecidableEq, Repr

/-- Go `New`. -/
def New (projectPath : String) : Generator := { projectPath := projectPath }

/-- A piece of a generated file: text of the generator, or an interpolated
configuration value. -/
inductive Seg where
  | text (s : String)
  | name
  | moduleName
deriving DecidableEq, Repr

/-- A generated file body before the configuration values are filled in. -/
abbrev Template := List Seg

/-- Lines of generator text, joined by line feeds. -/
def joinLines : List String → String
  | [] => ""
  | [l] => l
  | l :: ls => l ++ "\n" ++ joinLines ls

/-- Generator text given line by line. -/
def T (ls : List String) : Seg := .text (joinLines ls)

/-- The bytes of a piece for a given configuration. -/
def Seg.render (config : ProjectConfig) : Seg → String
  | .text s => s
  | .name => config.Name
  | .moduleName => config.ModuleName

/-- The file body for a given configuration. -/
def render (config : ProjectConfig) : Template → String
  | [] => ""
  | s :: t => s.render config ++ render config t

/-- A position of a file body: a character of generator text, or the place of
an interpolated value. -/
inductive Tok where
  | ch (c : Char)
  | name
  | moduleName
deriving DecidableEq, Repr

/-- The positions of a piece. -/
def Seg.toks : Seg → List Tok
  | .text s => s.data.map Tok.ch
  | .name => [Tok.name]
  | .moduleName => [Tok.moduleName]

/-- The positions of a file body. -/
def toks : Template → List Tok
  | [] => []
  | s :: t => s.toks ++ toks t

/-- Generator text as positions. -/
def lit (s : String) : List Tok := s.data.map Tok.ch

/-- The generator's own text of the file body has `needle` in it. -/
def mentions (t : Template) (needle : String) : Bool := hasInfix (lit needle) (toks t)

/-! ## generator.go, gomod.go -/

/-- Go `createDirectoryStructure`: the directory list. -/
def skeletonDirs : List String :=
  ["cmd",
   "internal/config",
   "internal/handlers",
   "internal/services",
   "internal/repository",
   "internal/models",
   "internal/middleware",
   "pkg/context",
   "pkg/logger",
   "pkg/database",
   "docs",
   "scripts",
   "deployments",
   "api/swagger"]

/-- The loop of `createDirectoryStructure` over the directories that are left. -/
def createDirs (env : Env) (g : Generator) : List String → Act
  | [] => retNil
  | dir :: dirs =>
    let fullPath := filepathJoin [g.projectPath, dir]
    check (osMkdirAll env fullPath)
      (GoError.wrap ("ошибка создания директории " ++ fullPath ++ ": "))
      (createDirs env g dirs)

/-- Go `createDirectoryStructure`. -/
def createDirectoryStructure (env : Env) (g : Generator) : Act :=
  createDirs env g skeletonDirs

/-- Go `generateGoMod`: the `dependencies` slice. -/
def goModDependencies (config : ProjectConfig) : List String :=
  let dependencies := [
    "gopkg.in/yaml.v3 v3.0.1",
    "github.com/swaggo/swag v1.16.2"]
  let dependencies :=
    if stringsToLower config.Framework = "gin" then
      dependencies ++ [
        "github.com/gin-gonic/gin v1.9.1",
        "github.com/swaggo/gin-swagger v1.6.0",
        "github.com/swaggo/files v1.0.1"]
    else if stringsToLower config.Framework = "fiber" then
      dependencies ++ [
        "github.com/gofiber/fiber/v2 v2.52.0",
        "github.com/gofiber/swagger v1.0.0"]
    else if stringsToLower config.Framework = "echo" then
      dependencies ++ [
        "github.com/labstack/echo/v4 v4.11.4",
        "github.com/swaggo/echo-swagger v1.4.1"]
    else dependencies
  let dependencies :=
    if stringsToLower config.Database = "postgresql" then
      dependencies ++ [
        "github.com/lib/pq v1.10.9",
        "gorm.io/gorm v1.25.5",
        "gorm.io/driver/postgres v1.5.4"]
    else if stringsToLower config.Database = "mysql" then
      dependencies ++ [
        "github.com/go-sql-driver/mysql v1.7.1",
        "gorm.io/gorm v1.25.5",
        "gorm.io/driver/mysql v1.5.2"]
    else if stringsToLower config.Database = "mongodb" then
      dependencies ++ [
        "go.mongodb.org/mongo-driver v1.13.1"]
    else if stringsToLower config.Database = "in-memory" then
      dependencies ++ [
        "gorm.io/gorm v1.25.5",
        "gorm.io/driver/sqlite v1.5.4"]
    else dependencies
  let dependencies :=
    if config.EnableGRPC then
      dependencies ++ [
        "google.golang.org/grpc v1.60.1",
        "google.golang.org/protobuf v1.31.0"]
    else dependencies
  dependencies ++ [
    "github.com/sirupsen/logrus v1.9.3",
    "github.com/joho/godotenv v1.4.0"]

/-- Go `generateGoMod`: the file body. -/
def goModContent (config : ProjectConfig) : Template :=
  let content : Template :=
    [T ["module "],
     .moduleName,
     T ["",
        "",
        "go 1.21",
        "",
        "require (",
        ""]]
  let content := (goModDependencies config).foldl
    (fun content dep => content ++ [Seg.text ("\t" ++ dep ++ "\n")]) content
  content ++ [Seg.text ")\n"]

/-- Go `generateGoMod`. -/
def generateGoMod (env : Env) (g : Generator) (config : ProjectConfig) : Act :=
  let goModPath := filepathJoin [g.projectPath, "go.mod"]
  osWriteFile env goModPath (render config (goModContent config))

/-! ## config.go -/

/-- Go `generateConfigYAML`: the file body. -/
def configYAMLContent (config : ProjectConfig) : Template :=
  let content : Template :=
    [T ["# Конфигурация для "],
     .name,
     T ["",
        "app:",
        "  name: \""],
     .name,
     T ["\"",
        "  version: \"1.0.0\"",
        "  debug: true",
        "  port: 8080",
        "",
        ""]]
  let content :=
    if !stringsContains (stringsToLower config.Database) "без" then
      if stringsToLower config.Database = "postgresql" then content ++
        [T ["database:",
            "  type: \"postgres\"",
            "  host: \"localhost\"",
            "  port: 5432",
            "  user: \"postgres\"",
            "  password: \"password\"",
            "  name: \""],
         .name,
         T ["\"",
            "  ssl_mode: \"disable\"",
            "  max_connections: 100",
            "  max_idle_connections: 10",
            "",
            ""]]
      else if stringsToLower config.Database = "mysql" then content ++
        [T ["database:",
            "  type: \"mysql\"",
            "  host: \"localhost\"",
            "  port: 3306",
            "  user: \"root\"",
            "  password: \"password\"",
            "  name: \""],
         .name,
         T ["\"",
            "  charset: \"utf8mb4\"",
            "  max_connections: 100",
            "  max_idle_connections: 10",
            "",
            ""]]
      else if stringsToLower config.Database = "mongodb" then content ++
        [T ["database:",
            "  type: \"mongodb\"",
            "  uri: \"mongodb://localhost:27017\"",
            "  name: \""],
         .name,
         T ["\"",
            "  timeout: 30",
            "",
            ""]]
      else if stringsToLower config.Database = "in-memory" then content ++
        [T ["database:",
            "  type: \"sqlite\"",
            "  path: \":memory:\"",
            "  max_connections: 1",
            "",
            ""]]
      else content
    else content
  let content :=
    if config.EnableGRPC then content ++
      [T ["grpc:",
          "  enabled: true",
          "  port: 9090",
          "  max_connection_age: 30",
          "  max_connection_idle: 30",
          "",
          ""]]
    else content
  content ++
    [T ["logger:",
        "  level: \"debug\"",
        "  format: \"json\"",
        "  output: \"stdout\"",
        "",
        "swagger:",
        "  enabled: true",
        "  title: \""],
     .name,
     T [" API\"",
        "  description: \"API документация для "],
     .name,
     T ["\"",
        "  version: \"1.0.0\"",
        "  host: \"localhost:8080\"",
        "  base_path: \"/api/v1\"",
        ""]]

/-- Go `generateConfigYAML`. -/
def generateConfigYAML (env : Env) (g : Generator) (config : ProjectConfig) : Act :=
  let configPath := filepathJoin [g.projectPath, "config.yaml"]
  osWriteFile env configPath (render config (configYAMLContent config))

/-- Go `generateConfigGo`: the file body. -/
def configGoContent (config : ProjectConfig) : Template :=
  let content : Template :=
    [T ["package config",
        "",
        "import (",
        "\t\"fmt\"",
        "\t\"os\"",
        "",
        "\t\"gopkg.in/yaml.v3\"",
        ")",
        "",
        "// Config представляет конфигурацию приложения",
        "type Config struct \x7b",
        "\tApp      AppConfig      `config:\"app\" yaml:\"app\"`",
        "\tDatabase DatabaseConfig `config:\"database\" yaml:\"database\"`",
        "\tLogger   LoggerConfig   `config:\"logger\" yaml:\"logger\"`",
        "\tSwagger  SwaggerConfig  `config:\"swagger\" yaml:\"swagger\"`"]]
  let content :=
    if config.EnableGRPC then content ++
      [T ["",
          "\tGRPC     GRPCConfig     `config:\"grpc\" yaml:\"grpc\"`"]]
    else content
  let content := content ++
    [T ["",
        "\x7d",
        "",
        "// AppConfig конфигурация приложения",
        "type AppConfig struct \x7b",
        "\tName    string `config:\"name\" yaml:\"name\"`",
        "\tVersion string `config:\"version\" yaml:\"version\"`",
        "\tDebug   bool   `config:\"debug\" yaml:\"debug\"`",
        "\tPort    int    `config:\"port\" yaml:\"port\"`",
        "\x7d",
        "",
        "// DatabaseConfig конфигурация базы данных",
        "type DatabaseConfig struct \x7b",
        "\tType               string `config:\"type\" yaml:\"type\"`",
        "\tHost               string `config:\"host\" yaml:\"host\"`",
        "\tPort               int    `config:\"port\" yaml:\"port\"`",
        "\tUser               string `config:\"user\" yaml:\"user\"`",
        "\tPassword           string `config:\"password\" yaml:\"password\"`",
        "\tName               string `config:\"name\" yaml:\"name\"`",
        "\tSSLMode            string `config:\"ssl_mode\" yaml:\"ssl_mode\"`",
        "\tURI                string `config:\"uri\" yaml:\"uri\"`",
        "\tPath               string `config:\"path\" yaml:\"path\"`",
        "\tCharset            string `config:\"charset\" yaml:\"charset\"`",
        "\tMaxConnections     int    `config:\"max_connections\" yaml:\"max_connections\"`",
        "\tMaxIdleConnections int    `config:\"max_idle_connections\" yaml:\"max_idle_connections\"`",
        "\tTimeout            int    `config:\"timeout\" yaml:\"timeout\"`",
        "\x7d",
        "",
        "// LoggerConfig конфигурация логгера",
        "type LoggerConfig struct \x7b",
        "\tLevel  string `config:\"level\" yaml:\"level\"`",
        "\tFormat string `config:\"format\" yaml:\"format\"`",
        "\tOutput string `config:\"output\" yaml:\"output\"`",
        "\x7d",
        "",
        "// SwaggerConfig конфигурация Swagger",
        "type SwaggerConfig struct \x7b",
        "\tEnabled     bool   `config:\"enabled\" yaml:\"enabled\"`",
        "\tTitle       string `config:\"title\" yaml:\"title\"`",
        "\tDescription string `config:\"description\" yaml:\"description\"`",
        "\tVersion     string `config:\"version\" yaml:\"version\"`",
        "\tHost        string `config:\"host\" yaml:\"host\"`",
        "\tBasePath    string `config:\"base_path\" yaml:\"base_path\"`",
        "\x7d"]]
  let content :=
    if config.EnableGRPC then content ++
      [T ["",
          "",
          "// GRPCConfig конфигурация gRPC сервера",
          "type GRPCConfig struct \x7b",
          "\tEnabled           bool `config:\"enabled\" yaml:\"enabled\"`",
          "\tPort              int  `config:\"port\" yaml:\"port\"`",
          "\tMaxConnectionAge  int  `config:\"max_connection_age\" yaml:\"max_connection_age\"`",
          "\tMaxConnectionIdle int  `config:\"max_connection_idle\" yaml:\"max_connection_idle\"`",
          "\x7d"]]
    else content
  content ++
    [T ["",
        "",
        "// Load загружает конфигурацию из файла",
        "func Load(configPath string) (*Config, error) \x7b",
        "\tconfig := &Config\x7b\x7d",
        "",
        "\t// Читаем файл конфигурации",
        "\tdata, err := os.ReadFile(configPath)",
        "\tif err != nil \x7b",
        "\t\treturn nil, fmt.Errorf(\"ошибка чтения файла конфигурации: %w\", err)",
        "\t\x7d",
        "",
        "\t// Парсим YAML",
        "\tif err := yaml.Unmarshal(data, config); err != nil \x7b",
        "\t\treturn nil, fmt.Errorf(\"ошибка парсинга конфигурации: %w\", err)",
        "\t\x7d",
        "",
        "\t// Валидируем конфигурацию",
        "\tif err := config.validate(); err != nil \x7b",
        "\t\treturn nil, fmt.Errorf(\"ошибка валидации конфигурации: %w\", err)",
        "\t\x7d",
        "",
        "\treturn config, nil",
        "\x7d",
        "",
        "// validate проверяет корректность конфигурации",
        "func (c *Config) validate() error \x7b",
        "\tif c.App.Name == \"\" \x7b",
        "\t\treturn fmt.Errorf(\"имя приложения не может быть пустым\")",
        "\t\x7d",
        "",
        "\tif c.App.Port <= 0 || c.App.Port > 65535 \x7b",
        "\t\treturn fmt.Errorf(\"порт приложения должен быть в диапазоне 1-65535\")",
        "\t\x7d",
        "",
        "\treturn nil",
        "\x7d",
        "",
        "// GetDSN возвращает строку подключения к БД",
        "func (c *Config) GetDSN() string \x7b",
        "\tswitch c.Database.Type \x7b",
        "\tcase \"postgres\":",
        "\t\treturn fmt.Sprintf(\"host=%s port=%d user=%s password=%s dbname=%s sslmode=%s\",",
        "\t\t\tc.Database.Host, c.Database.Port, c.Database.User, c.Database.Password, c.Database.Name, c.Database.SSLMode)",
        "\tcase \"mysql\":",
        "\t\treturn fmt.Sprintf(\"%s:%s@tcp(%s:%d)/%s?charset=%s&parseTime=True&loc=Local\",",
        "\t\t\tc.Database.User, c.Database.Password, c.Database.Host, c.Database.Port, c.Database.Name, c.Database.Charset)",
        "\tcase \"mongodb\":",
        "\t\treturn c.Database.URI",
        "\tcase \"sqlite\":",
        "\t\treturn c.Database.Path",
        "\tdefault:",
        "\t\treturn \"\"",
        "\t\x7d",
        "\x7d",
        ""]]

/-- Go `generateConfigGo`. -/
def generateConfigGo (env : Env) (g : Generator) (config : ProjectConfig) : Act :=
  let configPath := filepathJoin [g.projectPath, "internal/config/config.go"]
  osWriteFile env configPath (render config (configGoContent config))

/-- Go `generateConfig`. -/
def generateConfig (env : Env) (g : Generator) (config : ProjectConfig) : Act :=
  check (generateConfigYAML env g config) id <|
  check (generateConfigGo env g config) id <|
  retNil

/-! ## main.go -/

/-- Go `generateMainGo`: the file body. -/
def mainGoContent (_config : ProjectConfig) : Template :=
  [T ["package main",
      "",
      "import (",
      "\t\"log\"",
      "",
      "\t\""],
   .moduleName,
   T ["/internal/config\"",
      "\t\""],
   .moduleName,
   T ["/internal/app\"",
      ")",
      "",
      "// @title "],
   .name,
   T [" API",
      "// @version 1.0",
      "// @description API документация для "],
   .name,
   T ["",
      "// @host localhost:8080",
      "// @BasePath /api/v1",
      "func main() \x7b",
      "\t// Загружаем конфигурацию",
      "\tcfg, err := config.Load(\"config.yaml\")",
      "\tif err != nil \x7b",
      "\t\tlog.Fatalf(\"Ошибка загрузки конфигурации: %v\", err)",
      "\t\x7d",
      "",
      "\t// Создаем и запускаем приложение",
      "\tapplication := app.New(cfg)",
      "\tif err := application.Run(); err != nil \x7b",
      "\t\tlog.Fatalf(\"Ошибка запуска приложения: %v\", err)",
      "\t\x7d",
      "\x7d",
      ""]]

/-- Go `generateMainGo`. -/
def generateMainGo (env : Env) (g : Generator) (config : ProjectConfig) : Act :=
  let mainPath := filepathJoin [g.projectPath, "cmd/main.go"]
  osWriteFile env mainPath (render config (mainGoContent config))

/-- Go `generateFiberApp`. -/
def generateFiberApp (config : ProjectConfig) : Template :=
  let content : Template :=
    [T ["package app",
        "",
        "import (",
        "\t\"fmt\"",
        "\t\"os\"",
        "\t\"os/signal\"",
        "\t\"syscall\"",
        "",
        "\t\"github.com/gofiber/fiber/v2\"",
        "\t\""],
     .moduleName,
     T ["/internal/config\"",
        "\t\""],
     .moduleName,
     T ["/internal/handlers\"",
        "\t\""],
     .moduleName,
     T ["/pkg/logger\""]]
  let content :=
    if !stringsContains (stringsToLower config.Database) "без" then content ++
      [T ["",
          "\t\""],
       .moduleName,
       T ["/pkg/database\""]]
    else content
  let content := content ++
    [T ["",
        ")",
        "",
        "// App представляет приложение",
        "type App struct \x7b",
        "\tcfg    *config.Config",
        "\tlogger logger.Logger",
        "\tapp    *fiber.App",
        "\x7d",
        "",
        "// New создает новое приложение",
        "func New(cfg *config.Config) *App \x7b",
        "\t// Инициализируем логгер",
        "\tloggerConfig := logger.LoggerConfig\x7b",
        "\t\tLevel:  cfg.Logger.Level,",
        "\t\tFormat: cfg.Logger.Format,",
        "\t\tOutput: cfg.Logger.Output,",
        "\t\x7d",
        "\tlog := logger.New(loggerConfig)",
        "",
        "\treturn &App\x7b",
        "\t\tcfg:    cfg,",
        "\t\tlogger: log,",
        "\t\x7d",
        "\x7d",
        "",
        "// Run запускает приложение",
        "func (a *App) Run() error \x7b"]]
  let content :=
    if !stringsContains (stringsToLower config.Database) "без" then content ++
      [T ["",
          "\t// Инициализируем базу данных",
          "\tdb, err := database.New(a.cfg)",
          "\tif err != nil \x7b",
          "\t\treturn fmt.Errorf(\"ошибка подключения к БД: %w\", err)",
          "\t\x7d",
          "\tdefer db.Close()",
          "\t",
          "\ta.logger.Info(\"Подключение к базе данных установлено\")",
          "",
          "\t// Создаем Fiber приложение",
          "\thandler := handlers.New(a.cfg, a.logger, db)"]]
    else content ++
      [T ["",
          "\t// Создаем Fiber приложение",
          "\thandler := handlers.New(a.cfg, a.logger)"]]
  content ++
    [T ["",
        "\ta.app = handler.SetupRoutes()",
        "",
        "\t// Запускаем Fiber сервер в горутине",
        "\tgo func() \x7b",
        "\t\ta.logger.Info(\"Запуск HTTP сервера\", \"port\", a.cfg.App.Port)",
        "\t\tif err := a.app.Listen(fmt.Sprintf(\":%d\", a.cfg.App.Port)); err != nil \x7b",
        "\t\t\ta.logger.Error(\"Ошибка HTTP сервера\", \"error\", err)",
        "\t\t\x7d",
        "\t\x7d()",
        "",
        "\t// Ожидаем сигналы завершения",
        "\tquit := make(chan os.Signal, 1)",
        "\tsignal.Notify(quit, syscall.SIGINT, syscall.SIGTERM)",
        "\t<-quit",
        "",
        "\ta.logger.Info(\"Получен сигнал завершения, останавливаем сервер...\")",
        "",
        "\t// Graceful shutdown",
        "\tif err := a.app.Shutdown(); err != nil \x7b",
        "\t\treturn fmt.Errorf(\"ошибка остановки сервера: %w\", err)",
        "\t\x7d",
        "",
        "\ta.logger.Info(\"Сервер успешно остановлен\")",
        "\treturn nil",
        "\x7d",
        ""]]

/-- Go `generateStandardApp`. -/
def generateStandardApp (config : ProjectConfig) : Template :=
  let content : Template :=
    [T ["package app",
        "",
        "import (",
        "\t\"context\"",
        "\t\"fmt\"",
        "\t\"net/http\"",
        "\t\"os\"",
        "\t\"os/signal\"",
        "\t\"syscall\"",
        "\t\"time\"",
        "",
        "\t\""],
     .moduleName,
     T ["/internal/config\"",
        "\t\""],
     .moduleName,
     T ["/internal/handlers\"",
        "\t\""],
     .moduleName,
     T ["/pkg/logger\""]]
  let content :=
    if !stringsContains (stringsToLower config.Database) "без" then content ++
      [T ["",
          "\t\""],
       .moduleName,
       T ["/pkg/database\""]]
    else content
  let content := content ++
    [T ["",
        ")",
        "",
        "// App представляет приложение",
        "type App struct \x7b",
        "\tcfg    *config.Config",
        "\tlogger logger.Logger",
        "\tserver *http.Server",
        "\x7d",
        "",
        "// New создает новое приложение",
        "func New(cfg *config.Config) *App \x7b",
        "\t// Инициализируем логгер",
        "\tloggerConfig := logger.LoggerConfig\x7b",
        "\t\tLevel:  cfg.Logger.Level,",
        "\t\tFormat: cfg.Logger.Format,",
        "\t\tOutput: cfg.Logger.Output,",
        "\t\x7d",
        "\tlog := logger.New(loggerConfig)",
        "",
        "\treturn &App\x7b",
        "\t\tcfg:    cfg,",
        "\t\tlogger: log,",
        "\t\x7d",
        "\x7d",
        "",
        "// Run запускает приложение",
        "func (a *App) Run() error \x7b"]]
  let content :=
    if !stringsContains (stringsToLower config.Database) "без" then content ++
      [T ["",
          "\t// Инициализируем базу данных",
          "\tdb, err := database.New(a.cfg)",
          "\tif err != nil \x7b",
          "\t\treturn fmt.Errorf(\"ошибка подключения к БД: %w\", err)",
          "\t\x7d",
          "\tdefer db.Close()",
          "\t",
          "\ta.logger.Info(\"Подключение к базе данных установлено\")",
          "",
          "\t// Создаем HTTP сервер",
          "\thandler := handlers.New(a.cfg, a.logger, db)"]]
    else content ++
      [T ["",
          "\t// Создаем HTTP сервер",
          "\thandler := handlers.New(a.cfg, a.logger)"]]
  content ++
    [T ["",
        "\t",
        "\ta.server = &http.Server\x7b",
        "\t\tAddr:         fmt.Sprintf(\":%d\", a.cfg.App.Port),",
        "\t\tHandler:      handler.SetupRoutes(),",
        "\t\tReadTimeout:  15 * time.Second,",
        "\t\tWriteTimeout: 15 * time.Second,",
        "\t\tIdleTimeout:  60 * time.Second,",
        "\t\x7d",
        "",
        "\t// Запускаем HTTP сервер в горутине",
        "\tgo func() \x7b",
        "\t\ta.logger.Info(\"Запуск HTTP сервера\", \"port\", a.cfg.App.Port)",
        "\t\tif err := a.server.ListenAndServe(); err != nil && err != http.ErrServerClosed \x7b",
        "\t\t\ta.logger.Error(\"Ошибка HTTP сервера\", \"error\", err)",
        "\t\t\x7d",
        "\t\x7d()",
        "",
        "\t// Ожидаем сигналы завершения",
        "\tquit := make(chan os.Signal, 1)",
        "\tsignal.Notify(quit, syscall.SIGINT, syscall.SIGTERM)",
        "\t<-quit",
        "",
        "\ta.logger.Info(\"Получен сигнал завершения, останавливаем сервер...\")",
        "",
        "\t// Graceful shutdown",
        "\tctx, cancel := context.WithTimeout(context.Background(), 30*time.Second)",
        "\tdefer cancel()",
        "",
        "\tif err := a.server.Shutdown(ctx); err != nil \x7b",
        "\t\treturn fmt.Errorf(\"ошибка остановки сервера: %w\", err)",
        "\t\x7d",
        "",
        "\ta.logger.Info(\"Сервер успешно остановлен\")",
        "\treturn nil",
        "\x7d",
        ""]]

/-- Go `generateAppGo`: the file body. -/
def appGoContent (config : ProjectConfig) : Template :=
  if stringsToLower config.Framework = "fiber" then generateFiberApp config
  else generateStandardApp config

/-- Go `generateAppGo`. -/
def generateAppGo (env : Env) (g : Generator) (config : ProjectConfig) : Act :=
  let content := appGoContent config
  let appPath := filepathJoin [g.projectPath, "internal/app"]
  check (osMkdirAll env appPath) id <|
  let appGoPath := filepathJoin [appPath, "app.go"]
  osWriteFile env appGoPath (render config content)

/-- Go `generateContext`: the file body. -/
def contextContent (_config : ProjectConfig) : Template :=
  [T ["package context",
      "",
      "import (",
      "\t\"context\"",
      "\t\"time\"",
      "",
      "\t\""],
   .moduleName,
   T ["/pkg/logger\"",
      ")",
      "",
      "// AppContext представляет контекст приложения",
      "type AppContext struct \x7b",
      "\tctx    context.Context",
      "\tlogger logger.Logger",
      "\tuserID string",
      "\ttraceID string",
      "\x7d",
      "",
      "// New создает новый контекст приложения",
      "func New(ctx context.Context, logger logger.Logger) *AppContext \x7b",
      "\treturn &AppContext\x7b",
      "\t\tctx:    ctx,",
      "\t\tlogger: logger,",
      "\t\x7d",
      "\x7d",
      "",
      "// Context возвращает базовый контекст",
      "func (c *AppContext) Context() context.Context \x7b",
      "\treturn c.ctx",
      "\x7d",
      "",
      "// Logger возвращает логгер",
      "func (c *AppContext) Logger() logger.Logger \x7b",
      "\treturn c.logger",
      "\x7d",
      "",
      "// WithUserID устанавливает ID пользователя",
      "func (c *AppContext) WithUserID(userID string) *AppContext \x7b",
      "\tnewCtx := *c",
      "\tnewCtx.userID = userID",
      "\treturn &newCtx",
      "\x7d",
      "",
      "// UserID возвращает ID пользователя",
      "func (c *AppContext) UserID() string \x7b",
      "\treturn c.userID",
      "\x7d",
      "",
      "// WithTraceID устанавливает ID трассировки",
      "func (c *AppContext) WithTraceID(traceID string) *AppContext \x7b",
      "\tnewCtx := *c",
      "\tnewCtx.traceID = traceID",
      "\treturn &newCtx",
      "\x7d",
      "",
      "// TraceID возвращает ID трассировки",
      "func (c *AppContext) TraceID() string \x7b",
      "\treturn c.traceID",
      "\x7d",
      "",
      "// WithTimeout создает контекст с таймаутом",
      "func (c *AppContext) WithTimeout(timeout time.Duration) (*AppContext, context.CancelFunc) \x7b",
      "\tctx, cancel := context.WithTimeout(c.ctx, timeout)",
      "\tnewCtx := *c",
      "\tnewCtx.ctx = ctx",
      "\treturn &newCtx, cancel",
      "\x7d",
      "",
      "// WithDeadline создает контекст с дедлайном",
      "func (c *AppContext) WithDeadline(deadline time.Time) (*AppContext, context.CancelFunc) \x7b",
      "\tctx, cancel := context.WithDeadline(c.ctx, deadline)",
      "\tnewCtx := *c",
      "\tnewCtx.ctx = ctx",
      "\treturn &newCtx, cancel",
      "\x7d",
      "",
      "// Done возвращает канал завершения",
      "func (c *AppContext) Done() <-chan struct\x7b\x7d \x7b",
      "\treturn c.ctx.Done()",
      "\x7d",
      "",
      "// Err возвращает ошибку контекста",
      "func (c *AppContext) Err() error \x7b",
      "\treturn c.ctx.Err()",
      "\x7d",
      ""]]

/-- Go `generateContext`. -/
def generateContext (env : Env) (g : Generator) (config : ProjectConfig) : Act :=
  let contextPath := filepathJoin [g.projectPath, "pkg/context/context.go"]
  osWriteFile env contextPath (render config (contextContent config))

/-- Go `generateLogger`: the file body. -/
def loggerContent (_config : ProjectConfig) : Template :=
  [T ["package logger",
      "",
      "import (",
      "\t\"fmt\"",
      "\t\"os\"",
      "",
      "\t\"github.com/sirupsen/logrus\"",
      ")",
      "",
      "// Logger интерфейс для логгирования",
      "type Logger interface \x7b",
      "\tDebug(msg string, fields ...interface\x7b\x7d)",
      "\tInfo(msg string, fields ...interface\x7b\x7d)",
      "\tWarn(msg string, fields ...interface\x7b\x7d)",
      "\tError(msg string, fields ...interface\x7b\x7d)",
      "\tFatal(msg string, fields ...interface\x7b\x7d)",
      "\tWithField(key string, value interface\x7b\x7d) Logger",
      "\tWithFields(fields map[string]interface\x7b\x7d) Logger",
      "\x7d",
      "",
      "// LogrusLogger реализация Logger на основе logrus",
      "type LogrusLogger struct \x7b",
      "\tentry *logrus.Entry",
      "\x7d",
      "",
      "// LoggerConfig конфигурация логгера",
      "type LoggerConfig struct \x7b",
      "\tLevel  string",
      "\tFormat string",
      "\tOutput string",
      "\x7d",
      "",
      "// New создает новый логгер",
      "func New(config LoggerConfig) Logger \x7b",
      "\tlog := logrus.New()",
      "",
      "\t// Устанавливаем уровень",
      "\tlevel, err := logrus.ParseLevel(config.Level)",
      "\tif err != nil \x7b",
      "\t\tlevel = logrus.InfoLevel",
      "\t\x7d",
      "\tlog.SetLevel(level)",
      "",
      "\t// Устанавливаем формат",
      "\tswitch config.Format \x7b",
      "\tcase \"json\":",
      "\t\tlog.SetFormatter(&logrus.JSONFormatter\x7b\x7d)",
      "\tdefault:",
      "\t\tlog.SetFormatter(&logrus.TextFormatter\x7b",
      "\t\t\tFullTimestamp: true,",
      "\t\t\x7d)",
      "\t\x7d",
      "",
      "\t// Устанавливаем вывод",
      "\tswitch config.Output \x7b",
      "\tcase \"stdout\":",
      "\t\tlog.SetOutput(os.Stdout)",
      "\tcase \"stderr\":",
      "\t\tlog.SetOutput(os.Stderr)",
      "\tdefault:",
      "\t\tlog.SetOutput(os.Stdout)",
      "\t\x7d",
      "",
      "\treturn &LogrusLogger\x7b",
      "\t\tentry: logrus.NewEntry(log),",
      "\t\x7d",
      "\x7d",
      "",
      "// Debug логирует отладочное сообщение",
      "func (l *LogrusLogger) Debug(msg string, fields ...interface\x7b\x7d) \x7b",
      "\tl.entry.WithFields(l.parseFields(fields...)).Debug(msg)",
      "\x7d",
      "",
      "// Info логирует информационное сообщение",
      "func (l *LogrusLogger) Info(msg string, fields ...interface\x7b\x7d) \x7b",
      "\tl.entry.WithFields(l.parseFields(fields...)).Info(msg)",
      "\x7d",
      "",
      "// Warn логирует предупреждение",
      "func (l *LogrusLogger) Warn(msg string, fields ...interface\x7b\x7d) \x7b",
      "\tl.entry.WithFields(l.parseFields(fields...)).Warn(msg)",
      "\x7d",
      "",
      "// Error логирует ошибку",
      "func (l *LogrusLogger) Error(msg string, fields ...interface\x7b\x7d) \x7b",
      "\tl.entry.WithFields(l.parseFields(fields...)).Error(msg)",
      "\x7d",
      "",
      "// Fatal логирует фатальную ошибку",
      "func (l *LogrusLogger) Fatal(msg string, fields ...interface\x7b\x7d) \x7b",
      "\tl.entry.WithFields(l.parseFields(fields...)).Fatal(msg)",
      "\x7d",
      "",
      "// WithField добавляет поле к логгеру",
      "func (l *LogrusLogger) WithField(key string, value interface\x7b\x7d) Logger \x7b",
      "\treturn &LogrusLogger\x7b",
      "\t\tentry: l.entry.WithField(key, value),",
      "\t\x7d",
      "\x7d",
      "",
      "// WithFields добавляет поля к логгеру",
      "func (l *LogrusLogger) WithFields(fields map[string]interface\x7b\x7d) Logger \x7b",
      "\treturn &LogrusLogger\x7b",
      "\t\tentry: l.entry.WithFields(fields),",
      "\t\x7d",
      "\x7d",
      "",
      "// parseFields парсит поля из slice",
      "func (l *LogrusLogger) parseFields(fields ...interface\x7b\x7d) logrus.Fields \x7b",
      "\tparsed := make(logrus.Fields)",
      "\t",
      "\tfor i := 0; i < len(fields); i += 2 \x7b",
      "\t\tif i+1 < len(fields) \x7b",
      "\t\t\tkey := fmt.Sprintf(\"%v\", fields[i])",
      "\t\t\tparsed[key] = fields[i+1]",
      "\t\t\x7d",
      "\t\x7d",
      "\t",
      "\treturn parsed",
      "\x7d",
      ""]]

/-- Go `generateLogger`. -/
def generateLogger (env : Env) (g : Generator) (config : ProjectConfig) : Act :=
  let loggerPath := filepathJoin [g.projectPath, "pkg/logger/logger.go"]
  osWriteFile env loggerPath (render config (loggerContent config))

/-- Go `generateMainFiles`. -/
def generateMainFiles (env : Env) (g : Generator) (config : ProjectConfig) : Act :=
  check (generateMainGo env g config) id <|
  check (generateAppGo env g config) id <|
  check (generateContext env g config) id <|
  check (generateLogger env g config) id <|
  retNil

/-! ## handlers.go -/

/-- Go `generateGinHandler`. -/
def generateGinHandler (config : ProjectConfig) : Template :=
  let content : Template :=
    [T ["package handlers",
        "",
        "import (",
        "\t\"github.com/gin-gonic/gin\"",
        "\tswaggerFiles \"github.com/swaggo/files\"",
        "\tginSwagger \"github.com/swaggo/gin-swagger\"",
        "",
        "\t\""],
     .moduleName,
     T ["/internal/config\"",
        "\t\""],
     .moduleName,
     T ["/pkg/logger\""]]
  let content :=
    if !stringsContains (stringsToLower config.Database) "без" then content ++
      [T ["",
          "\t\""],
       .moduleName,
       T ["/pkg/database\""]]
    else content
  let content := content ++
    [T ["",
        ")",
        "",
        "// Handler представляет HTTP handler",
        "type Handler struct \x7b",
        "\tcfg    *config.Config",
        "\tlogger logger.Logger"]]
  let content :=
    if !stringsContains (stringsToLower config.Database) "без" then content ++
      [T ["",
          "\tdb     database.Database"]]
    else content
  let content := content ++
    [T ["",
        "\x7d",
        "",
        "// New создает новый handler",
        "func New(cfg *config.Config, logger logger.Logger"]]
  let content :=
    if !stringsContains (stringsToLower config.Database) "без" then content ++
      [T [", db database.Database"]]
    else content
  let content := content ++
    [T [") *Handler \x7b",
        "\treturn &Handler\x7b",
        "\t\tcfg:    cfg,",
        "\t\tlogger: logger,"]]
  let content :=
    if !stringsContains (stringsToLower config.Database) "без" then content ++
      [T ["",
          "\t\tdb:     db,"]]
    else content
  content ++
    [T ["",
        "\t\x7d",
        "\x7d",
        "",
        "// SetupRoutes настраивает маршруты",
        "func (h *Handler) SetupRoutes() *gin.Engine \x7b",
        "\tif h.cfg.App.Debug \x7b",
        "\t\tgin.SetMode(gin.DebugMode)",
        "\t\x7d else \x7b",
        "\t\tgin.SetMode(gin.ReleaseMode)",
        "\t\x7d",
        "",
        "\trouter := gin.New()",
        "\t",
        "\t// Middleware",
        "\trouter.Use(gin.Logger())",
        "\trouter.Use(gin.Recovery())",
        "",
        "\t// Health check",
        "\trouter.GET(\"/health\", h.HealthCheck)",
        "",
        "\t// API группа",
        "\tapi := router.Group(\"/api/v1\")",
        "\t\x7b",
        "\t\t// Здесь будут API маршруты",
        "\t\tapi.GET(\"/ping\", h.Ping)",
        "\t\x7d",
        "",
        "\t// Swagger",
        "\tif h.cfg.Swagger.Enabled \x7b",
        "\t\trouter.GET(\"/swagger/*any\", ginSwagger.WrapHandler(swaggerFiles.Handler))",
        "\t\x7d",
        "",
        "\treturn router",
        "\x7d",
        "",
        "// Ping простой ping endpoint",
        "// @Summary Ping",
        "// @Description Проверка работоспособности API",
        "// @Tags health",
        "// @Accept json",
        "// @Produce json",
        "// @Success 200 \x7bobject\x7d map[string]string",
        "// @Router /api/v1/ping [get]",
        "func (h *Handler) Ping(c *gin.Context) \x7b",
        "\tc.JSON(200, gin.H\x7b",
        "\t\t\"message\": \"pong\",",
        "\t\t\"service\": h.cfg.App.Name,",
        "\t\t\"version\": h.cfg.App.Version,",
        "\t\x7d)",
        "\x7d",
        ""]]

/-- Go `generateFiberHandler`. -/
def generateFiberHandler (config : ProjectConfig) : Template :=
  let content : Template :=
    [T ["package handlers",
        "",
        "import (",
        "\t\"github.com/gofiber/fiber/v2\"",
        "\t\"github.com/gofiber/fiber/v2/middleware/cors\"",
        "\t\"github.com/gofiber/fiber/v2/middleware/logger\"",
        "\t\"github.com/gofiber/fiber/v2/middleware/recover\"",
        "\t\"github.com/gofiber/swagger\"",
        "",
        "\t\""],
     .moduleName,
     T ["/internal/config\"",
        "\tapplogger \""],
     .moduleName,
     T ["/pkg/logger\""]]
  let content :=
    if !stringsContains (stringsToLower config.Database) "без" then content ++
      [T ["",
          "\t\""],
       .moduleName,
       T ["/pkg/database\""]]
    else content
  let content := content ++
    [T ["",
        ")",
        "",
        "// Handler представляет HTTP handler",
        "type Handler struct \x7b",
        "\tcfg    *config.Config",
        "\tlogger applogger.Logger"]]
  let content :=
    if !stringsContains (stringsToLower config.Database) "без" then content ++
      [T ["",
          "\tdb     database.Database"]]
    else content
  let content := content ++
    [T ["",
        "\x7d",
        "",
        "// New создает новый handler",
        "func New(cfg *config.Config, logger applogger.Logger"]]
  let content :=
    if !stringsContains (stringsToLower config.Database) "без" then content ++
      [T [", db database.Database"]]
    else content
  let content := content ++
    [T [") *Handler \x7b",
        "\treturn &Handler\x7b",
        "\t\tcfg:    cfg,",
        "\t\tlogger: logger,"]]
  let content :=
    if !stringsContains (stringsToLower config.Database) "без" then content ++
      [T ["",
          "\t\tdb:     db,"]]
    else content
  content ++
    [T ["",
        "\t\x7d",
        "\x7d",
        "",
        "// SetupRoutes настраивает маршруты",
        "func (h *Handler) SetupRoutes() *fiber.App \x7b",
        "\tapp := fiber.New(fiber.Config\x7b",
        "\t\tAppName: h.cfg.App.Name,",
        "\t\x7d)",
        "",
        "\t// Middleware",
        "\tapp.Use(logger.New())",
        "\tapp.Use(recover.New())",
        "\tapp.Use(cors.New())",
        "",
        "\t// Health check",
        "\tapp.Get(\"/health\", h.HealthCheck)",
        "",
        "\t// API группа",
        "\tapi := app.Group(\"/api/v1\")",
        "\t\x7b",
        "\t\t// Здесь будут API маршруты",
        "\t\tapi.Get(\"/ping\", h.Ping)",
        "\t\x7d",
        "",
        "\t// Swagger",
        "\tif h.cfg.Swagger.Enabled \x7b",
        "\t\tapp.Get(\"/swagger/*\", swagger.HandlerDefault)",
        "\t\x7d",
        "",
        "\treturn app",
        "\x7d",
        "",
        "// Ping простой ping endpoint",
        "// @Summary Ping",
        "// @Description Проверка работоспособности API",
        "// @Tags health",
        "// @Accept json",
        "// @Produce json",
        "// @Success 200 \x7bobject\x7d map[string]string",
        "// @Router /api/v1/ping [get]",
        "func (h *Handler) Ping(c *fiber.Ctx) error \x7b",
        "\treturn c.JSON(fiber.Map\x7b",
        "\t\t\"message\": \"pong\",",
        "\t\t\"service\": h.cfg.App.Name,",
        "\t\t\"version\": h.cfg.App.Version,",
        "\t\x7d)",
        "\x7d",
        ""]]

/-- Go `generateEchoHandler`. -/
def generateEchoHandler (config : ProjectConfig) : Template :=
  let content : Template :=
    [T ["package handlers",
        "",
        "import (",
        "\t\"net/http\"",
        "",
        "\t\"github.com/labstack/echo/v4\"",
        "\t\"github.com/labstack/echo/v4/middleware\"",
        "\techoSwagger \"github.com/swaggo/echo-swagger\"",
        "",
        "\t\""],
     .moduleName,
     T ["/internal/config\"",
        "\t\""],
     .moduleName,
     T ["/pkg/logger\""]]
  let content :=
    if !stringsContains (stringsToLower config.Database) "без" then content ++
      [T ["",
          "\t\""],
       .moduleName,
       T ["/pkg/database\""]]
    else content
  let content := content ++
    [T ["",
        ")",
        "",
        "// Handler представляет HTTP handler",
        "type Handler struct \x7b",
        "\tcfg    *config.Config",
        "\tlogger logger.Logger"]]
  let content :=
    if !stringsContains (stringsToLower config.Database) "без" then content ++
      [T ["",
          "\tdb     database.Database"]]
    else content
  let content := content ++
    [T ["",
        "\x7d",
        "",
        "// New создает новый handler",
        "func New(cfg *config.Config, logger logger.Logger"]]
  let content :=
    if !stringsContains (stringsToLower config.Database) "без" then content ++
      [T [", db database.Database"]]
    else content
  let content := content ++
    [T [") *Handler \x7b",
        "\treturn &Handler\x7b",
        "\t\tcfg:    cfg,",
        "\t\tlogger: logger,"]]
  let content :=
    if !stringsContains (stringsToLower config.Database) "без" then content ++
      [T ["",
          "\t\tdb:     db,"]]
    else content
  content ++
    [T ["",
        "\t\x7d",
        "\x7d",
        "",
        "// SetupRoutes настраивает маршруты",
        "func (h *Handler) SetupRoutes() *echo.Echo \x7b",
        "\te := echo.New()",
        "",
        "\t// Middleware",
        "\te.Use(middleware.Logger())",
        "\te.Use(middleware.Recover())",
        "\te.Use(middleware.CORS())",
        "",
        "\t// Health check",
        "\te.GET(\"/health\", h.HealthCheck)",
        "",
        "\t// API группа",
        "\tapi := e.Group(\"/api/v1\")",
        "\t\x7b",
        "\t\t// Здесь будут API маршруты",
        "\t\tapi.GET(\"/ping\", h.Ping)",
        "\t\x7d",
        "",
        "\t// Swagger",
        "\tif h.cfg.Swagger.Enabled \x7b",
        "\t\te.GET(\"/swagger/*\", echoSwagger.WrapHandler)",
        "\t\x7d",
        "",
        "\treturn e",
        "\x7d",
        "",
        "// Ping простой ping endpoint",
        "// @Summary Ping",
        "// @Description Проверка работоспособности API",
        "// @Tags health",
        "// @Accept json",
        "// @Produce json",
        "// @Success 200 \x7bobject\x7d map[string]string",
        "// @Router /api/v1/ping [get]",
        "func (h *Handler) Ping(c echo.Context) error \x7b",
        "\treturn c.JSON(http.StatusOK, map[string]interface\x7b\x7d\x7b",
        "\t\t\"message\": \"pong\",",
        "\t\t\"service\": h.cfg.App.Name,",
        "\t\t\"version\": h.cfg.App.Version,",
        "\t\x7d)",
        "\x7d",
        ""]]

/-- Go `generateBaseHandler`: the file body. -/
def baseHandlerContent (config : ProjectConfig) : Template :=
  if stringsToLower config.Framework = "gin" then generateGinHandler config
  else if stringsToLower config.Framework = "fiber" then generateFiberHandler config
  else if stringsToLower config.Framework = "echo" then generateEchoHandler config
  else generateGinHandler config

/-- Go `generateBaseHandler`. -/
def generateBaseHandler (env : Env) (g : Generator) (config : ProjectConfig) : Act :=
  let content := baseHandlerContent config
  let handlerPath := filepathJoin [g.projectPath, "internal/handlers/handler.go"]
  osWriteFile env handlerPath (render config content)

/-- Go `generateGinHealthHandler`. -/
def generateGinHealthHandler (config : ProjectConfig) : Template :=
  let content : Template :=
    [T ["package handlers",
        "",
        "import (",
        "\t\"net/http\"",
        "\t\"runtime\"",
        "\t\"time\"",
        "",
        "\t\"github.com/gin-gonic/gin\"",
        ")",
        "",
        "// HealthResponse представляет ответ health check",
        "type HealthResponse struct \x7b",
        "\tStatus    string            `json:\"status\"`",
        "\tService   string            `json:\"service\"`",
        "\tVersion   string            `json:\"version\"`",
        "\tTimestamp time.Time         `json:\"timestamp\"`",
        "\tUptime    string            `json:\"uptime\"`",
        "\tSystem    SystemInfo        `json:\"system\"`",
        "\tDatabase  *DatabaseStatus   `json:\"database,omitempty\"`",
        "\x7d",
        "",
        "// SystemInfo информация о системе",
        "type SystemInfo struct \x7b",
        "\tGoVersion  string `json:\"go_version\"`",
        "\tNumCPU     int    `json:\"num_cpu\"`",
        "\tGoroutines int    `json:\"goroutines\"`",
        "\x7d",
        "",
        "// DatabaseStatus статус базы данных",
        "type DatabaseStatus struct \x7b",
        "\tConnected bool   `json:\"connected\"`",
        "\tError     string `json:\"error,omitempty\"`",
        "\x7d",
        "",
        "var startTime = time.Now()",
        "",
        "// HealthCheck проверка работоспособности сервиса",
        "// @Summary Health Check",
        "// @Description Проверка работоспособности и статуса сервиса",
        "// @Tags health",
        "// @Accept json",
        "// @Produce json",
        "// @Success 200 \x7bobject\x7d HealthResponse",
        "// @Router /health [get]",
        "func (h *Handler) HealthCheck(c *gin.Context) \x7b",
        "\tresponse := HealthResponse\x7b",
        "\t\tStatus:    \"ok\",",
        "\t\tService:   h.cfg.App.Name,",
        "\t\tVersion:   h.cfg.App.Version,",
        "\t\tTimestamp: time.Now(),",
        "\t\tUptime:    time.Since(startTime).String(),",
        "\t\tSystem: SystemInfo\x7b",
        "\t\t\tGoVersion:  runtime.Version(),",
        "\t\t\tNumCPU:     runtime.NumCPU(),",
        "\t\t\tGoroutines: runtime.NumGoroutine(),",
        "\t\t\x7d,",
        "\t\x7d"]]
  let content :=
    if !stringsContains (stringsToLower config.Database) "без" then content ++
      [T ["",
          "",
          "\t// Проверяем статус БД",
          "\tdbStatus := &DatabaseStatus\x7bConnected: true\x7d",
          "\tif err := h.db.Ping(); err != nil \x7b",
          "\t\tdbStatus.Connected = false",
          "\t\tdbStatus.Error = err.Error()",
          "\t\tresponse.Status = \"degraded\"",
          "\t\x7d",
          "\tresponse.Database = dbStatus"]]
    else content
  content ++
    [T ["",
        "",
        "\tstatus := http.StatusOK",
        "\tif response.Status != \"ok\" \x7b",
        "\t\tstatus = http.StatusServiceUnavailable",
        "\t\x7d",
        "",
        "\tc.JSON(status, response)",
        "\x7d",
        ""]]

/-- Go `generateFiberHealthHandler`. -/
def generateFiberHealthHandler (config : ProjectConfig) : Template :=
  let content : Template :=
    [T ["package handlers",
        "",
        "import (",
        "\t\"runtime\"",
        "\t\"time\"",
        "",
        "\t\"github.com/gofiber/fiber/v2\"",
        ")",
        "",
        "// HealthResponse представляет ответ health check",
        "type HealthResponse struct \x7b",
        "\tStatus    string            `json:\"status\"`",
        "\tService   string            `json:\"service\"`",
        "\tVersion   string            `json:\"version\"`",
        "\tTimestamp time.Time         `json:\"timestamp\"`",
        "\tUptime    string            `json:\"uptime\"`",
        "\tSystem    SystemInfo        `json:\"system\"`",
        "\tDatabase  *DatabaseStatus   `json:\"database,omitempty\"`",
        "\x7d",
        "",
        "// SystemInfo информация о системе",
        "type SystemInfo struct \x7b",
        "\tGoVersion  string `json:\"go_version\"`",
        "\tNumCPU     int    `json:\"num_cpu\"`",
        "\tGoroutines int    `json:\"goroutines\"`",
        "\x7d",
        "",
        "// DatabaseStatus статус базы данных",
        "type DatabaseStatus struct \x7b",
        "\tConnected bool   `json:\"connected\"`",
        "\tError     string `json:\"error,omitempty\"`",
        "\x7d",
        "",
        "var startTime = time.Now()",
        "",
        "// HealthCheck проверка работоспособности сервиса",
        "// @Summary Health Check",
        "// @Description Проверка работоспособности и статуса сервиса",
        "// @Tags health",
        "// @Accept json",
        "// @Produce json",
        "// @Success 200 \x7bobject\x7d HealthResponse",
        "// @Router /health [get]",
        "func (h *Handler) HealthCheck(c *fiber.Ctx) error \x7b",
        "\tresponse := HealthResponse\x7b",
        "\t\tStatus:    \"ok\",",
        "\t\tService:   h.cfg.App.Name,",
        "\t\tVersion:   h.cfg.App.Version,",
        "\t\tTimestamp: time.Now(),",
        "\t\tUptime:    time.Since(startTime).String(),",
        "\t\tSystem: SystemInfo\x7b",
        "\t\t\tGoVersion:  runtime.Version(),",
        "\t\t\tNumCPU:     runtime.NumCPU(),",
        "\t\t\tGoroutines: runtime.NumGoroutine(),",
        "\t\t\x7d,",
        "\t\x7d"]]
  let content :=
    if !stringsContains (stringsToLower config.Database) "без" then content ++
      [T ["",
          "",
          "\t// Проверяем статус БД",
          "\tdbStatus := &DatabaseStatus\x7bConnected: true\x7d",
          "\tif err := h.db.Ping(); err != nil \x7b",
          "\t\tdbStatus.Connected = false",
          "\t\tdbStatus.Error = err.Error()",
          "\t\tresponse.Status = \"degraded\"",
          "\t\x7d",
          "\tresponse.Database = dbStatus"]]
    else content
  content ++
    [T ["",
        "",
        "\tstatus := fiber.StatusOK",
        "\tif response.Status != \"ok\" \x7b",
        "\t\tstatus = fiber.StatusServiceUnavailable",
        "\t\x7d",
        "",
        "\treturn c.Status(status).JSON(response)",
        "\x7d",
        ""]]

/-- Go `generateEchoHealthHandler`. -/
def generateEchoHealthHandler (config : ProjectConfig) : Template :=
  let content : Template :=
    [T ["package handlers",
        "",
        "import (",
        "\t\"net/http\"",
        "\t\"runtime\"",
        "\t\"time\"",
        "",
        "\t\"github.com/labstack/echo/v4\"",
        ")",
        "",
        "// HealthResponse представляет ответ health check",
        "type HealthResponse struct \x7b",
        "\tStatus    string            `json:\"status\"`",
        "\tService   string            `json:\"service\"`",
        "\tVersion   string            `json:\"version\"`",
        "\tTimestamp time.Time         `json:\"timestamp\"`",
        "\tUptime    string            `json:\"uptime\"`",
        "\tSystem    SystemInfo        `json:\"system\"`",
        "\tDatabase  *DatabaseStatus   `json:\"database,omitempty\"`",
        "\x7d",
        "",
        "// SystemInfo информация о системе",
        "type SystemInfo struct \x7b",
        "\tGoVersion  string `json:\"go_version\"`",
        "\tNumCPU     int    `json:\"num_cpu\"`",
        "\tGoroutines int    `json:\"goroutines\"`",
        "\x7d",
        "",
        "// DatabaseStatus статус базы данных",
        "type DatabaseStatus struct \x7b",
        "\tConnected bool   `json:\"connected\"`",
        "\tError     string `json:\"error,omitempty\"`",
        "\x7d",
        "",
        "var startTime = time.Now()",
        "",
        "// HealthCheck проверка работоспособности сервиса",
        "// @Summary Health Check",
        "// @Description Проверка работоспособности и статуса сервиса",
        "// @Tags health",
        "// @Accept json",
        "// @Produce json",
        "// @Success 200 \x7bobject\x7d HealthResponse",
        "// @Router /health [get]",
        "func (h *Handler) HealthCheck(c echo.Context) error \x7b",
        "\tresponse := HealthResponse\x7b",
        "\t\tStatus:    \"ok\",",
        "\t\tService:   h.cfg.App.Name,",
        "\t\tVersion:   h.cfg.App.Version,",
        "\t\tTimestamp: time.Now(),",
        "\t\tUptime:    time.Since(startTime).String(),",
        "\t\tSystem: SystemInfo\x7b",
        "\t\t\tGoVersion:  runtime.Version(),",
        "\t\t\tNumCPU:     runtime.NumCPU(),",
        "\t\t\tGoroutines: runtime.NumGoroutine(),",
        "\t\t\x7d,",
        "\t\x7d"]]
  let content :=
    if !stringsContains (stringsToLower config.Database) "без" then content ++
      [T ["",
          "",
          "\t// Проверяем статус БД",
          "\tdbStatus := &DatabaseStatus\x7bConnected: true\x7d",
          "\tif err := h.db.Ping(); err != nil \x7b",
          "\t\tdbStatus.Connected = false",
          "\t\tdbStatus.Error = err.Error()",
          "\t\tresponse.Status = \"degraded\"",
          "\t\x7d",
          "\tresponse.Database = dbStatus"]]
    else content
  content ++
    [T ["",
        "",
        "\tstatus := http.StatusOK",
        "\tif response.Status != \"ok\" \x7b",
        "\t\tstatus = http.StatusServiceUnavailable",
        "\t\x7d",
        "",
        "\treturn c.JSON(status, response)",
        "\x7d",
        ""]]

/-- Go `generateHealthHandler`: the file body. -/
def healthHandlerContent (config : ProjectConfig) : Template :=
  if stringsToLower config.Framework = "gin" then generateGinHealthHandler config
  else if stringsToLower config.Framework = "fiber" then generateFiberHealthHandler config
  else if stringsToLower config.Framework = "echo" then generateEchoHealthHandler config
  else generateGinHealthHandler config

/-- Go `generateHealthHandler`. -/
def generateHealthHandler (env : Env) (g : Generator) (config : ProjectConfig) : Act :=
  let content := healthHandlerContent config
  let healthPath := filepathJoin [g.projectPath, "internal/handlers/health.go"]
  osWriteFile env healthPath (render config content)

/-- Go `generateMiddleware`: the file body. -/
def middlewareContent (_config : ProjectConfig) : Template :=
  [T ["package middleware",
      "",
      "import (",
      "\t\"time\"",
      "",
      "\t\""],
   .moduleName,
   T ["/pkg/logger\"",
      ")",
      "",
      "// LoggerMiddleware middleware для логирования",
      "func LoggerMiddleware(logger logger.Logger) interface\x7b\x7d \x7b",
      "\t// TODO: Реализовать middleware для выбранного фреймворка",
      "\treturn nil",
      "\x7d",
      "",
      "// AuthMiddleware middleware для аутентификации",
      "func AuthMiddleware(logger logger.Logger) interface\x7b\x7d \x7b",
      "\t// TODO: Реализовать аутентификацию",
      "\treturn nil",
      "\x7d",
      "",
      "// CORSMiddleware middleware для CORS",
      "func CORSMiddleware() interface\x7b\x7d \x7b",
      "\t// TODO: Реализовать CORS",
      "\treturn nil",
      "\x7d",
      "",
      "// RateLimitMiddleware middleware для ограничения запросов",
      "func RateLimitMiddleware(requests int, window time.Duration) interface\x7b\x7d \x7b",
      "\t// TODO: Реализовать rate limiting",
      "\treturn nil",
      "\x7d",
      ""]]

/-- Go `generateMiddleware`. -/
def generateMiddleware (env : Env) (g : Generator) (config : ProjectConfig) : Act :=
  let middlewarePath := filepathJoin [g.projectPath, "internal/middleware/middleware.go"]
  osWriteFile env middlewarePath (render config (middlewareContent config))

/-- Go `generateHandlers`. -/
def generateHandlers (env : Env) (g : Generator) (config : ProjectConfig) : Act :=
  check (generateBaseHandler env g config) id <|
  check (generateHealthHandler env g config) id <|
  check (generateMiddleware env g config) id <|
  retNil

/-! ## database.go -/

/-- Go `generateDatabaseInterface`: the file body. -/
def databaseInterfaceContent (_config : ProjectConfig) : Template :=
  [T ["package database",
      "",
      "import (",
      "\t\"context\"",
      "\t\"time\"",
      "",
      "\tappcontext \""],
   .moduleName,
   T ["/pkg/context\"",
      ")",
      "",
      "// Database интерфейс для работы с базой данных",
      "type Database interface \x7b",
      "\t// Подключение и отключение",
      "\tConnect() error",
      "\tClose() error",
      "\tPing() error",
      "",
      "\t// Транзакции",
      "\tBeginTx(ctx context.Context) (Tx, error)",
      "",
      "\t// Миграции",
      "\tMigrate() error",
      "",
      "\t// Статистика",
      "\tStats() Stats",
      "\x7d",
      "",
      "// Tx интерфейс для транзакций",
      "type Tx interface \x7b",
      "\tCommit() error",
      "\tRollback() error",
      "\tContext() context.Context",
      "\x7d",
      "",
      "// Stats статистика подключений к БД",
      "type Stats struct \x7b",
      "\tOpenConnections int",
      "\tInUseConnections int",
      "\tIdleConnections int",
      "\x7d",
      "",
      "// Repository базовый интерфейс для репозиториев",
      "type Repository interface \x7b",
      "\tSetContext(ctx *appcontext.AppContext)",
      "\tGetContext() *appcontext.AppContext",
      "\x7d",
      "",
      "// BaseRepository базовая реализация репозитория",
      "type BaseRepository struct \x7b",
      "\tctx *appcontext.AppContext",
      "\tdb  Database",
      "\x7d",
      "",
      "// NewBaseRepository создает новый базовый репозиторий",
      "func NewBaseRepository(db Database) *BaseRepository \x7b",
      "\treturn &BaseRepository\x7b",
      "\t\tdb: db,",
      "\t\x7d",
      "\x7d",
      "",
      "// SetContext устанавливает контекст",
      "func (r *BaseRepository) SetContext(ctx *appcontext.AppContext) \x7b",
      "\tr.ctx = ctx",
      "\x7d",
      "",
      "// GetContext возвращает контекст",
      "func (r *BaseRepository) GetContext() *appcontext.AppContext \x7b",
      "\treturn r.ctx",
      "\x7d",
      "",
      "// DB возвращает подключение к БД",
      "func (r *BaseRepository) DB() Database \x7b",
      "\treturn r.db",
      "\x7d",
      "",
      "// Logger возвращает логгер из контекста",
      "func (r *BaseRepository) Logger() interface\x7b\x7d \x7b",
      "\tif r.ctx != nil \x7b",
      "\t\treturn r.ctx.Logger()",
      "\t\x7d",
      "\treturn nil",
      "\x7d",
      ""]]

/-- Go `generateDatabaseInterface`. -/
def generateDatabaseInterface (env : Env) (g : Generator) (config : ProjectConfig) : Act :=
  let dbInterfacePath := filepathJoin [g.projectPath, "pkg/database/interface.go"]
  osWriteFile env dbInterfacePath (render config (databaseInterfaceContent config))

/-- Go `generatePostgreSQLImplementation`. -/
def generatePostgreSQLImplementation (_config : ProjectConfig) : Template :=
  [T ["package database",
      "",
      "import (",
      "\t\"context\"",
      "\t\"fmt\"",
      "\t\"time\"",
      "",
      "\t\"gorm.io/driver/postgres\"",
      "\t\"gorm.io/gorm\"",
      "\t\"gorm.io/gorm/logger\"",
      "",
      "\t\""],
   .moduleName,
   T ["/internal/config\"",
      ")",
      "",
      "// PostgreSQLDatabase реализация для PostgreSQL",
      "type PostgreSQLDatabase struct \x7b",
      "\tdb     *gorm.DB",
      "\tconfig *config.Config",
      "\x7d",
      "",
      "// PostgreSQLTx реализация транзакции для PostgreSQL",
      "type PostgreSQLTx struct \x7b",
      "\ttx  *gorm.DB",
      "\tctx context.Context",
      "\x7d",
      "",
      "// New создает новое подключение к PostgreSQL",
      "func New(cfg *config.Config) (Database, error) \x7b",
      "\tdsn := cfg.GetDSN()",
      "\t",
      "\tgormConfig := &gorm.Config\x7b",
      "\t\tLogger: logger.Default.LogMode(logger.Info),",
      "\t\x7d",
      "",
      "\tif !cfg.App.Debug \x7b",
      "\t\tgormConfig.Logger = logger.Default.LogMode(logger.Silent)",
      "\t\x7d",
      "",
      "\tdb, err := gorm.Open(postgres.Open(dsn), gormConfig)",
      "\tif err != nil \x7b",
      "\t\treturn nil, fmt.Errorf(\"ошибка подключения к PostgreSQL: %w\", err)",
      "\t\x7d",
      "",
      "\tsqlDB, err := db.DB()",
      "\tif err != nil \x7b",
      "\t\treturn nil, fmt.Errorf(\"ошибка получения sql.DB: %w\", err)",
      "\t\x7d",
      "",
      "\t// Настройка пула соединений",
      "\tsqlDB.SetMaxOpenConns(cfg.Database.MaxConnections)",
      "\tsqlDB.SetMaxIdleConns(cfg.Database.MaxIdleConnections)",
      "\tsqlDB.SetConnMaxLifetime(time.Hour)",
      "",
      "\treturn &PostgreSQLDatabase\x7b",
      "\t\tdb:     db,",
      "\t\tconfig: cfg,",
      "\t\x7d, nil",
      "\x7d",
      "",
      "// Connect подключается к БД",
      "func (p *PostgreSQLDatabase) Connect() error \x7b",
      "\tsqlDB, err := p.db.DB()",
      "\tif err != nil \x7b",
      "\t\treturn err",
      "\t\x7d",
      "\treturn sqlDB.Ping()",
      "\x7d",
      "",
      "// Close закрывает подключение",
      "func (p *PostgreSQLDatabase) Close() error \x7b",
      "\tsqlDB, err := p.db.DB()",
      "\tif err != nil \x7b",
      "\t\treturn err",
      "\t\x7d",
      "\treturn sqlDB.Close()",
      "\x7d",
      "",
      "// Ping проверяет подключение",
      "func (p *PostgreSQLDatabase) Ping() error \x7b",
      "\tsqlDB, err := p.db.DB()",
      "\tif err != nil \x7b",
      "\t\treturn err",
      "\t\x7d",
      "\treturn sqlDB.Ping()",
      "\x7d",
      "",
      "// BeginTx начинает транзакцию",
      "func (p *PostgreSQLDatabase) BeginTx(ctx context.Context) (Tx, error) \x7b",
      "\ttx := p.db.WithContext(ctx).Begin()",
      "\tif tx.Error != nil \x7b",
      "\t\treturn nil, tx.Error",
      "\t\x7d",
      "",
      "\treturn &PostgreSQLTx\x7b",
      "\t\ttx:  tx,",
      "\t\tctx: ctx,",
      "\t\x7d, nil",
      "\x7d",
      "",
      "// Migrate выполняет миграции",
      "func (p *PostgreSQLDatabase) Migrate() error \x7b",
      "\t// TODO: Добавить модели для миграции",
      "\t// return p.db.AutoMigrate(&User\x7b\x7d, &Product\x7b\x7d)",
      "\treturn nil",
      "\x7d",
      "",
      "// Stats возвращает статистику",
      "func (p *PostgreSQLDatabase) Stats() Stats \x7b",
      "\tsqlDB, err := p.db.DB()",
      "\tif err != nil \x7b",
      "\t\treturn Stats\x7b\x7d",
      "\t\x7d",
      "",
      "\tstats := sqlDB.Stats()",
      "\treturn Stats\x7b",
      "\t\tOpenConnections:  stats.OpenConnections,",
      "\t\tInUseConnections: stats.InUse,",
      "\t\tIdleConnections:  stats.Idle,",
      "\t\x7d",
      "\x7d",
      "",
      "// DB возвращает GORM DB",
      "func (p *PostgreSQLDatabase) DB() *gorm.DB \x7b",
      "\treturn p.db",
      "\x7d",
      "",
      "// Commit подтверждает транзакцию",
      "func (tx *PostgreSQLTx) Commit() error \x7b",
      "\treturn tx.tx.Commit().Error",
      "\x7d",
      "",
      "// Rollback откатывает транзакцию",
      "func (tx *PostgreSQLTx) Rollback() error \x7b",
      "\treturn tx.tx.Rollback().Error",
      "\x7d",
      "",
      "// Context возвращает контекст транзакции",
      "func (tx *PostgreSQLTx) Context() context.Context \x7b",
      "\treturn tx.ctx",
      "\x7d",
      ""]]

/-- Go `generateMySQLImplementation`. -/
def generateMySQLImplementation (_config : ProjectConfig) : Template :=
  [T ["package database",
      "",
      "import (",
      "\t\"context\"",
      "\t\"fmt\"",
      "\t\"time\"",
      "",
      "\t\"gorm.io/driver/mysql\"",
      "\t\"gorm.io/gorm\"",
      "\t\"gorm.io/gorm/logger\"",
      "",
      "\t\""],
   .moduleName,
   T ["/internal/config\"",
      ")",
      "",
      "// MySQLDatabase реализация для MySQL",
      "type MySQLDatabase struct \x7b",
      "\tdb     *gorm.DB",
      "\tconfig *config.Config",
      "\x7d",
      "",
      "// MySQLTx реализация транзакции для MySQL",
      "type MySQLTx struct \x7b",
      "\ttx  *gorm.DB",
      "\tctx context.Context",
      "\x7d",
      "",
      "// New создает новое подключение к MySQL",
      "func New(cfg *config.Config) (Database, error) \x7b",
      "\tdsn := cfg.GetDSN()",
      "\t",
      "\tgormConfig := &gorm.Config\x7b",
      "\t\tLogger: logger.Default.LogMode(logger.Info),",
      "\t\x7d",
      "",
      "\tif !cfg.App.Debug \x7b",
      "\t\tgormConfig.Logger = logger.Default.LogMode(logger.Silent)",
      "\t\x7d",
      "",
      "\tdb, err := gorm.Open(mysql.Open(dsn), gormConfig)",
      "\tif err != nil \x7b",
      "\t\treturn nil, fmt.Errorf(\"ошибка подключения к MySQL: %w\", err)",
      "\t\x7d",
      "",
      "\tsqlDB, err := db.DB()",
      "\tif err != nil \x7b",
      "\t\treturn nil, fmt.Errorf(\"ошибка получения sql.DB: %w\", err)",
      "\t\x7d",
      "",
      "\t// Настройка пула соединений",
      "\tsqlDB.SetMaxOpenConns(cfg.Database.MaxConnections)",
      "\tsqlDB.SetMaxIdleConns(cfg.Database.MaxIdleConnections)",
      "\tsqlDB.SetConnMaxLifetime(time.Hour)",
      "",
      "\treturn &MySQLDatabase\x7b",
      "\t\tdb:     db,",
      "\t\tconfig: cfg,",
      "\t\x7d, nil",
      "\x7d",
      "",
      "// Connect подключается к БД",
      "func (m *MySQLDatabase) Connect() error \x7b",
      "\tsqlDB, err := m.db.DB()",
      "\tif err != nil \x7b",
      "\t\treturn err",
      "\t\x7d",
      "\treturn sqlDB.Ping()",
      "\x7d",
      "",
      "// Close закрывает подключение",
      "func (m *MySQLDatabase) Close() error \x7b",
      "\tsqlDB, err := m.db.DB()",
      "\tif err != nil \x7b",
      "\t\treturn err",
      "\t\x7d",
      "\treturn sqlDB.Close()",
      "\x7d",
      "",
      "// Ping проверяет подключение",
      "func (m *MySQLDatabase) Ping() error \x7b",
      "\tsqlDB, err := m.db.DB()",
      "\tif err != nil \x7b",
      "\t\treturn err",
      "\t\x7d",
      "\treturn sqlDB.Ping()",
      "\x7d",
      "",
      "// BeginTx начинает транзакцию",
      "func (m *MySQLDatabase) BeginTx(ctx context.Context) (Tx, error) \x7b",
      "\ttx := m.db.WithContext(ctx).Begin()",
      "\tif tx.Error != nil \x7b",
      "\t\treturn nil, tx.Error",
      "\t\x7d",
      "",
      "\treturn &MySQLTx\x7b",
      "\t\ttx:  tx,",
      "\t\tctx: ctx,",
      "\t\x7d, nil",
      "\x7d",
      "",
      "// Migrate выполняет миграции",
      "func (m *MySQLDatabase) Migrate() error \x7b",
      "\t// TODO: Добавить модели для миграции",
      "\treturn nil",
      "\x7d",
      "",
      "// Stats возвращает статистику",
      "func (m *MySQLDatabase) Stats() Stats \x7b",
      "\tsqlDB, err := m.db.DB()",
      "\tif err != nil \x7b",
      "\t\treturn Stats\x7b\x7d",
      "\t\x7d",
      "",
      "\tstats := sqlDB.Stats()",
      "\treturn Stats\x7b",
      "\t\tOpenConnections:  stats.OpenConnections,",
      "\t\tInUseConnections: stats.InUse,",
      "\t\tIdleConnections:  stats.Idle,",
      "\t\x7d",
      "\x7d",
      "",
      "// DB возвращает GORM DB",
      "func (m *MySQLDatabase) DB() *gorm.DB \x7b",
      "\treturn m.db",
      "\x7d",
      "",
      "// Commit подтверждает транзакцию",
      "func (tx *MySQLTx) Commit() error \x7b",
      "\treturn tx.tx.Commit().Error",
      "\x7d",
      "",
      "// Rollback откатывает транзакцию",
      "func (tx *MySQLTx) Rollback() error \x7b",
      "\treturn tx.tx.Rollback().Error",
      "\x7d",
      "",
      "// Context возвращает контекст транзакции",
      "func (tx *MySQLTx) Context() context.Context \x7b",
      "\treturn tx.ctx",
      "\x7d",
      ""]]

/-- Go `generateMongoDBImplementation`. -/
def generateMongoDBImplementation (_config : ProjectConfig) : Template :=
  [T ["package database",
      "",
      "import (",
      "\t\"context\"",
      "\t\"fmt\"",
      "\t\"time\"",
      "",
      "\t\"go.mongodb.org/mongo-driver/mongo\"",
      "\t\"go.mongodb.org/mongo-driver/mongo/options\"",
      "",
      "\t\""],
   .moduleName,
   T ["/internal/config\"",
      ")",
      "",
      "// MongoDatabase реализация для MongoDB",
      "type MongoDatabase struct \x7b",
      "\tclient   *mongo.Client",
      "\tdatabase *mongo.Database",
      "\tconfig   *config.Config",
      "\x7d",
      "",
      "// MongoTx реализация транзакции для MongoDB",
      "type MongoTx struct \x7b",
      "\tsession mongo.Session",
      "\tctx     context.Context",
      "\x7d",
      "",
      "// New создает новое подключение к MongoDB",
      "func New(cfg *config.Config) (Database, error) \x7b",
      "\tctx, cancel := context.WithTimeout(context.Background(), time.Duration(cfg.Database.Timeout)*time.Second)",
      "\tdefer cancel()",
      "",
      "\tclient, err := mongo.Connect(ctx, options.Client().ApplyURI(cfg.Database.URI))",
      "\tif err != nil \x7b",
      "\t\treturn nil, fmt.Errorf(\"ошибка подключения к MongoDB: %w\", err)",
      "\t\x7d",
      "",
      "\tif err := client.Ping(ctx, nil); err != nil \x7b",
      "\t\treturn nil, fmt.Errorf(\"ошибка ping MongoDB: %w\", err)",
      "\t\x7d",
      "",
      "\tdatabase := client.Database(cfg.Database.Name)",
      "",
      "\treturn &MongoDatabase\x7b",
      "\t\tclient:   client,",
      "\t\tdatabase: database,",
      "\t\tconfig:   cfg,",
      "\t\x7d, nil",
      "\x7d",
      "",
      "// Connect подключается к БД",
      "func (m *MongoDatabase) Connect() error \x7b",
      "\tctx, cancel := context.WithTimeout(context.Background(), 5*time.Second)",
      "\tdefer cancel()",
      "\treturn m.client.Ping(ctx, nil)",
      "\x7d",
      "",
      "// Close закрывает подключение",
      "func (m *MongoDatabase) Close() error \x7b",
      "\tctx, cancel := context.WithTimeout(context.Background(), 5*time.Second)",
      "\tdefer cancel()",
      "\treturn m.client.Disconnect(ctx)",
      "\x7d",
      "",
      "// Ping проверяет подключение",
      "func (m *MongoDatabase) Ping() error \x7b",
      "\tctx, cancel := context.WithTimeout(context.Background(), 5*time.Second)",
      "\tdefer cancel()",
      "\treturn m.client.Ping(ctx, nil)",
      "\x7d",
      "",
      "// BeginTx начинает транзакцию (сессию)",
      "func (m *MongoDatabase) BeginTx(ctx context.Context) (Tx, error) \x7b",
      "\tsession, err := m.client.StartSession()",
      "\tif err != nil \x7b",
      "\t\treturn nil, err",
      "\t\x7d",
      "",
      "\tif err := session.StartTransaction(); err != nil \x7b",
      "\t\tsession.EndSession(ctx)",
      "\t\treturn nil, err",
      "\t\x7d",
      "",
      "\treturn &MongoTx\x7b",
      "\t\tsession: session,",
      "\t\tctx:     ctx,",
      "\t\x7d, nil",
      "\x7d",
      "",
      "// Migrate выполняет миграции (создание индексов)",
      "func (m *MongoDatabase) Migrate() error \x7b",
      "\t// TODO: Создать индексы",
      "\treturn nil",
      "\x7d",
      "",
      "// Stats возвращает статистику",
      "func (m *MongoDatabase) Stats() Stats \x7b",
      "\t// MongoDB не предоставляет такую статистику напрямую",
      "\treturn Stats\x7b\x7d",
      "\x7d",
      "",
      "// Database возвращает MongoDB Database",
      "func (m *MongoDatabase) Database() *mongo.Database \x7b",
      "\treturn m.database",
      "\x7d",
      "",
      "// Client возвращает MongoDB Client",
      "func (m *MongoDatabase) Client() *mongo.Client \x7b",
      "\treturn m.client",
      "\x7d",
      "",
      "// Commit подтверждает транзакцию",
      "func (tx *MongoTx) Commit() error \x7b",
      "\tdefer tx.session.EndSession(tx.ctx)",
      "\treturn tx.session.CommitTransaction(tx.ctx)",
      "\x7d",
      "",
      "// Rollback откатывает транзакцию",
      "func (tx *MongoTx) Rollback() error \x7b",
      "\tdefer tx.session.EndSession(tx.ctx)",
      "\treturn tx.session.AbortTransaction(tx.ctx)",
      "\x7d",
      "",
      "// Context возвращает контекст транзакции",
      "func (tx *MongoTx) Context() context.Context \x7b",
      "\treturn tx.ctx",
      "\x7d",
      ""]]

/-- Go `generateSQLiteImplementation`. -/
def generateSQLiteImplementation (_config : ProjectConfig) : Template :=
  [T ["package database",
      "",
      "import (",
      "\t\"context\"",
      "\t\"fmt\"",
      "",
      "\t\"gorm.io/driver/sqlite\"",
      "\t\"gorm.io/gorm\"",
      "\t\"gorm.io/gorm/logger\"",
      "",
      "\t\""],
   .moduleName,
   T ["/internal/config\"",
      ")",
      "",
      "// SQLiteDatabase реализация для SQLite",
      "type SQLiteDatabase struct \x7b",
      "\tdb     *gorm.DB",
      "\tconfig *config.Config",
      "\x7d",
      "",
      "// SQLiteTx реализация транзакции для SQLite",
      "type SQLiteTx struct \x7b",
      "\ttx  *gorm.DB",
      "\tctx context.Context",
      "\x7d",
      "",
      "// New создает новое подключение к SQLite",
      "func New(cfg *config.Config) (Database, error) \x7b",
      "\tdsn := cfg.GetDSN()",
      "\t",
      "\tgormConfig := &gorm.Config\x7b",
      "\t\tLogger: logger.Default.LogMode(logger.Info),",
      "\t\x7d",
      "",
      "\tif !cfg.App.Debug \x7b",
      "\t\tgormConfig.Logger = logger.Default.LogMode(logger.Silent)",
      "\t\x7d",
      "",
      "\tdb, err := gorm.Open(sqlite.Open(dsn), gormConfig)",
      "\tif err != nil \x7b",
      "\t\treturn nil, fmt.Errorf(\"ошибка подключения к SQLite: %w\", err)",
      "\t\x7d",
      "",
      "\treturn &SQLiteDatabase\x7b",
      "\t\tdb:     db,",
      "\t\tconfig: cfg,",
      "\t\x7d, nil",
      "\x7d",
      "",
      "// Connect подключается к БД",
      "func (s *SQLiteDatabase) Connect() error \x7b",
      "\tsqlDB, err := s.db.DB()",
      "\tif err != nil \x7b",
      "\t\treturn err",
      "\t\x7d",
      "\treturn sqlDB.Ping()",
      "\x7d",
      "",
      "// Close закрывает подключение",
      "func (s *SQLiteDatabase) Close() error \x7b",
      "\tsqlDB, err := s.db.DB()",
      "\tif err != nil \x7b",
      "\t\treturn err",
      "\t\x7d",
      "\treturn sqlDB.Close()",
      "\x7d",
      "",
      "// Ping проверяет подключение",
      "func (s *SQLiteDatabase) Ping() error \x7b",
      "\tsqlDB, err := s.db.DB()",
      "\tif err != nil \x7b",
      "\t\treturn err",
      "\t\x7d",
      "\treturn sqlDB.Ping()",
      "\x7d",
      "",
      "// BeginTx начинает транзакцию",
      "func (s *SQLiteDatabase) BeginTx(ctx context.Context) (Tx, error) \x7b",
      "\ttx := s.db.WithContext(ctx).Begin()",
      "\tif tx.Error != nil \x7b",
      "\t\treturn nil, tx.Error",
      "\t\x7d",
      "",
      "\treturn &SQLiteTx\x7b",
      "\t\ttx:  tx,",
      "\t\tctx: ctx,",
      "\t\x7d, nil",
      "\x7d",
      "",
      "// Migrate выполняет миграции",
      "func (s *SQLiteDatabase) Migrate() error \x7b",
      "\t// TODO: Добавить модели для миграции",
      "\treturn nil",
      "\x7d",
      "",
      "// Stats возвращает статистику",
      "func (s *SQLiteDatabase) Stats() Stats \x7b",
      "\tsqlDB, err := s.db.DB()",
      "\tif err != nil \x7b",
      "\t\treturn Stats\x7b\x7d",
      "\t\x7d",
      "",
      "\tstats := sqlDB.Stats()",
      "\treturn Stats\x7b",
      "\t\tOpenConnections:  stats.OpenConnections,",
      "\t\tInUseConnections: stats.InUse,",
      "\t\tIdleConnections:  stats.Idle,",
      "\t\x7d",
      "\x7d",
      "",
      "// DB возвращает GORM DB",
      "func (s *SQLiteDatabase) DB() *gorm.DB \x7b",
      "\treturn s.db",
      "\x7d",
      "",
      "// Commit подтверждает транзакцию",
      "func (tx *SQLiteTx) Commit() error \x7b",
      "\treturn tx.tx.Commit().Error",
      "\x7d",
      "",
      "// Rollback откатывает транзакцию",
      "func (tx *SQLiteTx) Rollback() error \x7b",
      "\treturn tx.tx.Rollback().Error",
      "\x7d",
      "",
      "// Context возвращает контекст транзакции",
      "func (tx *SQLiteTx) Context() context.Context \x7b",
      "\treturn tx.ctx",
      "\x7d",
      ""]]

/-- Go `generateDatabaseImplementation`: the file body. -/
def databaseImplementationContent (config : ProjectConfig) : Template :=
  if stringsToLower config.Database = "postgresql" then generatePostgreSQLImplementation config
  else if stringsToLower config.Database = "mysql" then generateMySQLImplementation config
  else if stringsToLower config.Database = "mongodb" then generateMongoDBImplementation config
  else if stringsToLower config.Database = "in-memory" then generateSQLiteImplementation config
  else generatePostgreSQLImplementation config

/-- Go `generateDatabaseImplementation`. -/
def generateDatabaseImplementation (env : Env) (g : Generator) (config : ProjectConfig) : Act :=
  let content := databaseImplementationContent config
  let dbImplPath := filepathJoin [g.projectPath, "pkg/database/database.go"]
  osWriteFile env dbImplPath (render config content)

/-- Go `generateRepositories`: the file body. -/
def repositoriesContent (_config : ProjectConfig) : Template :=
  [T ["package repository",
      "",
      "import (",
      "\t\""],
   .moduleName,
   T ["/internal/models\"",
      "\t\""],
   .moduleName,
   T ["/pkg/database\"",
      ")",
      "",
      "// UserRepository интерфейс для работы с пользователями",
      "type UserRepository interface \x7b",
      "\tdatabase.Repository",
      "\tGetByID(id int64) (*models.User, error)",
      "\tGetByEmail(email string) (*models.User, error)",
      "\tCreate(user *models.User) error",
      "\tUpdate(user *models.User) error",
      "\tDelete(id int64) error",
      "\tList(offset, limit int) ([]*models.User, error)",
      "\x7d",
      "",
      "// UserRepositoryImpl реализация репозитория пользователей",
      "type UserRepositoryImpl struct \x7b",
      "\t*database.BaseRepository",
      "\x7d",
      "",
      "// NewUserRepository создает новый репозиторий пользователей",
      "func NewUserRepository(db database.Database) UserRepository \x7b",
      "\treturn &UserRepositoryImpl\x7b",
      "\t\tBaseRepository: database.NewBaseRepository(db),",
      "\t\x7d",
      "\x7d",
      "",
      "// GetByID получает пользователя по ID",
      "func (r *UserRepositoryImpl) GetByID(id int64) (*models.User, error) \x7b",
      "\t// TODO: Реализовать получение пользователя по ID",
      "\treturn nil, nil",
      "\x7d",
      "",
      "// GetByEmail получает пользователя по email",
      "func (r *UserRepositoryImpl) GetByEmail(email string) (*models.User, error) \x7b",
      "\t// TODO: Реализовать получение пользователя по email",
      "\treturn nil, nil",
      "\x7d",
      "",
      "// Create создает нового пользователя",
      "func (r *UserRepositoryImpl) Create(user *models.User) error \x7b",
      "\t// TODO: Реализовать создание пользователя",
      "\treturn nil",
      "\x7d",
      "",
      "// Update обновляет пользователя",
      "func (r *UserRepositoryImpl) Update(user *models.User) error \x7b",
      "\t// TODO: Реализовать обновление пользователя",
      "\treturn nil",
      "\x7d",
      "",
      "// Delete удаляет пользователя",
      "func (r *UserRepositoryImpl) Delete(id int64) error \x7b",
      "\t// TODO: Реализовать удаление пользователя",
      "\treturn nil",
      "\x7d",
      "",
      "// List возвращает список пользователей",
      "func (r *UserRepositoryImpl) List(offset, limit int) ([]*models.User, error) \x7b",
      "\t// TODO: Реализовать получение списка пользователей",
      "\treturn nil, nil",
      "\x7d",
      ""]]

/-- Go `generateRepositories`. -/
def generateRepositories (env : Env) (g : Generator) (config : ProjectConfig) : Act :=
  let repoPath := filepathJoin [g.projectPath, "internal/repository/user.go"]
  osWriteFile env repoPath (render config (repositoriesContent config))

/-- Go `generateModels`: the file body. -/
def modelsContent (_config : ProjectConfig) : Template :=
  [T ["package models",
      "",
      "import (",
      "\t\"time\"",
      ")",
      "",
      "// User модель пользователя",
      "type User struct \x7b",
      "\tID        int64     `json:\"id\" gorm:\"primaryKey;autoIncrement\"`",
      "\tEmail     string    `json:\"email\" gorm:\"uniqueIndex;not null\"`",
      "\tName      string    `json:\"name\" gorm:\"not null\"`",
      "\tCreatedAt time.Time `json:\"created_at\" gorm:\"autoCreateTime\"`",
      "\tUpdatedAt time.Time `json:\"updated_at\" gorm:\"autoUpdateTime\"`",
      "\x7d",
      "",
      "// TableName возвращает имя таблицы",
      "func (User) TableName() string \x7b",
      "\treturn \"users\"",
      "\x7d",
      "",
      "// Product модель продукта (пример)",
      "type Product struct \x7b",
      "\tID          int64     `json:\"id\" gorm:\"primaryKey;autoIncrement\"`",
      "\tName        string    `json:\"name\" gorm:\"not null\"`",
      "\tDescription string    `json:\"description\"`",
      "\tPrice       float64   `json:\"price\" gorm:\"not null\"`",
      "\tCreatedAt   time.Time `json:\"created_at\" gorm:\"autoCreateTime\"`",
      "\tUpdatedAt   time.Time `json:\"updated_at\" gorm:\"autoUpdateTime\"`",
      "\x7d",
      "",
      "// TableName возвращает имя таблицы",
      "func (Product) TableName() string \x7b",
      "\treturn \"products\"",
      "\x7d",
      ""]]

/-- Go `generateModels`. -/
def generateModels (env : Env) (g : Generator) (config : ProjectConfig) : Act :=
  let modelsPath := filepathJoin [g.projectPath, "internal/models/models.go"]
  osWriteFile env modelsPath (render config (modelsContent config))

/-- Go `generateDatabaseLayer`. -/
def generateDatabaseLayer (env : Env) (g : Generator) (config : ProjectConfig) : Act :=
  if stringsContains (stringsToLower config.Database) "без" then retNil
  else
    check (generateDatabaseInterface env g config) id <|
    check (generateDatabaseImplementation env g config) id <|
    check (generateRepositories env g config) id <|
    check (generateModels env g config) id <|
    retNil

/-! ## grpc.go -/

/-- Go `generateProtoFile`: the file body. -/
def protoFileContent (_config : ProjectConfig) : Template :=
  [T ["syntax = \"proto3\";",
      "",
      "package "],
   .name,
   T [";",
      "",
      "option go_package = \""],
   .moduleName,
   T ["/internal/grpc/pb\";",
      "",
      "// Сервис для "],
   .name,
   T ["",
      "service "],
   .name,
   T ["Service \x7b",
      "  // Health check",
      "  rpc HealthCheck(HealthCheckRequest) returns (HealthCheckResponse);",
      "  ",
      "  // Ping",
      "  rpc Ping(PingRequest) returns (PingResponse);",
      "  ",
      "  // Пример CRUD операций",
      "  rpc CreateUser(CreateUserRequest) returns (CreateUserResponse);",
      "  rpc GetUser(GetUserRequest) returns (GetUserResponse);",
      "  rpc UpdateUser(UpdateUserRequest) returns (UpdateUserResponse);",
      "  rpc DeleteUser(DeleteUserRequest) returns (DeleteUserResponse);",
      "  rpc ListUsers(ListUsersRequest) returns (ListUsersResponse);",
      "\x7d",
      "",
      "// Health Check",
      "message HealthCheckRequest \x7b\x7d",
      "",
      "message HealthCheckResponse \x7b",
      "  string status = 1;",
      "  string service = 2;",
      "  string version = 3;",
      "  int64 timestamp = 4;",
      "\x7d",
      "",
      "// Ping",
      "message PingRequest \x7b\x7d",
      "",
      "message PingResponse \x7b",
      "  string message = 1;",
      "  string service = 2;",
      "  string version = 3;",
      "\x7d",
      "",
      "// User messages",
      "message User \x7b",
      "  int64 id = 1;",
      "  string email = 2;",
      "  string name = 3;",
      "  int64 created_at = 4;",
      "  int64 updated_at = 5;",
      "\x7d",
      "",
      "message CreateUserRequest \x7b",
      "  string email = 1;",
      "  string name = 2;",
      "\x7d",
      "",
      "message CreateUserResponse \x7b",
      "  User user = 1;",
      "\x7d",
      "",
      "message GetUserRequest \x7b",
      "  int64 id = 1;",
      "\x7d",
      "",
      "message GetUserResponse \x7b",
      "  User user = 1;",
      "\x7d",
      "",
      "message UpdateUserRequest \x7b",
      "  int64 id = 1;",
      "  string email = 2;",
      "  string name = 3;",
      "\x7d",
      "",
      "message UpdateUserResponse \x7b",
      "  User user = 1;",
      "\x7d",
      "",
      "message DeleteUserRequest \x7b",
      "  int64 id = 1;",
      "\x7d",
      "",
      "message DeleteUserResponse \x7b",
      "  bool success = 1;",
      "\x7d",
      "",
      "message ListUsersRequest \x7b",
      "  int32 offset = 1;",
      "  int32 limit = 2;",
      "\x7d",
      "",
      "message ListUsersResponse \x7b",
      "  repeated User users = 1;",
      "  int32 total = 2;",
      "\x7d",
      ""]]

/-- Go `generateProtoFile`. -/
def generateProtoFile (env : Env) (g : Generator) (config : ProjectConfig) : Act :=
  let content := protoFileContent config
  let protoDir := filepathJoin [g.projectPath, "api/proto"]
  check (osMkdirAll env protoDir) id <|
  let protoPath := filepathJoin [protoDir, config.Name ++ ".proto"]
  osWriteFile env protoPath (render config content)

/-- Go `generateGRPCServer`: the file body. -/
def grpcServerContent (_config : ProjectConfig) : Template :=
  [T ["package grpc",
      "",
      "import (",
      "\t\"context\"",
      "\t\"fmt\"",
      "\t\"net\"",
      "\t\"time\"",
      "",
      "\t\"google.golang.org/grpc\"",
      "\t\"google.golang.org/grpc/reflection\"",
      "",
      "\t\""],
   .moduleName,
   T ["/internal/config\"",
      "\t\""],
   .moduleName,
   T ["/internal/grpc/pb\"",
      "\t\""],
   .moduleName,
   T ["/pkg/logger\"",
      ")",
      "",
      "// Server представляет gRPC сервер",
      "type Server struct \x7b",
      "\tcfg      *config.Config",
      "\tlogger   logger.Logger",
      "\tgrpcSrv  *grpc.Server",
      "\tlistener net.Listener",
      "\tpb.Unimplemented"],
   .name,
   T ["ServiceServer",
      "\x7d",
      "",
      "// New создает новый gRPC сервер",
      "func New(cfg *config.Config, logger logger.Logger) *Server \x7b",
      "\treturn &Server\x7b",
      "\t\tcfg:    cfg,",
      "\t\tlogger: logger,",
      "\t\x7d",
      "\x7d",
      "",
      "// Start запускает gRPC сервер",
      "func (s *Server) Start() error \x7b",
      "\tlis, err := net.Listen(\"tcp\", fmt.Sprintf(\":%d\", s.cfg.GRPC.Port))",
      "\tif err != nil \x7b",
      "\t\treturn fmt.Errorf(\"ошибка создания listener: %w\", err)",
      "\t\x7d",
      "",
      "\ts.listener = lis",
      "",
      "\t// Создаем gRPC сервер",
      "\ts.grpcSrv = grpc.NewServer(",
      "\t\tgrpc.ConnectionTimeout(time.Duration(s.cfg.GRPC.MaxConnectionAge)*time.Second),",
      "\t)",
      "",
      "\t// Регистрируем сервис",
      "\tpb.Register"],
   .name,
   T ["ServiceServer(s.grpcSrv, s)",
      "",
      "\t// Включаем reflection для grpcurl",
      "\treflection.Register(s.grpcSrv)",
      "",
      "\ts.logger.Info(\"gRPC сервер запущен\", \"port\", s.cfg.GRPC.Port)",
      "",
      "\treturn s.grpcSrv.Serve(lis)",
      "\x7d",
      "",
      "// Stop останавливает gRPC сервер",
      "func (s *Server) Stop() \x7b",
      "\tif s.grpcSrv != nil \x7b",
      "\t\ts.grpcSrv.GracefulStop()",
      "\t\x7d",
      "\x7d",
      "",
      "// HealthCheck реализует health check",
      "func (s *Server) HealthCheck(ctx context.Context, req *pb.HealthCheckRequest) (*pb.HealthCheckResponse, error) \x7b",
      "\ts.logger.Debug(\"gRPC HealthCheck вызван\")",
      "",
      "\treturn &pb.HealthCheckResponse\x7b",
      "\t\tStatus:    \"ok\",",
      "\t\tService:   s.cfg.App.Name,",
      "\t\tVersion:   s.cfg.App.Version,",
      "\t\tTimestamp: time.Now().Unix(),",
      "\t\x7d, nil",
      "\x7d",
      "",
      "// Ping реализует ping",
      "func (s *Server) Ping(ctx context.Context, req *pb.PingRequest) (*pb.PingResponse, error) \x7b",
      "\ts.logger.Debug(\"gRPC Ping вызван\")",
      "",
      "\treturn &pb.PingResponse\x7b",
      "\t\tMessage: \"pong\",",
      "\t\tService: s.cfg.App.Name,",
      "\t\tVersion: s.cfg.App.Version,",
      "\t\x7d, nil",
      "\x7d",
      "",
      "// CreateUser создает пользователя",
      "func (s *Server) CreateUser(ctx context.Context, req *pb.CreateUserRequest) (*pb.CreateUserResponse, error) \x7b",
      "\ts.logger.Debug(\"gRPC CreateUser вызван\", \"email\", req.Email)",
      "",
      "\t// TODO: Реализовать создание пользователя",
      "\tuser := &pb.User\x7b",
      "\t\tId:        1,",
      "\t\tEmail:     req.Email,",
      "\t\tName:      req.Name,",
      "\t\tCreatedAt: time.Now().Unix(),",
      "\t\tUpdatedAt: time.Now().Unix(),",
      "\t\x7d",
      "",
      "\treturn &pb.CreateUserResponse\x7b",
      "\t\tUser: user,",
      "\t\x7d, nil",
      "\x7d",
      "",
      "// GetUser получает пользователя",
      "func (s *Server) GetUser(ctx context.Context, req *pb.GetUserRequest) (*pb.GetUserResponse, error) \x7b",
      "\ts.logger.Debug(\"gRPC GetUser вызван\", \"id\", req.Id)",
      "",
      "\t// TODO: Реализовать получение пользователя",
      "\tuser := &pb.User\x7b",
      "\t\tId:        req.Id,",
      "\t\tEmail:     \"user@example.com\",",
      "\t\tName:      \"Test User\",",
      "\t\tCreatedAt: time.Now().Unix(),",
      "\t\tUpdatedAt: time.Now().Unix(),",
      "\t\x7d",
      "",
      "\treturn &pb.GetUserResponse\x7b",
      "\t\tUser: user,",
      "\t\x7d, nil",
      "\x7d",
      "",
      "// UpdateUser обновляет пользователя",
      "func (s *Server) UpdateUser(ctx context.Context, req *pb.UpdateUserRequest) (*pb.UpdateUserResponse, error) \x7b",
      "\ts.logger.Debug(\"gRPC UpdateUser вызван\", \"id\", req.Id)",
      "",
      "\t// TODO: Реализовать обновление пользователя",
      "\tuser := &pb.User\x7b",
      "\t\tId:        req.Id,",
      "\t\tEmail:     req.Email,",
      "\t\tName:      req.Name,",
      "\t\tCreatedAt: time.Now().Unix(),",
      "\t\tUpdatedAt: time.Now().Unix(),",
      "\t\x7d",
      "",
      "\treturn &pb.UpdateUserResponse\x7b",
      "\t\tUser: user,",
      "\t\x7d, nil",
      "\x7d",
      "",
      "// DeleteUser удаляет пользователя",
      "func (s *Server) DeleteUser(ctx context.Context, req *pb.DeleteUserRequest) (*pb.DeleteUserResponse, error) \x7b",
      "\ts.logger.Debug(\"gRPC DeleteUser вызван\", \"id\", req.Id)",
      "",
      "\t// TODO: Реализовать удаление пользователя",
      "",
      "\treturn &pb.DeleteUserResponse\x7b",
      "\t\tSuccess: true,",
      "\t\x7d, nil",
      "\x7d",
      "",
      "// ListUsers возвращает список пользователей",
      "func (s *Server) ListUsers(ctx context.Context, req *pb.ListUsersRequest) (*pb.ListUsersResponse, error) \x7b",
      "\ts.logger.Debug(\"gRPC ListUsers вызван\", \"offset\", req.Offset, \"limit\", req.Limit)",
      "",
      "\t// TODO: Реализовать получение списка пользователей",
      "\tusers := []*pb.User\x7b",
      "\t\t\x7b",
      "\t\t\tId:        1,",
      "\t\t\tEmail:     \"user1@example.com\",",
      "\t\t\tName:      \"User 1\",",
      "\t\t\tCreatedAt: time.Now().Unix(),",
      "\t\t\tUpdatedAt: time.Now().Unix(),",
      "\t\t\x7d,",
      "\t\t\x7b",
      "\t\t\tId:        2,",
      "\t\t\tEmail:     \"user2@example.com\",",
      "\t\t\tName:      \"User 2\",",
      "\t\t\tCreatedAt: time.Now().Unix(),",
      "\t\t\tUpdatedAt: time.Now().Unix(),",
      "\t\t\x7d,",
      "\t\x7d",
      "",
      "\treturn &pb.ListUsersResponse\x7b",
      "\t\tUsers: users,",
      "\t\tTotal: int32(len(users)),",
      "\t\x7d, nil",
      "\x7d",
      ""]]

/-- Go `generateGRPCServer`. -/
def generateGRPCServer (env : Env) (g : Generator) (config : ProjectConfig) : Act :=
  let content := grpcServerContent config
  let grpcDir := filepathJoin [g.projectPath, "internal/grpc"]
  check (osMkdirAll env grpcDir) id <|
  let serverPath := filepathJoin [grpcDir, "server.go"]
  osWriteFile env serverPath (render config content)

/-- Go `generateGRPCClient`: the file body. -/
def grpcClientContent (_config : ProjectConfig) : Template :=
  [T ["package grpc",
      "",
      "import (",
      "\t\"context\"",
      "\t\"fmt\"",
      "\t\"time\"",
      "",
      "\t\"google.golang.org/grpc\"",
      "\t\"google.golang.org/grpc/credentials/insecure\"",
      "",
      "\t\""],
   .moduleName,
   T ["/internal/grpc/pb\"",
      "\t\""],
   .moduleName,
   T ["/pkg/logger\"",
      ")",
      "",
      "// Client представляет gRPC клиент",
      "type Client struct \x7b",
      "\tconn   *grpc.ClientConn",
      "\tclient pb."],
   .name,
   T ["ServiceClient",
      "\tlogger logger.Logger",
      "\x7d",
      "",
      "// NewClient создает новый gRPC клиент",
      "func NewClient(address string, logger logger.Logger) (*Client, error) \x7b",
      "\tconn, err := grpc.Dial(address, grpc.WithTransportCredentials(insecure.NewCredentials()))",
      "\tif err != nil \x7b",
      "\t\treturn nil, fmt.Errorf(\"ошибка подключения к gRPC серверу: %w\", err)",
      "\t\x7d",
      "",
      "\tclient := pb.New"],
   .name,
   T ["ServiceClient(conn)",
      "",
      "\treturn &Client\x7b",
      "\t\tconn:   conn,",
      "\t\tclient: client,",
      "\t\tlogger: logger,",
      "\t\x7d, nil",
      "\x7d",
      "",
      "// Close закрывает соединение",
      "func (c *Client) Close() error \x7b",
      "\treturn c.conn.Close()",
      "\x7d",
      "",
      "// HealthCheck выполняет health check",
      "func (c *Client) HealthCheck(ctx context.Context) (*pb.HealthCheckResponse, error) \x7b",
      "\treturn c.client.HealthCheck(ctx, &pb.HealthCheckRequest\x7b\x7d)",
      "\x7d",
      "",
      "// Ping выполняет ping",
      "func (c *Client) Ping(ctx context.Context) (*pb.PingResponse, error) \x7b",
      "\treturn c.client.Ping(ctx, &pb.PingRequest\x7b\x7d)",
      "\x7d",
      "",
      "// CreateUser создает пользователя",
      "func (c *Client) CreateUser(ctx context.Context, email, name string) (*pb.CreateUserResponse, error) \x7b",
      "\treturn c.client.CreateUser(ctx, &pb.CreateUserRequest\x7b",
      "\t\tEmail: email,",
      "\t\tName:  name,",
      "\t\x7d)",
      "\x7d",
      "",
      "// GetUser получает пользователя",
      "func (c *Client) GetUser(ctx context.Context, id int64) (*pb.GetUserResponse, error) \x7b",
      "\treturn c.client.GetUser(ctx, &pb.GetUserRequest\x7b",
      "\t\tId: id,",
      "\t\x7d)",
      "\x7d",
      "",
      "// UpdateUser обновляет пользователя",
      "func (c *Client) UpdateUser(ctx context.Context, id int64, email, name string) (*pb.UpdateUserResponse, error) \x7b",
      "\treturn c.client.UpdateUser(ctx, &pb.UpdateUserRequest\x7b",
      "\t\tId:    id,",
      "\t\tEmail: email,",
      "\t\tName:  name,",
      "\t\x7d)",
      "\x7d",
      "",
      "// DeleteUser удаляет пользователя",
      "func (c *Client) DeleteUser(ctx context.Context, id int64) (*pb.DeleteUserResponse, error) \x7b",
      "\treturn c.client.DeleteUser(ctx, &pb.DeleteUserRequest\x7b",
      "\t\tId: id,",
      "\t\x7d)",
      "\x7d",
      "",
      "// ListUsers возвращает список пользователей",
      "func (c *Client) ListUsers(ctx context.Context, offset, limit int32) (*pb.ListUsersResponse, error) \x7b",
      "\treturn c.client.ListUsers(ctx, &pb.ListUsersRequest\x7b",
      "\t\tOffset: offset,",
      "\t\tLimit:  limit,",
      "\t\x7d)",
      "\x7d",
      ""]]

/-- Go `generateGRPCClient`. -/
def generateGRPCClient (env : Env) (g : Generator) (config : ProjectConfig) : Act :=
  let clientPath := filepathJoin [g.projectPath, "internal/grpc/client.go"]
  osWriteFile env clientPath (render config (grpcClientContent config))

/-- Go `generateProtoMakefile`: the file body. -/
def protoMakefileContent : Template :=
  [T ["# Protobuf Makefile",
      "",
      "# Переменные",
      "PROTO_DIR=api/proto",
      "GRPC_DIR=internal/grpc/pb",
      "",
      ".PHONY: proto-gen proto-clean proto-install",
      "",
      "# Генерация Go кода из proto файлов",
      "proto-gen: ## Генерировать Go код из proto файлов",
      "\t@echo \"Генерация Go кода из proto файлов...\"",
      "\t@mkdir -p $(GRPC_DIR)",
      "\tprotoc \\",
      "\t\t--go_out=$(GRPC_DIR) \\",
      "\t\t--go_opt=paths=source_relative \\",
      "\t\t--go-grpc_out=$(GRPC_DIR) \\",
      "\t\t--go-grpc_opt=paths=source_relative \\",
      "\t\t$(PROTO_DIR)/*.proto",
      "\t@echo \"Генерация завершена\"",
      "",
      "# Установка необходимых инструментов",
      "proto-install: ## Установить protoc и плагины",
      "\t@echo \"Установка protoc плагинов...\"",
      "\tgo install google.golang.org/protobuf/cmd/protoc-gen-go@latest",
      "\tgo install google.golang.org/grpc/cmd/protoc-gen-go-grpc@latest",
      "\t@echo \"Плагины установлены\"",
      "",
      "# Очистка сгенерированных файлов",
      "proto-clean: ## Очистить сгенерированные proto файлы",
      "\t@echo \"Очистка сгенерированных файлов...\"",
      "\trm -rf $(GRPC_DIR)/*.pb.go",
      "\t@echo \"Очистка завершена\"",
      "",
      "# Помощь",
      "proto-help: ## Показать справку по proto командам",
      "\t@echo \"Доступные proto команды:\"",
      "\t@echo \"  proto-install  - Установить protoc плагины\"",
      "\t@echo \"  proto-gen      - Генерировать Go код из proto файлов\"",
      "\t@echo \"  proto-clean    - Очистить сгенерированные файлы\"",
      "\t@echo \"\"",
      "\t@echo \"Требования:\"",
      "\t@echo \"  - protoc должен быть установлен (https://grpc.io/docs/protoc-installation/)\"",
      "\t@echo \"  - Выполните 'make proto-install' для установки Go плагинов\"",
      ""]]

/-- Go `generateProtoMakefile`. -/
def generateProtoMakefile (env : Env) (g : Generator) (config : ProjectConfig) : Act :=
  let content := protoMakefileContent
  let protoMakefilePath := filepathJoin [g.projectPath, "scripts/proto.mk"]
  let scriptsDir := filepathJoin [g.projectPath, "scripts"]
  check (osMkdirAll env scriptsDir) id <|
  osWriteFile env protoMakefilePath (render config content)

/-- Go `generateGRPC`. -/
def generateGRPC (env : Env) (g : Generator) (config : ProjectConfig) : Act :=
  check (generateProtoFile env g config) id <|
  check (generateGRPCServer env g config) id <|
  check (generateGRPCClient env g config) id <|
  check (generateProtoMakefile env g config) id <|
  retNil

/-! ## docker.go -/

/-- Go `generateDockerfile`: the file body. -/
def dockerfileContent (_config : ProjectConfig) : Template :=
  [T ["# Build stage",
      "FROM golang:1.21-alpine AS builder",
      "",
      "# Устанавливаем git для go mod download",
      "RUN apk add --no-cache git",
      "",
      "# Устанавливаем рабочую директорию",
      "WORKDIR /app",
      "",
      "# Копируем go mod файлы",
      "COPY go.mod go.sum ./",
      "",
      "# Скачиваем зависимости",
      "RUN go mod download",
      "",
      "# Копируем исходный код",
      "COPY . .",
      "",
      "# Собираем приложение",
      "RUN CGO_ENABLED=0 GOOS=linux go build -ldflags=\"-w -s\" -o main cmd/main.go",
      "",
      "# Production stage",
      "FROM alpine:latest",
      "",
      "# Устанавливаем ca-certificates для HTTPS запросов",
      "RUN apk --no-cache add ca-certificates tzdata",
      "",
      "# Создаем пользователя",
      "RUN addgroup -g 1001 -S "],
   .name,
   T [" && \\",
      "    adduser -S "],
   .name,
   T [" -u 1001 -G "],
   .name,
   T ["",
      "",
      "# Устанавливаем рабочую директорию",
      "WORKDIR /app",
      "",
      "# Копируем бинарный файл из build stage",
      "COPY --from=builder /app/main .",
      "COPY --from=builder /app/config.yaml .",
      "",
      "# Устанавливаем владельца файлов",
      "RUN chown -R "],
   .name,
   T [":"],
   .name,
   T [" /app",
      "",
      "# Переключаемся на пользователя",
      "USER "],
   .name,
   T ["",
      "",
      "# Открываем порт",
      "EXPOSE 8080",
      "",
      "# Команда запуска",
      "CMD [\"./main\"]",
      ""]]

/-- Go `generateDockerfile`. -/
def generateDockerfile (env : Env) (g : Generator) (config : ProjectConfig) : Act :=
  let dockerfilePath := filepathJoin [g.projectPath, "Dockerfile"]
  osWriteFile env dockerfilePath (render config (dockerfileContent config))

/-- Go `generateDockerCompose`: the file body. -/
def dockerComposeContent (config : ProjectConfig) : Template :=
  let content : Template :=
    [T ["version: '3.8'",
        "",
        "services:",
        "  "],
     .name,
     T [":",
        "    build:",
        "      context: .",
        "      dockerfile: Dockerfile",
        "    ports:",
        "      - \"8080:8080\""]]
  let content :=
    if config.EnableGRPC then content ++
      [T ["",
          "      - \"9090:9090\""]]
    else content
  let content := content ++
    [T ["",
        "    environment:",
        "      - APP_ENV=production",
        "    volumes:",
        "      - ./config.yaml:/app/config.yaml:ro",
        "    depends_on:"]]
  let content :=
    if config.Database = "PostgreSQL" then content ++
      [T ["",
          "      - postgres",
          "    networks:",
          "      - app-network",
          "",
          "  postgres:",
          "    image: postgres:15-alpine",
          "    environment:",
          "      POSTGRES_DB: "],
       .name,
       T ["",
          "      POSTGRES_USER: postgres",
          "      POSTGRES_PASSWORD: password",
          "    ports:",
          "      - \"5432:5432\"",
          "    volumes:",
          "      - postgres_data:/var/lib/postgresql/data",
          "    networks:",
          "      - app-network"]]
    else if config.Database = "MySQL" then content ++
      [T ["",
          "      - mysql",
          "    networks:",
          "      - app-network",
          "",
          "  mysql:",
          "    image: mysql:8.0",
          "    environment:",
          "      MYSQL_DATABASE: "],
       .name,
       T ["",
          "      MYSQL_ROOT_PASSWORD: password",
          "    ports:",
          "      - \"3306:3306\"",
          "    volumes:",
          "      - mysql_data:/var/lib/mysql",
          "    networks:",
          "      - app-network"]]
    else if config.Database = "MongoDB" then content ++
      [T ["",
          "      - mongodb",
          "    networks:",
          "      - app-network",
          "",
          "  mongodb:",
          "    image: mongo:7",
          "    environment:",
          "      MONGO_INITDB_DATABASE: "],
       .name,
       T ["",
          "    ports:",
          "      - \"27017:27017\"",
          "    volumes:",
          "      - mongodb_data:/data/db",
          "    networks:",
          "      - app-network"]]
    else content ++
      [T ["",
          "    networks:",
          "      - app-network"]]
  let content := content ++
    [T ["",
        "",
        "networks:",
        "  app-network:",
        "    driver: bridge",
        ""]]
  let content :=
    if config.Database ≠ "In-Memory" ∧ config.Database ≠ "Без БД" then
      let content := content ++
        [T ["",
            "volumes:"]]
      if config.Database = "PostgreSQL" then content ++
        [T ["",
            "  postgres_data:"]]
      else if config.Database = "MySQL" then content ++
        [T ["",
            "  mysql_data:"]]
      else if config.Database = "MongoDB" then content ++
        [T ["",
            "  mongodb_data:"]]
      else content
    else content
  content

/-- Go `generateDockerCompose`. -/
def generateDockerCompose (env : Env) (g : Generator) (config : ProjectConfig) : Act :=
  let dockerComposePath := filepathJoin [g.projectPath, "docker-compose.yml"]
  osWriteFile env dockerComposePath (render config (dockerComposeContent config))

/-- Go `generateDockerIgnore`: the file body. -/
def dockerIgnoreContent : Template :=
  [T ["# Git",
      ".git",
      ".gitignore",
      "",
      "# Documentation",
      "README.md",
      "docs/",
      "",
      "# Docker",
      "Dockerfile",
      ".dockerignore",
      "docker-compose.yml",
      "",
      "# Development files",
      ".env",
      ".env.local",
      ".env.development",
      ".env.test",
      "",
      "# IDE",
      ".vscode/",
      ".idea/",
      "*.swp",
      "*.swo",
      "",
      "# OS",
      ".DS_Store",
      "Thumbs.db",
      "",
      "# Logs",
      "*.log",
      "logs/",
      "",
      "# Test files",
      "*_test.go",
      "test/",
      "coverage.out",
      "",
      "# Build artifacts",
      "main",
      "*.exe",
      "dist/",
      "build/",
      "",
      "# Temporary files",
      "tmp/",
      "temp/",
      ""]]

/-- Go `generateDockerIgnore`. -/
def generateDockerIgnore (env : Env) (g : Generator) (config : ProjectConfig) : Act :=
  let dockerIgnorePath := filepathJoin [g.projectPath, ".dockerignore"]
  osWriteFile env dockerIgnorePath (render config dockerIgnoreContent)

/-- Go `generateDockerFiles`. -/
def generateDockerFiles (env : Env) (g : Generator) (config : ProjectConfig) : Act :=
  check (generateDockerfile env g config) id <|
  check (generateDockerCompose env g config) id <|
  check (generateDockerIgnore env g config) id <|
  retNil

/-! ## makefile.go -/

/-- Go `generateMakefile`: the file body. -/
def makefileContent (config : ProjectConfig) : Template :=
  let content : Template :=
    [T ["# Makefile для "],
     .name,
     T ["",
        "",
        "# Переменные",
        "APP_NAME="],
     .name,
     T ["",
        "BINARY_NAME=main",
        "DOCKER_IMAGE="],
     .name,
     T ["",
        "VERSION=1.0.0",
        "",
        "# Go переменные",
        "GOCMD=go",
        "GOBUILD=$(GOCMD) build",
        "GOCLEAN=$(GOCMD) clean",
        "GOTEST=$(GOCMD) test",
        "GOGET=$(GOCMD) get",
        "GOMOD=$(GOCMD) mod",
        "",
        "# Цвета для вывода",
        "RED=\\\\033[0;31m",
        "GREEN=\\\\033[0;32m",
        "YELLOW=\\\\033[0;33m",
        "BLUE=\\\\033[0;34m",
        "NC=\\\\033[0m # No Color",
        "",
        ".PHONY: help build run test clean deps tidy lint docker-build docker-run docker-stop docker-clean swagger dev install",
        "",
        "# Помощь",
        "help: ## Показать справку",
        "\t@echo \"$(BLUE)Makefile для $(APP_NAME)$(NC)\"",
        "\t@echo \"\"",
        "\t@echo \"$(YELLOW)Доступные команды:$(NC)\"",
        "\t@awk 'BEGIN \x7bFS = \":.*?## \"\x7d /^[a-zA-Z_-]+:.*?## / \x7bprintf \"  $(GREEN)%-15s$(NC) %s\\\\n\", $$1, $$2\x7d' $(MAKEFILE_LIST)",
        "",
        "# Установка зависимостей",
        "install: ## Установить зависимости",
        "\t@echo \"$(BLUE)Установка зависимостей...$(NC)\"",
        "\t$(GOMOD) download",
        "\t$(GOMOD) tidy",
        "",
        "# Обновление зависимостей",
        "deps: ## Обновить зависимости",
        "\t@echo \"$(BLUE)Обновление зависимостей...$(NC)\"",
        "\t$(GOGET) -u ./...",
        "\t$(GOMOD) tidy",
        "",
        "# Проверка зависимостей",
        "tidy: ## Очистить и проверить зависимости",
        "\t@echo \"$(BLUE)Проверка зависимостей...$(NC)\"",
        "\t$(GOMOD) tidy",
        "\t$(GOMOD) verify",
        "",
        "# Сборка приложения",
        "build: ## Собрать приложение",
        "\t@echo \"$(BLUE)Сборка приложения...$(NC)\"",
        "\t$(GOBUILD) -ldflags=\"-w -s -X main.version=$(VERSION)\" -o $(BINARY_NAME) cmd/main.go",
        "\t@echo \"$(GREEN)Сборка завершена: $(BINARY_NAME)$(NC)\"",
        "",
        "# Сборка для разных платформ",
        "build-linux: ## Собрать для Linux",
        "\t@echo \"$(BLUE)Сборка для Linux...$(NC)\"",
        "\tCGO_ENABLED=0 GOOS=linux GOARCH=amd64 $(GOBUILD) -ldflags=\"-w -s\" -o $(BINARY_NAME)-linux cmd/main.go",
        "",
        "build-windows: ## Собрать для Windows",
        "\t@echo \"$(BLUE)Сборка для Windows...$(NC)\"",
        "\tCGO_ENABLED=0 GOOS=windows GOARCH=amd64 $(GOBUILD) -ldflags=\"-w -s\" -o $(BINARY_NAME)-windows.exe cmd/main.go",
        "",
        "build-mac: ## Собрать для macOS",
        "\t@echo \"$(BLUE)Сборка для macOS...$(NC)\"",
        "\tCGO_ENABLED=0 GOOS=darwin GOARCH=amd64 $(GOBUILD) -ldflags=\"-w -s\" -o $(BINARY_NAME)-darwin cmd/main.go",
        "",
        "build-all: build-linux build-windows build-mac ## Собрать для всех платформ",
        "",
        "# Запуск приложения",
        "run: ## Запустить приложение",
        "\t@echo \"$(BLUE)Запуск приложения...$(NC)\"",
        "\t$(GOBUILD) -o $(BINARY_NAME) cmd/main.go && ./$(BINARY_NAME)",
        "",
        "# Запуск в режиме разработки",
        "dev: ## Запуск в режиме разработки (с автоперезагрузкой)",
        "\t@echo \"$(BLUE)Запуск в режиме разработки...$(NC)\"",
        "\t@if command -v air > /dev/null 2>&1; then \\\\",
        "\t\tair; \\\\",
        "\telse \\\\",
        "\t\techo \"$(YELLOW)air не установлен. Установите его: go install github.com/cosmtrek/air@latest$(NC)\"; \\\\",
        "\t\techo \"$(YELLOW)Запуск обычным способом...$(NC)\"; \\\\",
        "\t\t$(MAKE) run; \\\\",
        "\tfi",
        "",
        "# Тестирование",
        "test: ## Запустить тесты",
        "\t@echo \"$(BLUE)Запуск тестов...$(NC)\"",
        "\t$(GOTEST) -v ./...",
        "",
        "test-coverage: ## Запустить тесты с покрытием",
        "\t@echo \"$(BLUE)Запуск тестов с покрытием...$(NC)\"",
        "\t$(GOTEST) -v -coverprofile=coverage.out ./...",
        "\t$(GOCMD) tool cover -html=coverage.out -o coverage.html",
        "\t@echo \"$(GREEN)Отчет о покрытии создан: coverage.html$(NC)\"",
        "",
        "test-race: ## Запустить тесты с проверкой гонок",
        "\t@echo \"$(BLUE)Запуск тестов с проверкой гонок...$(NC)\"",
        "\t$(GOTEST) -race -v ./...",
        "",
        "# Линтинг",
        "lint: ## Запустить линтеры",
        "\t@echo \"$(BLUE)Запуск линтеров...$(NC)\"",
        "\t@if command -v golangci-lint > /dev/null 2>&1; then \\\\",
        "\t\tgolangci-lint run; \\\\",
        "\telse \\\\",
        "\t\techo \"$(YELLOW)golangci-lint не установлен. Установите его: https://golangci-lint.run/usage/install/$(NC)\"; \\\\",
        "\t\techo \"$(YELLOW)Используем go vet...$(NC)\"; \\\\",
        "\t\t$(GOCMD) vet ./...; \\\\",
        "\tfi",
        "",
        "# Форматирование кода",
        "fmt: ## Форматировать код",
        "\t@echo \"$(BLUE)Форматирование кода...$(NC)\"",
        "\t$(GOCMD) fmt ./...",
        "",
        "# Swagger документация",
        "swagger: ## Генерировать Swagger документацию",
        "\t@echo \"$(BLUE)Генерация Swagger документации...$(NC)\"",
        "\t@if command -v swag > /dev/null 2>&1; then \\\\",
        "\t\tswag init -g cmd/main.go -o ./docs; \\\\",
        "\t\techo \"$(GREEN)Swagger документация создана в ./docs$(NC)\"; \\\\",
        "\telse \\\\",
        "\t\techo \"$(YELLOW)swag не установлен. Установите его: go install github.com/swaggo/swag/cmd/swag@latest$(NC)\"; \\\\",
        "\tfi",
        "",
        "# Docker команды",
        "docker-build: ## Собрать Docker образ",
        "\t@echo \"$(BLUE)Сборка Docker образа...$(NC)\"",
        "\tdocker build -t $(DOCKER_IMAGE):$(VERSION) -t $(DOCKER_IMAGE):latest .",
        "\t@echo \"$(GREEN)Docker образ собран: $(DOCKER_IMAGE):$(VERSION)$(NC)\"",
        "",
        "docker-run: ## Запустить контейнер",
        "\t@echo \"$(BLUE)Запуск Docker контейнера...$(NC)\"",
        "\tdocker run -d --name $(APP_NAME) -p 8080:8080"]]
  let content :=
    if config.EnableGRPC then content ++
      [T [" -p 9090:9090"]]
    else content
  content ++
    [T [" $(DOCKER_IMAGE):latest",
        "\t@echo \"$(GREEN)Контейнер запущен: $(APP_NAME)$(NC)\"",
        "",
        "docker-stop: ## Остановить контейнер",
        "\t@echo \"$(BLUE)Остановка контейнера...$(NC)\"",
        "\tdocker stop $(APP_NAME) || true",
        "\tdocker rm $(APP_NAME) || true",
        "",
        "docker-logs: ## Показать логи контейнера",
        "\tdocker logs -f $(APP_NAME)",
        "",
        "docker-shell: ## Войти в контейнер",
        "\tdocker exec -it $(APP_NAME) /bin/sh",
        "",
        "docker-compose-up: ## Запустить через docker-compose",
        "\t@echo \"$(BLUE)Запуск через docker-compose...$(NC)\"",
        "\tdocker-compose up -d",
        "\t@echo \"$(GREEN)Сервисы запущены$(NC)\"",
        "",
        "docker-compose-down: ## Остановить docker-compose",
        "\t@echo \"$(BLUE)Остановка docker-compose...$(NC)\"",
        "\tdocker-compose down",
        "",
        "docker-compose-logs: ## Показать логи docker-compose",
        "\tdocker-compose logs -f",
        "",
        "docker-clean: ## Очистить Docker ресурсы",
        "\t@echo \"$(BLUE)Очистка Docker ресурсов...$(NC)\"",
        "\tdocker system prune -f",
        "\tdocker volume prune -f",
        "",
        "# Очистка",
        "clean: ## Очистить собранные файлы",
        "\t@echo \"$(BLUE)Очистка...$(NC)\"",
        "\t$(GOCLEAN)",
        "\trm -f $(BINARY_NAME)",
        "\trm -f $(BINARY_NAME)-*",
        "\trm -f coverage.out coverage.html",
        "\t@echo \"$(GREEN)Очистка завершена$(NC)\"",
        "",
        "# Проверка безопасности",
        "security: ## Проверка безопасности",
        "\t@echo \"$(BLUE)Проверка безопасности...$(NC)\"",
        "\t@if command -v gosec > /dev/null 2>&1; then \\\\",
        "\t\tgosec ./...; \\\\",
        "\telse \\\\",
        "\t\techo \"$(YELLOW)gosec не установлен. Установите его: go install github.com/securecodewarrior/gosec/v2/cmd/gosec@latest$(NC)\"; \\\\",
        "\tfi",
        "",
        "# Полная проверка",
        "check: lint test security ## Запустить все проверки",
        "",
        "# Подготовка к продакшену",
        "release: clean build test lint ## Подготовить релиз",
        "\t@echo \"$(GREEN)Релиз готов!$(NC)\"",
        "",
        "# Показать версию",
        "version: ## Показать версию",
        "\t@echo \"$(BLUE)$(APP_NAME) версия: $(VERSION)$(NC)\"",
        "",
        "# Статус",
        "status: ## Показать статус приложения",
        "\t@echo \"$(BLUE)Статус $(APP_NAME):$(NC)\"",
        "\t@if pgrep -f \"$(BINARY_NAME)\" > /dev/null; then \\\\",
        "\t\techo \"$(GREEN)✓ Приложение запущено$(NC)\"; \\\\",
        "\telse \\\\",
        "\t\techo \"$(RED)✗ Приложение остановлено$(NC)\"; \\\\",
        "\tfi",
        "",
        "# По умолчанию показываем справку",
        ".DEFAULT_GOAL := help",
        ""]]

/-- Go `generateMakefile`. -/
def generateMakefile (env : Env) (g : Generator) (config : ProjectConfig) : Act :=
  let makefilePath := filepathJoin [g.projectPath, "Makefile"]
  osWriteFile env makefilePath (render config (makefileContent config))

/-! ## generator.go: Generate -/

/-- Go `Generate`. -/
def Generate (env : Env) (g : Generator) (config : ProjectConfig) : Act :=
  check (createDirectoryStructure env g)
    (GoError.wrap "ошибка создания структуры директорий: ") <|
  check (generateGoMod env g config) (GoError.wrap "ошибка создания go.mod: ") <|
  check (generateConfig env g config) (GoError.wrap "ошибка создания конфига: ") <|
  check (generateMainFiles env g config) (GoError.wrap "ошибка создания основных файлов: ") <|
  check (generateHandlers env g config) (GoError.wrap "ошибка создания handlers: ") <|
  check (generateDatabaseLayer env g config) (GoError.wrap "ошибка создания слоя БД: ") <|
  check
    (if config.EnableGRPC then
      check (generateGRPC env g config) (GoError.wrap "ошибка создания gRPC: ") retNil
     else retNil) id <|
  check (generateDockerFiles env g config) (GoError.wrap "ошибка создания Docker файлов: ") <|
  check (generateMakefile env g config) (GoError.wrap "ошибка создания Makefile: ") <|
  retNil

/-! ## cmd -/

/-- Go `cmd.Version`. -/
def Version : String := "1.0.0"

/-- The database names the `--database` flag lists in its help text
(`cmd/init.go`). -/
def databaseFlagValues : List String := ["postgresql", "mysql", "mongodb", "in-memory", "none"]

/-- The database names the interactive prompt offers (`cmd/init.go`). -/
def databasePromptOptions : List String := ["PostgreSQL", "MySQL", "MongoDB", "In-Memory", "Без БД"]

/-- The frameworks the `--framework` flag lists in its help text. -/
def frameworkFlagValues : List String := ["gin", "fiber", "echo"]

/-- The frameworks the interactive prompt offers. -/
def frameworkPromptOptions : List String := ["Gin", "Fiber", "Echo"]

/-! ## Running without failures: definitions -/

/-- No system call ever fails. -/
def Env.noFault (env : Env) : Prop := ∀ fs op, env.fault fs op = none

/-- The environment in which no system call fails. -/
def okEnv : Env := { fault := fun _ _ => none }

/-- The empty file system, nothing recorded. -/
def emptyWorld : World := { fs := { dirs := fun _ => false, files := fun _ => none }, log := [] }

/-- Scenario A of the specification. -/
def scenarioA : ProjectConfig :=
  { Name := "orders", ModuleName := "example.org/orders", Framework := "gin",
    Database := "postgresql", EnableGRPC := true, Path := "/srv/orders" }

/-- The world after the given system calls, all successful. -/
def World.run (w : World) : List FsOp → World
  | [] => w
  | op :: ops => World.run { fs := w.fs.apply op, log := w.log ++ [op] } ops

/-- The action succeeds in every world and does exactly the given system calls. -/
def IsPlan (a : Act) (ops : List FsOp) : Prop := ∀ w, a w = (none, w.run ops)

/-- The paths of the files written by a sequence of system calls. -/
def writtenPaths : List FsOp → List String
  | [] => []
  | .writeFile path _ :: ops => path :: writtenPaths ops
  | .mkdirAll _ :: ops => writtenPaths ops

/-- The directories asked for by a sequence of system calls. -/
def madeDirs : List FsOp → List String
  | [] => []
  | .mkdirAll path :: ops => path :: madeDirs ops
  | .writeFile _ _ :: ops => madeDirs ops

/-- The database is switched off: the test every renderer makes. -/
def dbDisabled (config : ProjectConfig) : Bool :=
  stringsContains (stringsToLower config.Database) "без"

/-- The system calls of the database phase. -/
def databasePlan (g : Generator) (config : ProjectConfig) : List FsOp :=
  if dbDisabled config then []
  else
    [.writeFile (filepathJoin [g.projectPath, "pkg/database/interface.go"])
       (render config (databaseInterfaceContent config)),
     .writeFile (filepathJoin [g.projectPath, "pkg/database/database.go"])
       (render config (databaseImplementationContent config)),
     .writeFile (filepathJoin [g.projectPath, "internal/repository/user.go"])
       (render config (repositoriesContent config)),
     .writeFile (filepathJoin [g.projectPath, "internal/models/models.go"])
       (render config (modelsContent config))]

/-- The system calls of the gRPC phase. -/
def grpcPlan (g : Generator) (config : ProjectConfig) : List FsOp :=
  [.mkdirAll (filepathJoin [g.projectPath, "api/proto"]),
   .writeFile (filepathJoin [filepathJoin [g.projectPath, "api/proto"], config.Name ++ ".proto"])
     (render config (protoFileContent config)),
   .mkdirAll (filepathJoin [g.projectPath, "internal/grpc"]),
   .writeFile (filepathJoin [filepathJoin [g.projectPath, "internal/grpc"], "server.go"])
     (render config (grpcServerContent config)),
   .writeFile (filepathJoin [g.projectPath, "internal/grpc/client.go"])
     (render config (grpcClientContent config)),
   .mkdirAll (filepathJoin [g.projectPath, "scripts"]),
   .writeFile (filepathJoin [g.projectPath, "scripts/proto.mk"])
     (render config protoMakefileContent)]

/-- The system calls of a whole run, in the order in which they are made. -/
def generatePlan (g : Generator) (config : ProjectConfig) : List FsOp :=
  skeletonDirs.map (fun dir => FsOp.mkdirAll (filepathJoin [g.projectPath, dir])) ++
  [.writeFile (filepathJoin [g.projectPath, "go.mod"]) (render config (goModContent config)),
   .writeFile (filepathJoin [g.projectPath, "config.yaml"])
     (render config (configYAMLContent config)),
   .writeFile (filepathJoin [g.projectPath, "internal/config/config.go"])
     (render config (configGoContent config)),
   .writeFile (filepathJoin [g.projectPath, "cmd/main.go"]) (render config (mainGoContent config)),
   .mkdirAll (filepathJoin [g.projectPath, "internal/app"]),
   .writeFile (filepathJoin [filepathJoin [g.projectPath, "internal/app"], "app.go"])
     (render config (appGoContent config)),
   .writeFile (filepathJoin [g.projectPath, "pkg/context/context.go"])
     (render config (contextContent config)),
   .writeFile (filepathJoin [g.projectPath, "pkg/logger/logger.go"])
     (render config (loggerContent config)),
   .writeFile (filepathJoin [g.projectPath, "internal/handlers/handler.go"])
     (render config (baseHandlerContent config)),
   .writeFile (filepathJoin [g.projectPath, "internal/handlers/health.go"])
     (render config (healthHandlerContent config)),
   .writeFile (filepathJoin [g.projectPath, "internal/middleware/middleware.go"])
     (render config (middlewareContent config))] ++
  databasePlan g config ++
  (if config.EnableGRPC then grpcPlan g config else []) ++
  [.writeFile (filepathJoin [g.projectPath, "Dockerfile"])
     (render config (dockerfileContent config)),
   .writeFile (filepathJoin [g.projectPath, "docker-compose.yml"])
     (render config (dockerComposeContent config)),
   .writeFile (filepathJoin [g.projectPath, ".dockerignore"]) (render config dockerIgnoreContent),
   .writeFile (filepathJoin [g.projectPath, "Makefile"]) (render config (makefileContent config))]

/-! ## Paths: the last element of a joined path: definitions -/

/-- The last element of a list of path elements. -/
def lastElem : List (List Char) → List Char
  | [] => []
  | [e] => e
  | _ :: e :: es => lastElem (e :: es)

/-- The base name of a path: what stands after its last separator. -/
def baseOf (path : String) : List Char := lastElem (splitSep path.data)

/-- A path element that `filepath.Clean` keeps as it is: not empty, not `.`,
not `..`, and without a separator. -/
def IsName (c : List Char) : Prop := c ≠ [] ∧ c ≠ ['.'] ∧ c ≠ ['.', '.'] ∧ '/' ∉ c

/-! ## C1: the file set: definitions -/

/-- A path of the project: the project path joined with a relative path. -/
def Generator.at (g : Generator) (rel : String) : String := filepathJoin [g.projectPath, rel]

/-- The files every run writes before it comes to the optional layers. -/
def sourceFiles (g : Generator) : List String :=
  [g.at "go.mod", g.at "config.yaml", g.at "internal/config/config.go", g.at "cmd/main.go",
   filepathJoin [g.at "internal/app", "app.go"], g.at "pkg/context/context.go",
   g.at "pkg/logger/logger.go", g.at "internal/handlers/handler.go",
   g.at "internal/handlers/health.go", g.at "internal/middleware/middleware.go"]

/-- The files every run writes after the optional layers. -/
def deployFiles (g : Generator) : List String :=
  [g.at "Dockerfile", g.at "docker-compose.yml", g.at ".dockerignore", g.at "Makefile"]

/-- The 14 files every run writes. -/
def alwaysFiles (g : Generator) : List String := sourceFiles g ++ deployFiles g

/-- The files of the database layer. -/
def databaseFiles (g : Generator) : List String :=
  [g.at "pkg/database/interface.go", g.at "pkg/database/database.go",
   g.at "internal/repository/user.go", g.at "internal/models/models.go"]

/-- The files of the gRPC subsystem. -/
def grpcFiles (g : Generator) (config : ProjectConfig) : List String :=
  [filepathJoin [g.at "api/proto", config.Name ++ ".proto"],
   filepathJoin [g.at "internal/grpc", "server.go"], g.at "internal/grpc/client.go",
   g.at "scripts/proto.mk"]

/-- The file set the conditional-presence rules ask for. -/
def expectedFiles (g : Generator) (config : ProjectConfig) : List String :=
  alwaysFiles g ++
  (if config.Database ≠ "без бд" then databaseFiles g else []) ++
  (if config.EnableGRPC then grpcFiles g config else [])

/-! ## Reading generated files line by line: definitions -/

/-- Cut a file body at every line feed. -/
def splitLines : List Tok → List (List Tok)
  | [] => [[]]
  | t :: ts =>
    if t = Tok.ch '\n' then [] :: splitLines ts
    else
      match splitLines ts with
      | [] => [[t]]
      | l :: ls => (t :: l) :: ls

/-- The lines of a file body. -/
def linesOf (t : Template) : List (List Tok) := splitLines (toks t)

/-- What is left of a line after a given beginning, if it begins so. -/
def afterPrefix {α : Type} [DecidableEq α] : List α → List α → Option (List α)
  | [], l => some l
  | _ :: _, [] => none
  | a :: as, b :: bs => if a = b then afterPrefix as bs else none

/-- The lines that follow the first line equal to `header`. -/
def linesAfter (header : List Tok) : List (List Tok) → List (List Tok)
  | [] => []
  | l :: ls => if l = header then ls else linesAfter header ls

/-- The leading lines that begin with `pre`, without that beginning. -/
def itemsWith (pre : List Tok) : List (List Tok) → List (List Tok)
  | [] => []
  | l :: ls =>
    match afterPrefix pre l with
    | some rest => rest :: itemsWith pre ls
    | none => []

/-- The port mappings published by the first service of docker-compose.yml (the
application): the items listed under its `ports:` key. -/
def composeAppPorts (t : Template) : List (List Tok) :=
  itemsWith (lit "      - ") (linesAfter (lit "    ports:") (linesOf t))

/-- The value of the first `key` line among the leading indented lines. -/
def blockValue (key : List Tok) : List (List Tok) → Option (List Tok)
  | [] => none
  | l :: ls =>
    match afterPrefix (lit "  ") l with
    | none => none
    | some _ =>
      match afterPrefix key l with
      | some v => some v
      | none => blockValue key ls

/-- The port of the `grpc:` block of config.yaml, if there is such a block. -/
def yamlGrpcPort (t : Template) : Option (List Tok) :=
  if lit "grpc:" ∈ linesOf t then
    blockValue (lit "  port: ") (linesAfter (lit "grpc:") (linesOf t))
  else none

/-- The container side of a quoted port mapping `"host:container"`. -/
def containerPort (mapping : List Tok) : List Tok :=
  ((mapping.dropWhile (fun t => t ≠ Tok.ch ':')).drop 1).takeWhile (fun t => t ≠ Tok.ch '"')

/-! ## C3, C6: the require block of go.mod: definitions -/

/-- The module path of a dependency entry: the text before the version. -/
def dependencyModule (dep : String) : String := ⟨dep.data.takeWhile (fun c => c ≠ ' ')⟩

/-- The module paths the require block lists, in order. -/
def requiredModules (config : ProjectConfig) : List String :=
  (goModDependencies config).map dependencyModule

/-! ## C4: the database service of docker-compose.yml: definitions -/

/-- The values of the lines that begin with `pre`, in order. -/
def valuesWith (pre : List Tok) : List (List Tok) → List (List Tok)
  | [] => []
  | l :: ls =>
    match afterPrefix pre l with
    | some v => v :: valuesWith pre ls
    | none => valuesWith pre ls

/-- The images of the services docker-compose.yml declares besides the
application (which is built, not pulled). -/
def composeImages (t : Template) : List (List Tok) :=
  valuesWith (lit "    image: ") (linesOf t)

/-- The named volumes docker-compose.yml declares at top level. -/
def composeVolumes (t : Template) : List (List Tok) :=
  itemsWith (lit "  ") (linesAfter (lit "volumes:") (linesOf t))

/-- The baseline entries of the require block. -/
def baselineEntries : List String :=
  ["gopkg.in/yaml.v3 v3.0.1", "github.com/swaggo/swag v1.16.2"]

/-- The entries a (lower-cased) framework adds. -/
def frameworkEntries (framework : String) : List String :=
  if framework = "gin" then
    ["github.com/gin-gonic/gin v1.9.1", "github.com/swaggo/gin-swagger v1.6.0",
     "github.com/swaggo/files v1.0.1"]
  else if framework = "fiber" then
    ["github.com/gofiber/fiber/v2 v2.52.0", "github.com/gofiber/swagger v1.0.0"]
  else if framework = "echo" then
    ["github.com/labstack/echo/v4 v4.11.4", "github.com/swaggo/echo-swagger v1.4.1"]
  else []

/-- The entries a (lower-cased) database adds. -/
def databaseEntries (database : String) : List String :=
  if database = "postgresql" then
    ["github.com/lib/pq v1.10.9", "gorm.io/gorm v1.25.5", "gorm.io/driver/postgres v1.5.4"]
  else if database = "mysql" then
    ["github.com/go-sql-driver/mysql v1.7.1", "gorm.io/gorm v1.25.5",
     "gorm.io/driver/mysql v1.5.2"]
  else if database = "mongodb" then ["go.mongodb.org/mongo-driver v1.13.1"]
  else if database = "in-memory" then ["gorm.io/gorm v1.25.5", "gorm.io/driver/sqlite v1.5.4"]
  else []

/-- The entries gRPC adds. -/
def grpcEntries : List String :=
  ["google.golang.org/grpc v1.60.1", "google.golang.org/protobuf v1.31.0"]

/-- The common entries that close the require block. -/
def commonEntries : List String :=
  ["github.com/sirupsen/logrus v1.9.3", "github.com/joho/godotenv v1.4.0"]

/-- The require block as the specification puts it together. -/
def requireBlockSpec (config : ProjectConfig) : List String :=
  baselineEntries ++ frameworkEntries (stringsToLower config.Framework) ++
  databaseEntries (stringsToLower config.Database) ++
  (if config.EnableGRPC then grpcEntries else []) ++ commonEntries

/-! ## C7: the ports of the Makefile and of docker-compose.yml: definitions -/

/-- Cut a line at every blank. -/
def splitWords : List Tok → List (List Tok)
  | [] => [[]]
  | t :: ts =>
    if t = Tok.ch ' ' then [] :: splitWords ts
    else
      match splitWords ts with
      | [] => [[t]]
      | l :: ls => (t :: l) :: ls

/-- The words that follow an occurrence of the option `flag`. -/
def flagValues (flag : List Tok) : List (List Tok) → List (List Tok)
  | [] => []
  | [_] => []
  | w :: v :: rest =>
    if w = flag then v :: flagValues flag rest else flagValues flag (v :: rest)

/-- The first line that begins with `pre`. -/
def firstLineWith (pre : List Tok) : List (List Tok) → Option (List Tok)
  | [] => none
  | l :: ls => if startsWith pre l then some l else firstLineWith pre ls

/-- The port mappings forwarded by the `docker run` command of the Makefile:
the values of its `-p` options. -/
def makefileRunPorts (t : Template) : List (List Tok) :=
  match firstLineWith (lit "\tdocker run ") (linesOf t) with
  | some l => flagValues (lit "-p") (splitWords l)
  | none => []

/-- A port mapping as docker-compose.yml writes it: in double quotes. -/
def quoted (mapping : List Tok) : List Tok := lit "\"" ++ mapping ++ lit "\""

/-! ## C8: the module path in go.mod and in the imports: definitions -/

/-- The lines that name an imported package: those inside an `import ( ... )`
group and the single-line `import` declarations. -/
def importLines : Bool → List (List Tok) → List (List Tok)
  | _, [] => []
  | false, l :: ls =>
    if l = lit "import (" then importLines true ls
    else
      match afterPrefix (lit "import ") l with
      | some rest => rest :: importLines false ls
      | none => importLines false ls
  | true, l :: ls =>
    if l = lit ")" then importLines false ls else l :: importLines true ls

/-- The import path of an import line: what stands between its double quotes
(a blank line has none). -/
def importPath (l : List Tok) : Option (List Tok) :=
  match l.dropWhile (fun t => t ≠ Tok.ch '"') with
  | [] => none
  | _ :: rest => some (rest.takeWhile (fun t => t ≠ Tok.ch '"'))

/-- The import paths of a Go file, in order. -/
def importPaths (t : Template) : List (List Tok) :=
  (importLines false (linesOf t)).filterMap importPath

/-- The packages of a generated project, relative to its root: the directories
the generator writes Go files to, and the package of the code generated from
the proto file (its `go_package`). -/
def projectPackages : List String :=
  ["cmd", "internal/config", "internal/app", "internal/handlers", "internal/middleware",
   "internal/models", "internal/repository", "internal/grpc", "internal/grpc/pb",
   "pkg/context", "pkg/logger", "pkg/database"]

/-- The line `l` ends with `suffix`. -/
def endsWith {α : Type} [DecidableEq α] (suffix l : List α) : Bool :=
  startsWith suffix.reverse l.reverse

/-- An import of a project package through the configured module path: the
interpolated `ModuleName`, a slash, and the package path. -/
def isModuleImport (path : List Tok) : Bool :=
  projectPackages.any (fun pkg => decide (path = Tok.moduleName :: lit ("/" ++ pkg)))

/-- An import written out in the generator's text that is not one of a project
package: no interpolated value in it, and it neither is nor ends with the path
of a project package. -/
def isForeignImport (path : List Tok) : Bool :=
  path.all (fun t => decide (t ≠ Tok.moduleName ∧ t ≠ Tok.name)) &&
  projectPackages.all (fun pkg =>
    decide (path ≠ lit pkg) && !endsWith (lit ("/" ++ pkg)) path)

/-- Every import of the file is a module-path import of a project package or a
foreign import. -/
def importsOk (t : Template) : Bool :=
  (importPaths t).all (fun path => isModuleImport path || isForeignImport path)

/-- The file imports at least one project package. -/
def hasModuleImport (t : Template) : Bool := (importPaths t).any isModuleImport

/-- The Go files of a generated project that import project packages, with
their paths relative to the project. -/
def importingGoFiles (config : ProjectConfig) : List (String × Template) :=
  [("cmd/main.go", mainGoContent config),
   ("internal/app/app.go", appGoContent config),
   ("internal/handlers/handler.go", baseHandlerContent config),
   ("internal/middleware/middleware.go", middlewareContent config),
   ("pkg/context/context.go", contextContent config),
   ("pkg/database/interface.go", databaseInterfaceContent config),
   ("pkg/database/database.go", databaseImplementationContent config),
   ("internal/repository/user.go", repositoriesContent config),
   ("internal/grpc/server.go", grpcServerContent config),
   ("internal/grpc/client.go", grpcClientContent config)]

/-- The other Go files of a generated project. -/
def otherGoFiles (config : ProjectConfig) : List (String × Template) :=
  [("internal/config/config.go", configGoContent config),
   ("pkg/logger/logger.go", loggerContent config),
   ("internal/handlers/health.go", healthHandlerContent config),
   ("internal/models/models.go", modelsContent config)]

/-- The bytes of a sequence of positions for a given configuration. -/
def renderToks (config : ProjectConfig) : List Tok → List Char
  | [] => []
  | .ch c :: ts => c :: renderToks config ts
  | .name :: ts => config.Name.data ++ renderToks config ts
  | .moduleName :: ts => config.ModuleName.data ++ renderToks config ts

/-! ## No path is written twice: definitions -/

/-- The base names of the files of a run, in the order in which they are
written. -/
def planBaseNames (config : ProjectConfig) : List (List Char) :=
  ["go.mod".data, "config.yaml".data, "config.go".data, "main.go".data, "app.go".data,
   "context.go".data, "logger.go".data, "handler.go".data, "health.go".data,
   "middleware.go".data] ++
  (if dbDisabled config then []
   else ["interface.go".data, "database.go".data, "user.go".data, "models.go".data]) ++
  (if config.EnableGRPC then
    [lastElem (splitSep config.Name.data) ++ ".proto".data, "server.go".data, "client.go".data,
     "proto.mk".data]
   else []) ++
  ["Dockerfile".data, "docker-compose.yml".data, ".dockerignore".data, "Makefile".data]

/-! ## C9: running twice: definitions -/

/-- The data of the last write to `q` among the system calls, if any. -/
def lastWrite : List FsOp → String → Option String
  | [], _ => none
  | .mkdirAll _ :: ops, q => lastWrite ops q
  | .writeFile p d :: ops, q => (lastWrite ops q).or (if q = p then some d else none)

/-- Some system call of the list makes sure of the directory `q`. -/
def makesDir : List FsOp → String → Bool
  | [], _ => false
  | .mkdirAll p :: ops, q => decide (q ∈ dirChain [] p.data) || makesDir ops q
  | .writeFile _ _ :: ops, q => makesDir ops q

/-! ## C10: failing: definitions -/

/-- The phases of a run in their order, each with the text `Generate` puts in
front of the error of that phase. -/
def phases (env : Env) (g : Generator) (config : ProjectConfig) : List (String × Act) :=
  [("ошибка создания структуры директорий: ", createDirectoryStructure env g),
   ("ошибка создания go.mod: ", generateGoMod env g config),
   ("ошибка создания конфига: ", generateConfig env g config),
   ("ошибка создания основных файлов: ", generateMainFiles env g config),
   ("ошибка создания handlers: ", generateHandlers env g config),
   ("ошибка создания слоя БД: ", generateDatabaseLayer env g config)] ++
  (if config.EnableGRPC then [("ошибка создания gRPC: ", generateGRPC env g config)] else []) ++
  [("ошибка создания Docker файлов: ", generateDockerFiles env g config),
   ("ошибка создания Makefile: ", generateMakefile env g config)]

/-- Run the phases in order and stop at the first one that fails, returning its
error wrapped and the world as that phase left it. -/
def failFast : List (String × Act) → Act
  | [] => retNil
  | (pre, a) :: rest => fun w =>
    match a w with
    | (some err, w1) => (some (GoError.wrap pre err), w1)
    | (none, w1) => failFast rest w1

/-- An action only adds to the record of system calls, leaves alone every file
it does not write, and removes neither files nor directories. -/
def Frames (a : Act) : Prop :=
  ∀ w, ∃ ops, (a w).2.log = w.log ++ ops ∧
    (∀ p, p ∉ writtenPaths ops → (a w).2.fs.files p = w.fs.files p) ∧
    (∀ p, w.fs.files p ≠ none → (a w).2.fs.files p ≠ none) ∧
    (∀ p, w.fs.dirs p = true → (a w).2.fs.dirs p = true)

/-- An environment in which writing `/srv/orders/config.yaml` is refused and
every other system call succeeds. -/
def readOnlyConfigEnv : Env :=
  { fault := fun _ op =>
      match op with
      | .writeFile path _ =>
        if path = "/srv/orders/config.yaml" then
          some (.sys "open /srv/orders/config.yaml: permission denied")
        else none
      | .mkdirAll _ => none }

/-! ## C11: what a returned error says: definitions -/

/-- The text that the wrappings of an error put in front of its innermost
cause. -/
def GoError.added : GoError → String
  | .sys _ => ""
  | .wrap pre cause => pre ++ cause.added

/-- The text `Generate` puts in front of an error of the skeleton phase. -/
def skeletonLabel : String := "ошибка создания структуры директорий: "

/-- An action that hands on the error of the system call that failed as it
is: when it returns an error, that is the error of the last call recorded. -/
def Passes (env : Env) (a : Act) : Prop :=
  ∀ w e, (a w).1 = some e →
    ∃ op, env.fault (a w).2.fs op = some e ∧ (a w).2.log.getLast? = some op

/-- An action that fails only in a directory creation and then names the path
of the directory in front of the error of the call. -/
def NamesDir (env : Env) (a : Act) : Prop :=
  ∀ w e, (a w).1 = some e →
    ∃ path cause, env.fault (a w).2.fs (.mkdirAll path) = some cause ∧
      (a w).2.log.getLast? = some (.mkdirAll path) ∧
      e = GoError.wrap ("ошибка создания директории " ++ path ++ ": ") cause

/-! ## C12, C13: the operations of the gRPC service: definitions -/

/-- The leading lines up to (not including) the first line equal to `stop`. -/
def linesUntil (stop : List Tok) : List (List Tok) → List (List Tok)
  | [] => []
  | l :: ls => if l = stop then [] else l :: linesUntil stop ls

/-- The lines that follow the first line beginning with `pre`. -/
def linesAfterStart (pre : List Tok) : List (List Tok) → List (List Tok)
  | [] => []
  | l :: ls => if startsWith pre l then ls else linesAfterStart pre ls

/-- What stands before the first occurrence of `stop` in a line. -/
def upTo (stop : Char) (l : List Tok) : List Tok := l.takeWhile (fun t => t ≠ Tok.ch stop)

/-- The names of the rpc operations declared in the service of a proto file:
of the lines `rpc Name(...) ...` between `service ... {` and the closing
brace. -/
def protoRpcNames (t : Template) : List (List Tok) :=
  (valuesWith (lit "  rpc ") (linesUntil (lit "\x7d") (linesAfterStart (lit "service ") (linesOf t)))).map
    (upTo '(')

/-- The names of the methods a Go file defines on the receiver written as
`recv`, e.g. `(s *Server)`. -/
def goMethodNames (recv : String) (t : Template) : List (List Tok) :=
  (valuesWith (lit ("func " ++ recv ++ " ")) (linesOf t)).map (upTo '(')

/-- The RPC handler methods of the generated server: the methods of `Server`
other than `Start` and `Stop`. -/
def serverRpcMethods (t : Template) : List (List Tok) :=
  (goMethodNames "(s *Server)" t).filter (fun m => m ≠ lit "Start" ∧ m ≠ lit "Stop")

/-- The call methods of the generated client: the methods of `Client` other
than `Close`. -/
def clientRpcMethods (t : Template) : List (List Tok) :=
  (goMethodNames "(c *Client)" t).filter (fun m => m ≠ lit "Close")

/-- The seven operations of the generated service. -/
def serviceOperations : List (List Tok) :=
  [lit "HealthCheck", lit "Ping", lit "CreateUser", lit "GetUser", lit "UpdateUser",
   lit "DeleteUser", lit "ListUsers"]

/-! ## C15, C16, C17: config.yaml and its loader: definitions -/

/-- The keys of a block of config.yaml: of the indented lines that follow the
line `header`. -/
def yamlBlockKeys (header : String) (t : Template) : List (List Tok) :=
  (itemsWith (lit "  ") (linesAfter (lit header) (linesOf t))).map (upTo ':')

/-- The top-level keys of config.yaml: the lines that end in a colon and do not
begin with a blank or a comment sign. -/
def yamlTopKeys (t : Template) : List (List Tok) :=
  ((linesOf t).filter (fun l =>
    !startsWith (lit " ") l && !startsWith (lit "#") l && endsWith (lit ":") l)).map (upTo ':')

/-- The body of a Go struct type: the lines between `type Name struct {` and
the closing brace. -/
def structBody (name : String) (t : Template) : List (List Tok) :=
  linesUntil (lit "\x7d") (linesAfter (lit ("type " ++ name ++ " struct \x7b")) (linesOf t))

/-- What follows the first occurrence of `pre` in a line, if it occurs. -/
def afterInfix (pre : List Tok) : List Tok → Option (List Tok)
  | [] => if pre = [] then some [] else none
  | t :: ts =>
    match afterPrefix pre (t :: ts) with
    | some rest => some rest
    | none => afterInfix pre ts

/-- The yaml key of a struct field line: what its tag has between `yaml:"` and
the next double quote. -/
def yamlTag (l : List Tok) : Option (List Tok) :=
  (afterInfix (lit "yaml:\"") l).map (upTo '"')

/-- The yaml keys of the fields of a Go struct type. -/
def structYamlKeys (name : String) (t : Template) : List (List Tok) :=
  (structBody name t).filterMap yamlTag

/-- The names of the fields of a Go struct type. -/
def structFieldNames (name : String) (t : Template) : List (List Tok) :=
  (structBody name t).map (fun l => upTo ' ' (l.dropWhile (fun x => x = Tok.ch '\t')))

/-- The file declares the Go struct type `name`. -/
def declaresStruct (name : String) (t : Template) : Bool :=
  decide (lit ("type " ++ name ++ " struct \x7b") ∈ linesOf t)

/-- The thirteen yaml keys of `DatabaseConfig`. -/
def databaseConfigKeys : List (List Tok) :=
  [lit "type", lit "host", lit "port", lit "user", lit "password", lit "name", lit "ssl_mode",
   lit "uri", lit "path", lit "charset", lit "max_connections", lit "max_idle_connections",
   lit "timeout"]

/-- The keys of the database block of config.yaml for a lower-cased database
name. -/
def databaseBlockKeys (database : String) : List (List Tok) :=
  if database = "postgresql" then
    [lit "type", lit "host", lit "port", lit "user", lit "password", lit "name", lit "ssl_mode",
     lit "max_connections", lit "max_idle_connections"]
  else if database = "mysql" then
    [lit "type", lit "host", lit "port", lit "user", lit "password", lit "name", lit "charset",
     lit "max_connections", lit "max_idle_connections"]
  else if database = "mongodb" then [lit "type", lit "uri", lit "name", lit "timeout"]
  else if database = "in-memory" then [lit "type", lit "path", lit "max_connections"]
  else []

/-- A configuration whose database is not one the generator knows by name. -/
def unknownDatabase : ProjectConfig := { scenarioA with Database := "postgres" }

/-! ## Paths: cleaned paths as stacks of elements: definitions -/

/-- The path begins at the root. -/
def isRooted (cs : List Char) : Bool := startsWith ['/'] cs

/-- A cleaned path, given by whether it is rooted and by its elements, the
last one first. -/
def renderPath (rooted : Bool) (acc : List (List Char)) : String :=
  if rooted then ⟨'/' :: joinSep acc.reverse⟩
  else if joinSep acc.reverse = [] then "."
  else ⟨joinSep acc.reverse⟩

/-- The elements of a path after cleaning, the last one first; none for the
empty path. -/
def elemsOf (p : String) : List (List Char) :=
  if p.data = [] then [] else cleanElems (isRooted p.data) [] (splitSep p.data)

/-- A stack of cleaned path elements: no element is empty, `.` or has a
separator in it, and `..` stands only at the beginning of an unrooted path. -/
def Norm (rooted : Bool) : List (List Char) → Prop
  | [] => True
  | e :: acc =>
    e ≠ [] ∧ e ≠ ['.'] ∧ '/' ∉ e ∧
    (e = ['.', '.'] → rooted = false ∧ ∀ x ∈ acc, x = ['.', '.']) ∧ Norm rooted acc

/-- Go `filepath.Dir`: the path up to its last separator, cleaned. -/
def filepathDir (path : String) : String :=
  filepathClean ⟨(path.data.reverse.dropWhile (fun c => c ≠ '/')).reverse⟩

/-- A directory is there: it has been created, or it is the current directory
or the root, which always are. -/
def DirExists (fs : FS) (q : String) : Prop := fs.dirs q = true ∨ q = "." ∨ q = "/"

/-! ## Running in any environment: definitions -/

/-- In the given environment the action makes the system calls of the plan in
their order and stops at the first one that fails: it ends without an error
after all of them, or with an error right after a call that the environment
failed, the calls before it having taken effect. -/
def Follows (env : Env) (a : Act) (plan : List FsOp) : Prop :=
  ∀ w, ((a w).1 = none ∧ (a w).2 = w.run plan) ∨
    ∃ pre op post, plan = pre ++ op :: post ∧ (a w).1 ≠ none ∧
      env.fault (w.run pre).fs op ≠ none ∧
      (a w).2 = { fs := (w.run pre).fs, log := w.log ++ pre ++ [op] }

/-! ## Paths: the directory of a path under the project path: definitions -/

/-- The project path joined with a relative path given by its elements. -/
def under (p : String) (names : List (List Char)) : String :=
  renderPath (isRooted p.data) (names.reverse ++ elemsOf p)

/-! ## C21: the database implementation and its interface: definitions -/

/-- The body of a Go interface type: the lines between `type Name interface {`
and the closing brace. -/
def interfaceBody (name : String) (t : Template) : List (List Tok) :=
  linesUntil (lit "\x7d") (linesAfter (lit ("type " ++ name ++ " interface \x7b")) (linesOf t))

/-- The method signatures an interface declares: its lines that are neither
blank nor comments, without the indentation. -/
def interfaceMethods (name : String) (t : Template) : List (List Tok) :=
  ((interfaceBody name t).map (fun l => l.dropWhile (fun x => x = Tok.ch '\t'))).filter
    (fun l => l ≠ [] ∧ !startsWith (lit "//") l)

/-- A line without the opening brace that ends it. -/
def dropBrace (l : List Tok) : List Tok :=
  match afterPrefix (lit " \x7b").reverse l.reverse with
  | some rest => rest.reverse
  | none => l

/-- The signatures of the methods a Go file defines on the receiver `recv`:
name, parameters and results. -/
def goMethodSignatures (recv : String) (t : Template) : List (List Tok) :=
  (valuesWith (lit ("func " ++ recv ++ " ")) (linesOf t)).map dropBrace

/-- The signatures of the functions (not methods) with the given name that a
Go file defines. -/
def goFuncSignatures (name : String) (t : Template) : List (List Tok) :=
  (valuesWith (lit ("func " ++ name ++ "(")) (linesOf t)).map dropBrace

/-- The four database implementations with the receivers of their database
type and of their transaction type. -/
def databaseVariants (config : ProjectConfig) : List (Template × String × String) :=
  [(generatePostgreSQLImplementation config, "(p *PostgreSQLDatabase)", "(tx *PostgreSQLTx)"),
   (generateMySQLImplementation config, "(m *MySQLDatabase)", "(tx *MySQLTx)"),
   (generateMongoDBImplementation config, "(m *MongoDatabase)", "(tx *MongoTx)"),
   (generateSQLiteImplementation config, "(s *SQLiteDatabase)", "(tx *SQLiteTx)")]

/-- The implementation defines every method of the two interfaces, with the
signatures the interfaces declare, and the constructor. -/
def implementsInterfaces (iface : Template) (v : Template × String × String) : Bool :=
  (interfaceMethods "Database" iface).all (fun m => decide (m ∈ goMethodSignatures v.2.1 v.1)) &&
  (interfaceMethods "Tx" iface).all (fun m => decide (m ∈ goMethodSignatures v.2.2 v.1)) &&
  decide (goFuncSignatures "New" v.1 = [lit "cfg *config.Config) (Database, error)"])

/-! ## C23: the application port: definitions -/

/-- The value of `key` in the block of config.yaml that follows the line
`header`. -/
def yamlValue (header key : String) (t : Template) : Option (List Tok) :=
  blockValue (lit ("  " ++ key ++ ": ")) (linesAfter (lit header) (linesOf t))

/-- The port of a `host:port` text, quoted or not. -/
def portOfHost (host : List Tok) : List Tok :=
  ((host.dropWhile (fun t => t ≠ Tok.ch ':')).drop 1).takeWhile (fun t => t ≠ Tok.ch '"')

/-- The host side of a port mapping `host:container`, quoted or not. -/
def hostPort (mapping : List Tok) : List Tok :=
  (mapping.dropWhile (fun t => t = Tok.ch '"')).takeWhile (fun t => t ≠ Tok.ch ':')

/-- The application ports the generated files name: the app port of
config.yaml, the port of its swagger host, the port of the `@host` annotation
of cmd/main.go, the port the Dockerfile exposes, and both sides of the first
port mapping of docker-compose.yml and of the Makefile. -/
def applicationPorts (config : ProjectConfig) : List (Option (List Tok)) :=
  [yamlValue "app:" "port" (configYAMLContent config),
   (yamlValue "swagger:" "host" (configYAMLContent config)).map portOfHost,
   ((valuesWith (lit "// @host ") (linesOf (mainGoContent config))).head?).map portOfHost,
   (valuesWith (lit "EXPOSE ") (linesOf (dockerfileContent config))).head?,
   ((composeAppPorts (dockerComposeContent config)).head?).map hostPort,
   ((composeAppPorts (dockerComposeContent config)).head?).map containerPort,
   ((makefileRunPorts (makefileContent config)).head?).map hostPort,
   ((makefileRunPorts (makefileContent config)).head?).map portOfHost]

/-! ## C24: the directory skeleton: definitions -/

/-- The skeleton directories `Generate` asks for first. -/
def skeletonPlan (g : Generator) : List FsOp :=
  skeletonDirs.map (fun dir => FsOp.mkdirAll (filepathJoin [g.projectPath, dir]))

/-! ## C25: everything is created under the project path: definitions -/

/-- The path a system call is about. -/
def FsOp.path : FsOp → String
  | .mkdirAll path => path
  | .writeFile path _ => path

/-- A relative path: not empty and not starting at the root. -/
def IsRelative (rel : String) : Prop := rel.data ≠ [] ∧ isRooted rel.data = false

/-- What every path under the project path begins with: the cleaned project
path and a separator (nothing for the current directory, the separator alone
for the root). -/
def rootPrefix (p : String) : List Char :=
  if elemsOf p = [] then (if isRooted p.data then ['/'] else [])
  else (filepathClean p).data ++ ['/']

/-- The system call is about a path under the project path: the project path
joined with a relative path made of plain names (none of them empty, `.` or
`..`), which is the cleaned project path, a separator and that relative path. -/
def Confined (p : String) (op : FsOp) : Prop :=
  ∃ rel : String, (∀ e ∈ splitSep rel.data, IsName e) ∧
    op.path = filepathJoin [p, rel] ∧ op.path.data = rootPrefix p ++ rel.data

/-- A name that leaves the project directory. -/
def escapingName : ProjectConfig := { scenarioA with Name := "../../../../tmp/evil" }

/-! ## C27: imported modules and go.mod: definitions -/

/-- An import path as text, when it has no interpolated value in it. -/
def textOf : List Tok → Option (List Char)
  | [] => some []
  | .ch c :: ts => (textOf ts).map (fun cs => c :: cs)
  | _ :: _ => none

/-- The imports of third-party modules of a Go file: the import paths spelled
out by the generator whose first element has a dot in it (the packages of the
standard library have none). -/
def thirdPartyImports (t : Template) : List (List Char) :=
  ((importPaths t).filterMap textOf).filter
    (fun p => decide ('.' ∈ p.takeWhile (fun c => c ≠ '/')))

/-- The import path is a package of the module: the module path itself or
something below it. -/
def inModule (path : List Char) (module : String) : Bool :=
  decide (path = module.data) || startsWith (module.data ++ ['/']) path

/-- Every third-party import of the file is a package of a module that the
require block of go.mod lists. -/
def importsRequired (config : ProjectConfig) (t : Template) : Bool :=
  (thirdPartyImports t).all (fun p => (requiredModules config).any (inModule p))

/-- A configuration with a framework the generator does not know by name. -/
def unknownFramework : ProjectConfig := { scenarioA with Framework := "chi" }

/-! ## C29: the directory of a file is there when the file is written: definitions -/

/-- Every write of the system calls goes into a directory that is known or
that an earlier call of the list has made. -/
def ParentsReady (ok : String → Prop) : List FsOp → Prop
  | [] => True
  | .mkdirAll d :: ops => ParentsReady (fun q => q = d ∨ ok q) ops
  | .writeFile path _ :: ops => ok (filepathDir path) ∧ ParentsReady ok ops

/-- The directory is the project root or one of the skeleton directories. -/
def parentKnown (p : String) (q : String) : Prop :=
  q = filepathClean p ∨ ∃ dir ∈ skeletonDirs, q = filepathJoin [p, dir]

/-- An operating system in which a missing directory is the only reason for a
call to fail: making directories works, and so does writing a file into a
directory that is there. -/
def MissingDirOnly (env : Env) : Prop :=
  (∀ fs path, env.fault fs (.mkdirAll path) = none) ∧
  ∀ fs path data, DirExists fs (filepathDir path) → env.fault fs (.writeFile path data) = none

/-- The operating system that fails a write exactly when the directory of the
file is not there. -/
def strictEnv : Env :=
  { fault := fun fs op =>
      match op with
      | .mkdirAll _ => none
      | .writeFile path _ =>
        if fs.dirs (filepathDir path) = true ∨ filepathDir path = "." ∨ filepathDir path = "/"
        then none
        else some (.sys ("open " ++ path ++ ": no such file or directory")) }

/-! ## C28, C30: the database in app.go, handler.go and docker-compose.yml: definitions -/

/-- The services listed under `depends_on:` of the application service. -/
def composeDependsOn (t : Template) : List (List Tok) :=
  itemsWith (lit "      - ") (linesAfter (lit "    depends_on:") (linesOf t))

/-- The docker-compose.yml has a key with nothing listed beneath it: a
`depends_on:` without a service or a top-level `volumes:` without a volume. -/
def hasEmptySection (t : Template) : Bool :=
  (decide (lit "    depends_on:" ∈ linesOf t) && (composeDependsOn t).isEmpty) ||
  (decide (lit "volumes:" ∈ linesOf t) && (composeVolumes t).isEmpty)

/-! ## Running without failures -/

theorem World.run_append (w : World) (a b : List FsOp) :
    w.run (a ++ b) = (w.run a).run b := by
  induction a generalizing w with
  | nil => rfl
  | cons op ops ih => simp [World.run, ih]

theorem World.run_log (w : World) (ops : List FsOp) : (w.run ops).log = w.log ++ ops := by
  induction ops generalizing w with
  | nil => simp [World.run]
  | cons op ops ih => simp [World.run, ih]

theorem isPlan_retNil : IsPlan retNil [] := fun _ => rfl

theorem isPlan_syscall {env : Env} (h : env.noFault) (op : FsOp) :
    IsPlan (syscall env op) [op] := by
  intro w
  simp [syscall, h w.fs op, World.run]

theorem isPlan_check {a rest : Act} {f : GoError → GoError} {A B : List FsOp}
    (ha : IsPlan a A) (hr : IsPlan rest B) : IsPlan (check a f rest) (A ++ B) := by
  intro w
  simp [check, ha w, hr (w.run A), World.run_append]

theorem isPlan_check_nil {a : Act} {f : GoError → GoError} {A : List FsOp}
    (ha : IsPlan a A) : IsPlan (check a f retNil) A := by
  simpa using isPlan_check (f := f) ha isPlan_retNil

theorem isPlan_write {env : Env} (h : env.noFault) (path data : String) :
    IsPlan (osWriteFile env path data) [.writeFile path data] := isPlan_syscall h _

theorem isPlan_mkdir {env : Env} (h : env.noFault) (path : String) :
    IsPlan (osMkdirAll env path) [.mkdirAll path] := isPlan_syscall h _

theorem isPlan_createDirs {env : Env} (h : env.noFault) (g : Generator) (dirs : List String) :
    IsPlan (createDirs env g dirs)
      (dirs.map (fun dir => FsOp.mkdirAll (filepathJoin [g.projectPath, dir]))) := by
  induction dirs with
  | nil => exact isPlan_retNil
  | cons d ds ih => exact isPlan_check (isPlan_mkdir h _) ih

theorem isPlan_generateDatabaseLayer {env : Env} (h : env.noFault) (g : Generator)
    (config : ProjectConfig) :
    IsPlan (generateDatabaseLayer env g config) (databasePlan g config) := by
  unfold generateDatabaseLayer databasePlan dbDisabled
  split
  · exact isPlan_retNil
  · exact isPlan_check (isPlan_write h _ _) <| isPlan_check (isPlan_write h _ _) <|
      isPlan_check (isPlan_write h _ _) <| isPlan_check_nil (isPlan_write h _ _)

theorem isPlan_generateGRPC {env : Env} (h : env.noFault) (g : Generator)
    (config : ProjectConfig) : IsPlan (generateGRPC env g config) (grpcPlan g config) := by
  unfold generateGRPC grpcPlan generateProtoFile generateGRPCServer generateGRPCClient
    generateProtoMakefile
  exact isPlan_check (isPlan_check (isPlan_mkdir h _) (isPlan_write h _ _)) <|
    isPlan_check (isPlan_check (isPlan_mkdir h _) (isPlan_write h _ _)) <|
    isPlan_check (isPlan_write h _ _) <|
    isPlan_check_nil (isPlan_check (isPlan_mkdir h _) (isPlan_write h _ _))

theorem isPlan_Generate {env : Env} (h : env.noFault) (g : Generator) (config : ProjectConfig) :
    IsPlan (Generate env g config) (generatePlan g config) := by
  have hgrpc : IsPlan
      (if config.EnableGRPC then
        check (generateGRPC env g config) (GoError.wrap "ошибка создания gRPC: ") retNil
       else retNil)
      (if config.EnableGRPC then grpcPlan g config else []) := by
    split
    · exact isPlan_check_nil (isPlan_generateGRPC h g config)
    · exact isPlan_retNil
  have hdocker : IsPlan (generateDockerFiles env g config) _ :=
    isPlan_check (isPlan_write h _ _) <| isPlan_check (isPlan_write h _ _) <|
      isPlan_check_nil (isPlan_write h _ _)
  have hhandlers : IsPlan (generateHandlers env g config) _ :=
    isPlan_check (isPlan_write h _ _) <| isPlan_check (isPlan_write h _ _) <|
      isPlan_check_nil (isPlan_write h _ _)
  have hmain : IsPlan (generateMainFiles env g config) _ :=
    isPlan_check (isPlan_write h _ _) <|
      isPlan_check (isPlan_check (isPlan_mkdir h _) (isPlan_write h _ _)) <|
      isPlan_check (isPlan_write h _ _) <| isPlan_check_nil (isPlan_write h _ _)
  have hconfig : IsPlan (generateConfig env g config) _ :=
    isPlan_check (isPlan_write h _ _) <| isPlan_check_nil (isPlan_write h _ _)
  have hall := isPlan_check (f := GoError.wrap "ошибка создания структуры директорий: ")
    (isPlan_createDirs h g skeletonDirs) <|
    isPlan_check (f := GoError.wrap "ошибка создания go.mod: ")
      (isPlan_write h (filepathJoin [g.projectPath, "go.mod"])
        (render config (goModContent config))) <|
    isPlan_check (f := GoError.wrap "ошибка создания конфига: ") hconfig <|
    isPlan_check (f := GoError.wrap "ошибка создания основных файлов: ") hmain <|
    isPlan_check (f := GoError.wrap "ошибка создания handlers: ") hhandlers <|
    isPlan_check (f := GoError.wrap "ошибка создания слоя БД: ")
      (isPlan_generateDatabaseLayer h g config) <|
    isPlan_check (f := id) hgrpc <|
    isPlan_check (f := GoError.wrap "ошибка создания Docker файлов: ") hdocker <|
    isPlan_check_nil (f := GoError.wrap "ошибка создания Makefile: ")
      (isPlan_write h (filepathJoin [g.projectPath, "Makefile"])
        (render config (makefileContent config)))
  intro w
  have := hall w
  simpa [Generate, createDirectoryStructure, generatePlan, List.append_assoc] using this

/-- Lower-casing at work: the spellings of the prompt, and capitals outside
Basic Latin whose small letter is a Basic Latin one (the dotted capital I and
the Kelvin sign), which select the same variants as the plain spellings. -/
theorem stringsToLower_at_work :
    stringsToLower "PostgreSQL" = "postgresql" ∧
    stringsToLower "In-Memory" = "in-memory" ∧
    stringsToLower "Без БД" = "без бд" ∧
    stringsToLower "FİBER" = "fiber" ∧
    stringsToLower "İN-MEMORY" = "in-memory" ∧
    stringsToLower "Kelvin" = "kelvin" ∧
    baseHandlerContent { scenarioA with Framework := "FİBER" } =
      generateFiberHandler { scenarioA with Framework := "FİBER" } ∧
    unicodeToLower 'ß' = 'ß' ∧ unicodeToLower 'Σ' = 'σ' ∧ unicodeToLower 'ǅ' = 'ǆ' := by
  refine ⟨by decide!, by decide!, by decide!, by decide!, by decide!, by decide!, ?_,
    by decide!, by decide!, by decide!⟩
  have h1 : stringsToLower "FİBER" ≠ "gin" := by decide!
  have h2 : stringsToLower "FİBER" = "fiber" := by decide!
  show baseHandlerContent { scenarioA with Framework := "FİBER" } = _
  unfold baseHandlerContent
  rw [if_neg h1, if_pos h2]

/-! ## Paths: the last element of a joined path -/

theorem splitSep_ne_nil (cs : List Char) : splitSep cs ≠ [] := by
  cases cs with
  | nil => simp [splitSep]
  | cons c cs =>
    unfold splitSep
    split
    · simp
    · split <;> simp

theorem splitSep_append (a b : List Char) :
    splitSep (a ++ '/' :: b) = splitSep a ++ splitSep b := by
  induction a with
  | nil => simp [splitSep]
  | cons c a ih =>
    by_cases hc : c = '/'
    · simp [splitSep, hc, ih]
    · cases hs : splitSep a with
      | nil => exact absurd hs (splitSep_ne_nil a)
      | cons x xs =>
        rw [List.cons_append, splitSep, splitSep, if_neg hc, if_neg hc, ih, hs]
        rfl

theorem splitSep_of_not_mem (c : List Char) (h : '/' ∉ c) : splitSep c = [c] := by
  induction c with
  | nil => rfl
  | cons x xs ih =>
    have hx : x ≠ '/' := fun e => h (by simp [e])
    have hxs : '/' ∉ xs := fun e => h (by simp [e])
    simp [splitSep, hx, ih hxs]

theorem lastElem_append (xs ys : List (List Char)) (h : ys ≠ []) :
    lastElem (xs ++ ys) = lastElem ys := by
  induction xs with
  | nil => rfl
  | cons x xs ih =>
    cases hxy : xs ++ ys with
    | nil => simp [h] at hxy
    | cons z zs =>
      rw [List.cons_append, hxy, lastElem, ← hxy, ih]

theorem exists_init_lastElem (xs : List (List Char)) (h : xs ≠ []) :
    ∃ init, xs = init ++ [lastElem xs] := by
  induction xs with
  | nil => exact absurd rfl h
  | cons x xs ih =>
    cases xs with
    | nil => exact ⟨[], rfl⟩
    | cons y ys =>
      obtain ⟨init, hinit⟩ := ih (by simp)
      refine ⟨x :: init, ?_⟩
      rw [lastElem, List.cons_append, ← hinit]

theorem cleanElems_cons (rooted : Bool) (acc : List (List Char)) (e : List Char)
    (es : List (List Char)) :
    cleanElems rooted acc (e :: es) = cleanElems rooted (cleanElems rooted acc [e]) es := by
  by_cases h1 : e = [] ∨ e = ['.']
  · simp [cleanElems, h1]
  · by_cases h2 : e = ['.', '.']
    · cases acc with
      | nil => cases rooted <;> simp [cleanElems, h2]
      | cons a as =>
        by_cases h3 : a = ['.', '.'] <;> simp [cleanElems, h2, h3]
    · simp [cleanElems, h1, h2]

theorem cleanElems_append (rooted : Bool) (acc xs ys : List (List Char)) :
    cleanElems rooted acc (xs ++ ys) = cleanElems rooted (cleanElems rooted acc xs) ys := by
  induction xs generalizing acc with
  | nil => rfl
  | cons e es ih =>
    rw [List.cons_append, cleanElems_cons, ih, ← cleanElems_cons]

theorem cleanElems_name (rooted : Bool) (acc : List (List Char)) (c : List Char)
    (h : IsName c) : cleanElems rooted acc [c] = c :: acc := by
  obtain ⟨h1, h2, h3, _⟩ := h
  simp [cleanElems, h1, h2, h3]

theorem joinSep_snoc (xs : List (List Char)) (c : List Char) :
    joinSep (xs ++ [c]) = if xs = [] then c else joinSep xs ++ '/' :: c := by
  induction xs with
  | nil => rfl
  | cons x xs ih =>
    cases xs with
    | nil => simp [joinSep]
    | cons y ys =>
      simp only [List.cons_append, joinSep] at ih ⊢
      simp [ih]

theorem lastElem_splitSep_joinSep_snoc (xs : List (List Char)) (c : List Char) (h : '/' ∉ c) :
    lastElem (splitSep (joinSep (xs ++ [c]))) = c ∧
    lastElem (splitSep ('/' :: joinSep (xs ++ [c]))) = c := by
  rw [joinSep_snoc]
  split
  · constructor
    · rw [splitSep_of_not_mem c h]; rfl
    · have := splitSep_append [] c
      simp only [List.nil_append] at this
      rw [this, splitSep_of_not_mem c h]; rfl
  · constructor
    · rw [splitSep_append, splitSep_of_not_mem c h, lastElem_append _ _ (by simp)]; rfl
    · have := splitSep_append ('/' :: joinSep xs) c
      simp only [List.cons_append] at this
      rw [this, splitSep_of_not_mem c h, lastElem_append _ _ (by simp)]; rfl

theorem joinSep_snoc_ne_nil (xs : List (List Char)) (c : List Char) (h : c ≠ []) :
    joinSep (xs ++ [c]) ≠ [] := by
  rw [joinSep_snoc]
  split
  · exact h
  · simp

theorem baseOf_filepathClean (s : List Char) (hs : s ≠ [])
    (hname : IsName (lastElem (splitSep s))) :
    baseOf (filepathClean ⟨s⟩) = lastElem (splitSep s) := by
  obtain ⟨init, hinit⟩ := exists_init_lastElem (splitSep s) (splitSep_ne_nil s)
  have hc := hname
  obtain ⟨hne, _, _, hsep⟩ := hc
  unfold filepathClean baseOf
  simp only [hs, if_false]
  have hclean : ∀ rooted, (cleanElems rooted [] (splitSep s)).reverse =
      (cleanElems rooted [] init).reverse ++ [lastElem (splitSep s)] := by
    intro rooted
    conv_lhs => rw [hinit]
    rw [cleanElems_append, cleanElems_name _ _ _ hname, List.reverse_cons]
  simp only [hclean]
  have hl := lastElem_splitSep_joinSep_snoc
  split_ifs with h1 h2
  · exact (hl _ _ hsep).2
  · exact absurd h2 (joinSep_snoc_ne_nil _ _ hne)
  · exact (hl _ _ hsep).1

/-- The base name of a joined path is the last element of what is joined on,
when that is a plain name. -/
theorem baseOf_filepathJoin (x r : String) (hname : IsName (lastElem (splitSep r.data))) :
    baseOf (filepathJoin [x, r]) = lastElem (splitSep r.data) := by
  have hr : r.data ≠ [] := by
    intro h
    rw [h] at hname
    exact hname.1 rfl
  unfold filepathJoin
  by_cases hx : x.data = []
  · simp only [List.filter, hx, hr, ne_eq, not_true_eq_false, decide_False, not_false_eq_true,
      decide_True, List.map, joinSep]
    exact baseOf_filepathClean r.data hr hname
  · simp only [List.filter, hx, hr, ne_eq, not_false_eq_true, decide_True, List.map, joinSep]
    have hsplit : splitSep (x.data ++ '/' :: r.data) = splitSep x.data ++ splitSep r.data :=
      splitSep_append _ _
    have hlast : lastElem (splitSep (x.data ++ '/' :: r.data)) = lastElem (splitSep r.data) := by
      rw [hsplit, lastElem_append _ _ (splitSep_ne_nil _)]
    rw [← hlast]
    exact baseOf_filepathClean _ (by simp) (by rw [hlast]; exact hname)

/-! ## C1: the file set -/

theorem writtenPaths_append (a b : List FsOp) :
    writtenPaths (a ++ b) = writtenPaths a ++ writtenPaths b := by
  induction a with
  | nil => rfl
  | cons op ops ih => cases op <;> simp [writtenPaths, ih]

theorem writtenPaths_databasePlan (g : Generator) (config : ProjectConfig) :
    writtenPaths (databasePlan g config) = if dbDisabled config then [] else databaseFiles g := by
  unfold databasePlan
  split <;> simp [writtenPaths, databaseFiles, Generator.at]

theorem writtenPaths_generatePlan (g : Generator) (config : ProjectConfig) :
    writtenPaths (generatePlan g config) =
      sourceFiles g ++ (if dbDisabled config then [] else databaseFiles g) ++
      (if config.EnableGRPC then grpcFiles g config else []) ++ deployFiles g := by
  unfold generatePlan
  rw [writtenPaths_append, writtenPaths_append, writtenPaths_append, writtenPaths_append,
    writtenPaths_databasePlan]
  have h1 : writtenPaths (skeletonDirs.map
      (fun dir => FsOp.mkdirAll (filepathJoin [g.projectPath, dir]))) = [] := by
    simp [skeletonDirs, writtenPaths]
  have h2 : writtenPaths (if config.EnableGRPC then grpcPlan g config else []) =
      if config.EnableGRPC then grpcFiles g config else [] := by
    split <;> simp [grpcPlan, grpcFiles, writtenPaths, Generator.at]
  rw [h1, h2]
  simp [writtenPaths, Generator.at, sourceFiles, deployFiles]

theorem mem_optional_layers {α : Type} (a b c d : List α) (p : α) :
    p ∈ a ++ b ++ c ++ d ↔ p ∈ (a ++ d) ++ b ++ c := by
  simp only [List.mem_append]
  tauto

theorem dbDisabled_of_supported {config : ProjectConfig}
    (hdb : config.Database ∈ ["postgresql", "mysql", "mongodb", "in-memory", "без бд"]) :
    dbDisabled config = decide (config.Database = "без бд") := by
  simp only [List.mem_cons, List.mem_singleton, List.not_mem_nil, or_false] at hdb
  unfold dbDisabled
  rcases hdb with h | h | h | h | h <;> rw [h] <;> decide

/-- C1: for the three frameworks, the five database choices and either gRPC
setting, a run in which no system call fails returns no error, and the set of
files it writes is the 14 files of every project, the 4 database files iff the
database is not "без бд", and the 4 gRPC files iff gRPC is enabled. -/
theorem generate_file_set (env : Env) (g : Generator) (config : ProjectConfig) (w : World)
    (henv : env.noFault)
    (hfw : config.Framework ∈ ["gin", "fiber", "echo"])
    (hdb : config.Database ∈ ["postgresql", "mysql", "mongodb", "in-memory", "без бд"]) :
    (Generate env g config w).1 = none ∧
    ∃ ops, (Generate env g config w).2.log = w.log ++ ops ∧
      ∀ p, p ∈ writtenPaths ops ↔ p ∈ expectedFiles g config := by
  have _ := hfw
  have hrun := isPlan_Generate henv g config w
  have hdbf : (if dbDisabled config then [] else databaseFiles g) =
      (if config.Database ≠ "без бд" then databaseFiles g else []) := by
    rw [dbDisabled_of_supported hdb]
    by_cases h1 : config.Database = "без бд" <;> simp [h1]
  have hmem : ∀ p, p ∈ writtenPaths (generatePlan g config) ↔ p ∈ expectedFiles g config := by
    intro p
    rw [writtenPaths_generatePlan, hdbf]
    exact mem_optional_layers _ _ _ _ p
  refine ⟨by rw [hrun], generatePlan g config, ?_, hmem⟩
  rw [hrun]
  exact World.run_log _ _

/-- C1 at work: gin, postgresql and gRPC on the empty file system. -/
theorem generate_file_set_witness :
    (Generate okEnv (New "/srv/orders")
      { Name := "orders", ModuleName := "example.org/orders", Framework := "gin",
        Database := "postgresql", EnableGRPC := true, Path := "/srv/orders" } emptyWorld).1
      = none ∧
    ∃ ops, (Generate okEnv (New "/srv/orders")
      { Name := "orders", ModuleName := "example.org/orders", Framework := "gin",
        Database := "postgresql", EnableGRPC := true, Path := "/srv/orders" } emptyWorld).2.log
        = emptyWorld.log ++ ops ∧
      ∀ p, p ∈ writtenPaths ops ↔ p ∈ expectedFiles (New "/srv/orders")
        { Name := "orders", ModuleName := "example.org/orders", Framework := "gin",
          Database := "postgresql", EnableGRPC := true, Path := "/srv/orders" } :=
  generate_file_set okEnv (New "/srv/orders") _ emptyWorld (fun _ _ => rfl)
    (by decide) (by decide)

/-! ## C2: the RPC port -/

theorem composeAppPorts_eq (config : ProjectConfig) :
    composeAppPorts (dockerComposeContent config) =
      lit "\"8080:8080\"" :: (if config.EnableGRPC then [lit "\"9090:9090\""] else []) := by
  obtain ⟨name, moduleName, framework, database, grpc, path⟩ := config
  cases grpc <;> simp only [dockerComposeContent, Bool.false_eq_true, reduceIte] <;>
    split_ifs <;> decide!

theorem yamlGrpcPort_eq (config : ProjectConfig) :
    yamlGrpcPort (configYAMLContent config) =
      if config.EnableGRPC then some (lit "9090") else none := by
  obtain ⟨name, moduleName, framework, database, grpc, path⟩ := config
  cases grpc <;> simp only [configYAMLContent, Bool.false_eq_true, reduceIte] <;>
    split_ifs <;> decide!

theorem yaml_grpc_block_iff (config : ProjectConfig) :
    lit "grpc:" ∈ linesOf (configYAMLContent config) ↔ config.EnableGRPC = true := by
  obtain ⟨name, moduleName, framework, database, grpc, path⟩ := config
  cases grpc <;> simp only [configYAMLContent, Bool.false_eq_true, reduceIte] <;>
    split_ifs <;> decide!

theorem compose_mentions_rpc_port (config : ProjectConfig) :
    mentions (dockerComposeContent config) "9090" = config.EnableGRPC := by
  obtain ⟨name, moduleName, framework, database, grpc, path⟩ := config
  cases grpc <;> simp only [dockerComposeContent, Bool.false_eq_true, reduceIte] <;>
    split_ifs <;> decide!

theorem yaml_mentions_rpc_port (config : ProjectConfig) :
    mentions (configYAMLContent config) "9090" = config.EnableGRPC := by
  obtain ⟨name, moduleName, framework, database, grpc, path⟩ := config
  cases grpc <;> simp only [configYAMLContent, Bool.false_eq_true, reduceIte] <;>
    split_ifs <;> decide!

/-- C2: docker-compose.yml publishes the mapping "9090:9090" for the
application iff gRPC is enabled, config.yaml has a grpc block with port 9090
iff gRPC is enabled, so that with gRPC the two ports agree, and without gRPC
neither file has the RPC port in it. -/
theorem rpc_port_agreement (config : ProjectConfig) :
    (lit "\"9090:9090\"" ∈ composeAppPorts (dockerComposeContent config) ↔
      config.EnableGRPC = true) ∧
    (lit "grpc:" ∈ linesOf (configYAMLContent config) ↔ config.EnableGRPC = true) ∧
    (yamlGrpcPort (configYAMLContent config) =
      if config.EnableGRPC then some (lit "9090") else none) ∧
    (∀ m ∈ (composeAppPorts (dockerComposeContent config)).drop 1,
      some (containerPort m) = yamlGrpcPort (configYAMLContent config)) ∧
    mentions (dockerComposeContent config) "9090" = config.EnableGRPC ∧
    mentions (configYAMLContent config) "9090" = config.EnableGRPC := by
  refine ⟨?_, yaml_grpc_block_iff config, yamlGrpcPort_eq config, ?_,
    compose_mentions_rpc_port config, yaml_mentions_rpc_port config⟩
  · rw [composeAppPorts_eq]
    cases config.EnableGRPC <;> decide
  · rw [composeAppPorts_eq, yamlGrpcPort_eq]
    cases config.EnableGRPC <;> decide

/-! ## C3, C6: the require block of go.mod -/

/-- C3: whatever the framework string, the database string and the gRPC
setting, no module path occurs twice in the require block of go.mod. -/
theorem goMod_modules_nodup (config : ProjectConfig) : (requiredModules config).Nodup := by
  unfold requiredModules goModDependencies
  split_ifs <;> decide

/-! ## C4: the database service of docker-compose.yml -/

theorem composeImages_eq (config : ProjectConfig) :
    composeImages (dockerComposeContent config) =
      if config.Database = "PostgreSQL" then [lit "postgres:15-alpine"]
      else if config.Database = "MySQL" then [lit "mysql:8.0"]
      else if config.Database = "MongoDB" then [lit "mongo:7"]
      else [] := by
  obtain ⟨name, moduleName, framework, database, grpc, path⟩ := config
  cases grpc <;> simp only [dockerComposeContent, Bool.false_eq_true, reduceIte] <;>
    split_ifs <;> decide!

/-- C4 on the code: with the database written as the `--database` flag lists
it, "postgresql", and gRPC enabled, docker-compose.yml publishes the two ports
but declares no database service, no image and no volume, while the prompt's
spelling "PostgreSQL" gives the postgres service; go.mod and config.yaml treat
both spellings alike. -/
theorem compose_flag_spelling_without_service :
    "postgresql" ∈ databaseFlagValues ∧
    composeAppPorts (dockerComposeContent { scenarioA with Database := "postgresql" }) =
      [lit "\"8080:8080\"", lit "\"9090:9090\""] ∧
    composeImages (dockerComposeContent { scenarioA with Database := "postgresql" }) = [] ∧
    composeVolumes (dockerComposeContent { scenarioA with Database := "postgresql" }) = [] ∧
    mentions (dockerComposeContent { scenarioA with Database := "postgresql" }) "postgres"
      = false ∧
    composeImages (dockerComposeContent { scenarioA with Database := "PostgreSQL" }) =
      [lit "postgres:15-alpine"] ∧
    composeVolumes (dockerComposeContent { scenarioA with Database := "PostgreSQL" }) =
      [lit "postgres_data:"] ∧
    goModDependencies { scenarioA with Database := "postgresql" } =
      goModDependencies { scenarioA with Database := "PostgreSQL" } ∧
    configYAMLContent { scenarioA with Database := "postgresql" } =
      configYAMLContent { scenarioA with Database := "PostgreSQL" } := by
  refine ⟨by decide, by decide!, by decide!, by decide!, by decide!, by decide!, by decide!,
    by decide!, by decide!⟩

/-! ## C5: switching the database off -/

theorem generateDatabaseLayer_skipped (env : Env) (g : Generator) (config : ProjectConfig)
    (w : World) (h : stringsToLower config.Database = stringsToLower "Без БД") :
    generateDatabaseLayer env g config w = (none, w) := by
  unfold generateDatabaseLayer
  rw [h]
  rfl

/-- C5 on the code: with the database "none", the value the `--database` flag
lists for no database, the database phase writes the four database files (and
the implementation it writes is the PostgreSQL one). -/
theorem databaseLayer_none_writes :
    "none" ∈ databaseFlagValues ∧
    dbDisabled { scenarioA with Database := "none" } = false ∧
    (generateDatabaseLayer okEnv (New "/srv/orders") { scenarioA with Database := "none" }
      emptyWorld).1 = none ∧
    writtenPaths (generateDatabaseLayer okEnv (New "/srv/orders")
      { scenarioA with Database := "none" } emptyWorld).2.log =
      ["/srv/orders/pkg/database/interface.go", "/srv/orders/pkg/database/database.go",
       "/srv/orders/internal/repository/user.go", "/srv/orders/internal/models/models.go"] ∧
    databaseImplementationContent { scenarioA with Database := "none" } =
      generatePostgreSQLImplementation scenarioA := by
  refine ⟨by decide, by decide, ?_, ?_, by decide!⟩
  · rw [isPlan_generateDatabaseLayer (fun _ _ => rfl)]
  · rw [isPlan_generateDatabaseLayer (fun _ _ => rfl), World.run_log, writtenPaths_append,
      writtenPaths_databasePlan]
    decide

theorem foldl_append_line (deps : List String) (content : Template) :
    deps.foldl (fun content dep => content ++ [Seg.text ("\t" ++ dep ++ "\n")]) content =
      content ++ deps.map (fun dep => Seg.text ("\t" ++ dep ++ "\n")) := by
  induction deps generalizing content with
  | nil => simp
  | cons d ds ih => simp [ih]

theorem goModDependencies_eq_spec (config : ProjectConfig) :
    goModDependencies config = requireBlockSpec config := by
  unfold goModDependencies requireBlockSpec frameworkEntries databaseEntries baselineEntries
    grpcEntries commonEntries
  split_ifs <;> rfl

theorem goModContent_eq (config : ProjectConfig) :
    goModContent config =
      [T ["module "], .moduleName, T ["", "", "go 1.21", "", "require (", ""]] ++
      (requireBlockSpec config).map (fun dep => Seg.text ("\t" ++ dep ++ "\n")) ++
      [Seg.text ")\n"] := by
  unfold goModContent
  simp only [foldl_append_line, goModDependencies_eq_spec]

/-- C6: the require block of go.mod is the baseline entries, then the entries
of the lower-cased framework (gin 3, fiber 2, echo 2), then those of the
lower-cased database (postgresql 3, mysql 3, mongodb 1, in-memory 2, otherwise
none), then the two gRPC entries iff gRPC is enabled, then the two common
entries, one line each between `require (` and `)`; for scenario A that is 12
entries with the relational driver and the RPC modules once each. -/
theorem goMod_require_block (config : ProjectConfig) :
    goModDependencies config = requireBlockSpec config ∧
    goModContent config =
      [T ["module "], .moduleName, T ["", "", "go 1.21", "", "require (", ""]] ++
      (requireBlockSpec config).map (fun dep => Seg.text ("\t" ++ dep ++ "\n")) ++
      [Seg.text ")\n"] ∧
    ((frameworkEntries "gin").length = 3 ∧ (frameworkEntries "fiber").length = 2 ∧
      (frameworkEntries "echo").length = 2) ∧
    ((databaseEntries "postgresql").length = 3 ∧ (databaseEntries "mysql").length = 3 ∧
      (databaseEntries "mongodb").length = 1 ∧ (databaseEntries "in-memory").length = 2 ∧
      (databaseEntries (stringsToLower "Без БД")).length = 0) ∧
    (goModDependencies scenarioA).length = 12 ∧
    (requiredModules scenarioA).count "github.com/lib/pq" = 1 ∧
    (requiredModules scenarioA).count "gorm.io/driver/postgres" = 1 ∧
    (requiredModules scenarioA).count "google.golang.org/grpc" = 1 ∧
    (requiredModules scenarioA).count "google.golang.org/protobuf" = 1 := by
  exact ⟨goModDependencies_eq_spec config, goModContent_eq config, by decide, by decide,
    by decide, by decide, by decide, by decide, by decide⟩

/-! ## C7: the ports of the Makefile and of docker-compose.yml -/

theorem makefileRunPorts_eq (config : ProjectConfig) :
    makefileRunPorts (makefileContent config) =
      lit "8080:8080" :: (if config.EnableGRPC then [lit "9090:9090"] else []) := by
  obtain ⟨name, moduleName, framework, database, grpc, path⟩ := config
  cases grpc <;> simp only [makefileContent, Bool.false_eq_true, reduceIte] <;> decide!

theorem render_congr_name (c1 c2 : ProjectConfig) (t : Template) (hname : c1.Name = c2.Name)
    (ht : Seg.moduleName ∉ t) : render c1 t = render c2 t := by
  induction t with
  | nil => rfl
  | cons s t ih =>
    have hs : s ≠ Seg.moduleName := fun h => ht (by simp [h])
    have ht2 : Seg.moduleName ∉ t := fun h => ht (by simp [h])
    cases s with
    | text x => simp [render, Seg.render, ih ht2]
    | name => simp [render, Seg.render, ih ht2, hname]
    | moduleName => exact absurd rfl hs

theorem makefile_no_moduleName (config : ProjectConfig) :
    Seg.moduleName ∉ makefileContent config := by
  obtain ⟨name, moduleName, framework, database, grpc, path⟩ := config
  cases grpc <;> simp only [makefileContent, Bool.false_eq_true, reduceIte] <;> decide

theorem makefileContent_congr (c1 c2 : ProjectConfig) (hgrpc : c1.EnableGRPC = c2.EnableGRPC) :
    makefileContent c1 = makefileContent c2 := by
  unfold makefileContent
  rw [hgrpc]

/-- C7: the `docker run` command of the Makefile forwards the ports that the
application service of docker-compose.yml publishes, 8080:8080 always and
9090:9090 iff gRPC is enabled and no other; and for a fixed name the Makefile
changes with the configuration only in that forwarding block: it is the same
for all frameworks, databases and module paths. -/
theorem makefile_ports_mirror_compose (config : ProjectConfig) :
    makefileRunPorts (makefileContent config) =
      lit "8080:8080" :: (if config.EnableGRPC then [lit "9090:9090"] else []) ∧
    composeAppPorts (dockerComposeContent config) =
      (makefileRunPorts (makefileContent config)).map quoted ∧
    (∀ other : ProjectConfig, other.Name = config.Name →
      other.EnableGRPC = config.EnableGRPC →
      render other (makefileContent other) = render config (makefileContent config)) ∧
    makefileContent config =
      (makefileContent { config with EnableGRPC := false }).take 7 ++
      (if config.EnableGRPC then [T [" -p 9090:9090"]] else []) ++
      (makefileContent { config with EnableGRPC := false }).drop 7 := by
  refine ⟨makefileRunPorts_eq config, ?_, ?_, ?_⟩
  · rw [makefileRunPorts_eq, composeAppPorts_eq]
    cases config.EnableGRPC <;> decide
  · intro other hname hgrpc
    rw [makefileContent_congr other config hgrpc]
    exact render_congr_name other config _ hname (makefile_no_moduleName config)
  · obtain ⟨name, moduleName, framework, database, grpc, path⟩ := config
    cases grpc <;> simp only [makefileContent, Bool.false_eq_true, reduceIte] <;> rfl

/-- C7 at work: two configurations with the name "orders" and gRPC enabled. -/
theorem makefile_ports_mirror_compose_witness :
    render { scenarioA with Framework := "echo", Database := "MongoDB", ModuleName := "m" }
        (makefileContent
          { scenarioA with Framework := "echo", Database := "MongoDB", ModuleName := "m" }) =
      render scenarioA (makefileContent scenarioA) :=
  (makefile_ports_mirror_compose scenarioA).2.2.1
    { scenarioA with Framework := "echo", Database := "MongoDB", ModuleName := "m" } rfl rfl

/-! ## C8: the module path in go.mod and in the imports -/

theorem imports_mainGo (config : ProjectConfig) :
    importsOk (mainGoContent config) = true ∧ hasModuleImport (mainGoContent config) = true := by
  unfold mainGoContent
  constructor <;> decide!

theorem imports_appGo (config : ProjectConfig) :
    importsOk (appGoContent config) = true ∧ hasModuleImport (appGoContent config) = true := by
  obtain ⟨name, moduleName, framework, database, grpc, path⟩ := config
  simp only [appGoContent, generateFiberApp, generateStandardApp]
  constructor <;> split_ifs <;> decide!

theorem imports_baseHandler (config : ProjectConfig) :
    importsOk (baseHandlerContent config) = true ∧
    hasModuleImport (baseHandlerContent config) = true := by
  obtain ⟨name, moduleName, framework, database, grpc, path⟩ := config
  simp only [baseHandlerContent, generateGinHandler, generateFiberHandler, generateEchoHandler]
  constructor <;> split_ifs <;> decide!

theorem imports_middleware (config : ProjectConfig) :
    importsOk (middlewareContent config) = true ∧
    hasModuleImport (middlewareContent config) = true := by
  unfold middlewareContent
  constructor <;> decide!

theorem imports_context (config : ProjectConfig) :
    importsOk (contextContent config) = true ∧ hasModuleImport (contextContent config) = true := by
  unfold contextContent
  constructor <;> decide!

theorem imports_databaseInterface (config : ProjectConfig) :
    importsOk (databaseInterfaceContent config) = true ∧
    hasModuleImport (databaseInterfaceContent config) = true := by
  unfold databaseInterfaceContent
  constructor <;> decide!

theorem imports_databaseImplementation (config : ProjectConfig) :
    importsOk (databaseImplementationContent config) = true ∧
    hasModuleImport (databaseImplementationContent config) = true := by
  obtain ⟨name, moduleName, framework, database, grpc, path⟩ := config
  simp only [databaseImplementationContent, generatePostgreSQLImplementation,
    generateMySQLImplementation, generateMongoDBImplementation, generateSQLiteImplementation]
  constructor <;> split_ifs <;> decide!

theorem imports_repositories (config : ProjectConfig) :
    importsOk (repositoriesContent config) = true ∧
    hasModuleImport (repositoriesContent config) = true := by
  unfold repositoriesContent
  constructor <;> decide!

theorem imports_grpcServer (config : ProjectConfig) :
    importsOk (grpcServerContent config) = true ∧
    hasModuleImport (grpcServerContent config) = true := by
  unfold grpcServerContent
  constructor <;> decide!

theorem imports_grpcClient (config : ProjectConfig) :
    importsOk (grpcClientContent config) = true ∧
    hasModuleImport (grpcClientContent config) = true := by
  unfold grpcClientContent
  constructor <;> decide!

theorem imports_configGo (config : ProjectConfig) :
    importsOk (configGoContent config) = true := by
  obtain ⟨name, moduleName, framework, database, grpc, path⟩ := config
  cases grpc <;> simp only [configGoContent, Bool.false_eq_true, reduceIte] <;> decide!

theorem imports_logger (config : ProjectConfig) : importsOk (loggerContent config) = true := by
  unfold loggerContent
  decide!

theorem imports_healthHandler (config : ProjectConfig) :
    importsOk (healthHandlerContent config) = true := by
  obtain ⟨name, moduleName, framework, database, grpc, path⟩ := config
  simp only [healthHandlerContent, generateGinHealthHandler, generateFiberHealthHandler,
    generateEchoHealthHandler]
  split_ifs <;> decide!

theorem imports_models (config : ProjectConfig) : importsOk (modelsContent config) = true := by
  unfold modelsContent
  decide!

theorem renderToks_lit (config : ProjectConfig) (cs : List Char) :
    renderToks config (cs.map Tok.ch) = cs := by
  induction cs with
  | nil => rfl
  | cons c cs ih => simp [renderToks, ih]

theorem renderToks_append (config : ProjectConfig) (a b : List Tok) :
    renderToks config (a ++ b) = renderToks config a ++ renderToks config b := by
  induction a with
  | nil => rfl
  | cons t ts ih => cases t <;> simp [renderToks, ih]

theorem render_eq_renderToks (config : ProjectConfig) (t : Template) :
    (render config t).data = renderToks config (toks t) := by
  induction t with
  | nil => rfl
  | cons s t ih =>
    cases s with
    | text x => simp [render, Seg.render, toks, Seg.toks, renderToks_append, renderToks_lit, ih]
    | name => simp [render, Seg.render, toks, Seg.toks, renderToks, ih]
    | moduleName => simp [render, Seg.render, toks, Seg.toks, renderToks, ih]

theorem splitLines_head (pre rest : List Tok) (h : ∀ t ∈ pre, t ≠ Tok.ch '\n') :
    (splitLines (pre ++ Tok.ch '\n' :: rest)).head? = some pre := by
  induction pre with
  | nil => simp [splitLines]
  | cons t ts ih =>
    have ht : t ≠ Tok.ch '\n' := h t (by simp)
    have hts := ih (fun x hx => h x (by simp [hx]))
    simp only [List.cons_append, splitLines, ht, if_false]
    cases hs : splitLines (ts ++ Tok.ch '\n' :: rest) with
    | nil => simp [hs] at hts
    | cons l ls =>
      rw [hs] at hts
      simp only [List.head?_cons, Option.some.injEq] at hts
      simp [hts]

/-- C8: go.mod begins with `module <ModuleName>`; in every generated Go file
every import is either the interpolated module path followed by a slash and
the path of a project package, or an import spelled out by the generator that
is not a project package, so no project package is imported under a fixed
module prefix; each of the ten files that import project packages has such an
import, and it is written out as the configured `ModuleName`, a slash and the
package path. -/
theorem imports_use_module_path (config : ProjectConfig) :
    (linesOf (goModContent config)).head? = some (lit "module " ++ [Tok.moduleName]) ∧
    (∀ f ∈ importingGoFiles config ++ otherGoFiles config, importsOk f.2 = true) ∧
    (∀ f ∈ importingGoFiles config, hasModuleImport f.2 = true) ∧
    (∀ t : Template, (render config t).data = renderToks config (toks t)) ∧
    (∀ pkg : String, renderToks config (Tok.moduleName :: lit ("/" ++ pkg)) =
      (config.ModuleName ++ "/" ++ pkg).data) := by
  refine ⟨?_, ?_, ?_, render_eq_renderToks config, ?_⟩
  · rw [goModContent_eq]
    exact splitLines_head (lit "module " ++ [Tok.moduleName]) _ (by decide)
  · intro f hf
    simp only [importingGoFiles, otherGoFiles, List.mem_append, List.mem_cons,
      List.mem_singleton, List.not_mem_nil, or_false] at hf
    rcases hf with (rfl | rfl | rfl | rfl | rfl | rfl | rfl | rfl | rfl | rfl) |
      (rfl | rfl | rfl | rfl)
    · exact (imports_mainGo config).1
    · exact (imports_appGo config).1
    · exact (imports_baseHandler config).1
    · exact (imports_middleware config).1
    · exact (imports_context config).1
    · exact (imports_databaseInterface config).1
    · exact (imports_databaseImplementation config).1
    · exact (imports_repositories config).1
    · exact (imports_grpcServer config).1
    · exact (imports_grpcClient config).1
    · exact imports_configGo config
    · exact imports_logger config
    · exact imports_healthHandler config
    · exact imports_models config
  · intro f hf
    simp only [importingGoFiles, List.mem_cons, List.mem_singleton, List.not_mem_nil,
      or_false] at hf
    rcases hf with rfl | rfl | rfl | rfl | rfl | rfl | rfl | rfl | rfl | rfl
    · exact (imports_mainGo config).2
    · exact (imports_appGo config).2
    · exact (imports_baseHandler config).2
    · exact (imports_middleware config).2
    · exact (imports_context config).2
    · exact (imports_databaseInterface config).2
    · exact (imports_databaseImplementation config).2
    · exact (imports_repositories config).2
    · exact (imports_grpcServer config).2
    · exact (imports_grpcClient config).2
  · intro pkg
    simp [renderToks, lit, renderToks_lit]

/-! ## No path is written twice -/

theorem splitSep_no_sep (cs : List Char) : ∀ e ∈ splitSep cs, '/' ∉ e := by
  induction cs with
  | nil => simp [splitSep]
  | cons c cs ih =>
    intro e he
    by_cases hc : c = '/'
    · simp only [splitSep, hc, if_true, List.mem_cons] at he
      rcases he with rfl | he
      · simp
      · exact ih e he
    · cases hs : splitSep cs with
      | nil => exact absurd hs (splitSep_ne_nil cs)
      | cons x xs =>
        rw [splitSep, if_neg hc, hs] at he
        simp only [List.mem_cons] at he
        rcases he with rfl | he
        · have hx := ih x (by rw [hs]; simp)
          intro hmem
          simp only [List.mem_cons] at hmem
          rcases hmem with h | h
          · exact hc h.symm
          · exact hx h
        · exact ih e (by rw [hs]; simp [he])

theorem lastElem_mem (xs : List (List Char)) (h : xs ≠ []) : lastElem xs ∈ xs := by
  obtain ⟨init, hinit⟩ := exists_init_lastElem xs h
  have hmem : lastElem xs ∈ init ++ [lastElem xs] := by simp
  rwa [← hinit] at hmem

theorem splitSep_append_tail (n s : List Char) (hs : '/' ∉ s) :
    ∃ init l, splitSep n = init ++ [l] ∧ splitSep (n ++ s) = init ++ [l ++ s] := by
  induction n with
  | nil => exact ⟨[], [], rfl, by simpa using splitSep_of_not_mem s hs⟩
  | cons c n ih =>
    obtain ⟨init, l, h1, h2⟩ := ih
    by_cases hc : c = '/'
    · exact ⟨[] :: init, l, by simp [splitSep, hc, h1], by simp [splitSep, hc, h2]⟩
    · cases init with
      | nil =>
        refine ⟨[], c :: l, ?_, ?_⟩
        · rw [splitSep, if_neg hc, h1]; rfl
        · rw [List.cons_append, splitSep, if_neg hc, h2]; rfl
      | cons i is =>
        refine ⟨(c :: i) :: is, l, ?_, ?_⟩
        · rw [splitSep, if_neg hc, h1]; rfl
        · rw [List.cons_append, splitSep, if_neg hc, h2]; rfl

theorem lastElem_splitSep_append (n s : List Char) (hs : '/' ∉ s) :
    lastElem (splitSep (n ++ s)) = lastElem (splitSep n) ++ s := by
  obtain ⟨init, l, h1, h2⟩ := splitSep_append_tail n s hs
  rw [h1, h2, lastElem_append _ _ (by simp), lastElem_append _ _ (by simp)]
  rfl

theorem isName_protoFile (name : String) :
    IsName (lastElem (splitSep (name ++ ".proto").data)) ∧
    lastElem (splitSep (name ++ ".proto").data) =
      lastElem (splitSep name.data) ++ ".proto".data := by
  have hs : '/' ∉ ".proto".data := by decide
  have heq : lastElem (splitSep (name ++ ".proto").data) =
      lastElem (splitSep name.data) ++ ".proto".data := by
    rw [String.data_append]
    exact lastElem_splitSep_append _ _ hs
  refine ⟨?_, heq⟩
  rw [heq]
  have hl : '/' ∉ lastElem (splitSep name.data) :=
    splitSep_no_sep _ _ (lastElem_mem _ (splitSep_ne_nil _))
  have hlen : 6 ≤ (lastElem (splitSep name.data) ++ ".proto".data).length := by
    rw [List.length_append]
    have : ".proto".data.length = 6 := by decide
    omega
  refine ⟨?_, ?_, ?_, ?_⟩
  · intro h; rw [h] at hlen; simp at hlen
  · intro h; rw [h] at hlen; simp at hlen
  · intro h; rw [h] at hlen; simp at hlen
  · intro h
    rw [List.mem_append] at h
    rcases h with h | h
    · exact hl h
    · exact hs h

theorem baseOf_at (g : Generator) (rel : String) (h : IsName (lastElem (splitSep rel.data))) :
    baseOf (g.at rel) = lastElem (splitSep rel.data) :=
  baseOf_filepathJoin _ _ h

theorem map_baseOf_sourceFiles (g : Generator) :
    (sourceFiles g).map baseOf =
      ["go.mod".data, "config.yaml".data, "config.go".data, "main.go".data, "app.go".data,
       "context.go".data, "logger.go".data, "handler.go".data, "health.go".data,
       "middleware.go".data] := by
  simp only [sourceFiles, List.map]
  rw [baseOf_at g "go.mod" (by unfold IsName; decide),
    baseOf_at g "config.yaml" (by unfold IsName; decide),
    baseOf_at g "internal/config/config.go" (by unfold IsName; decide),
    baseOf_at g "cmd/main.go" (by unfold IsName; decide),
    baseOf_filepathJoin (g.at "internal/app") "app.go" (by unfold IsName; decide),
    baseOf_at g "pkg/context/context.go" (by unfold IsName; decide),
    baseOf_at g "pkg/logger/logger.go" (by unfold IsName; decide),
    baseOf_at g "internal/handlers/handler.go" (by unfold IsName; decide),
    baseOf_at g "internal/handlers/health.go" (by unfold IsName; decide),
    baseOf_at g "internal/middleware/middleware.go" (by unfold IsName; decide)]
  decide

theorem map_baseOf_databaseFiles (g : Generator) :
    (databaseFiles g).map baseOf =
      ["interface.go".data, "database.go".data, "user.go".data, "models.go".data] := by
  simp only [databaseFiles, List.map]
  rw [baseOf_at g "pkg/database/interface.go" (by unfold IsName; decide),
    baseOf_at g "pkg/database/database.go" (by unfold IsName; decide),
    baseOf_at g "internal/repository/user.go" (by unfold IsName; decide),
    baseOf_at g "internal/models/models.go" (by unfold IsName; decide)]
  decide

theorem map_baseOf_grpcFiles (g : Generator) (config : ProjectConfig) :
    (grpcFiles g config).map baseOf =
      [lastElem (splitSep config.Name.data) ++ ".proto".data, "server.go".data,
       "client.go".data, "proto.mk".data] := by
  simp only [grpcFiles, List.map]
  rw [baseOf_filepathJoin (g.at "api/proto") (config.Name ++ ".proto")
      (isName_protoFile config.Name).1, (isName_protoFile config.Name).2,
    baseOf_filepathJoin (g.at "internal/grpc") "server.go" (by unfold IsName; decide),
    baseOf_at g "internal/grpc/client.go" (by unfold IsName; decide),
    baseOf_at g "scripts/proto.mk" (by unfold IsName; decide)]
  rfl

theorem map_baseOf_deployFiles (g : Generator) :
    (deployFiles g).map baseOf =
      ["Dockerfile".data, "docker-compose.yml".data, ".dockerignore".data, "Makefile".data] := by
  simp only [deployFiles, List.map]
  rw [baseOf_at g "Dockerfile" (by unfold IsName; decide),
    baseOf_at g "docker-compose.yml" (by unfold IsName; decide),
    baseOf_at g ".dockerignore" (by unfold IsName; decide),
    baseOf_at g "Makefile" (by unfold IsName; decide)]
  decide

theorem map_baseOf_writtenPaths (g : Generator) (config : ProjectConfig) :
    (writtenPaths (generatePlan g config)).map baseOf = planBaseNames config := by
  rw [writtenPaths_generatePlan]
  simp only [List.map_append, map_baseOf_sourceFiles, map_baseOf_deployFiles, planBaseNames]
  congr 1
  congr 1
  · congr 1
    split
    · rfl
    · exact map_baseOf_databaseFiles g
  · split
    · exact map_baseOf_grpcFiles g config
    · rfl

/-! ## C9: running twice -/

theorem run_files (w : World) (ops : List FsOp) (q : String) :
    (w.run ops).fs.files q = (lastWrite ops q).or (w.fs.files q) := by
  induction ops generalizing w with
  | nil => simp [World.run, lastWrite]
  | cons op ops ih =>
    rw [World.run, ih]
    cases op with
    | mkdirAll p => simp [lastWrite, FS.apply]
    | writeFile p d =>
      by_cases hq : q = p
      · subst hq
        cases hl : lastWrite ops q <;> simp [lastWrite, FS.apply, hl]
      · cases hl : lastWrite ops q <;> simp [lastWrite, FS.apply, hq, hl]

theorem run_dirs (w : World) (ops : List FsOp) (q : String) :
    (w.run ops).fs.dirs q = (w.fs.dirs q || makesDir ops q) := by
  induction ops generalizing w with
  | nil => simp [World.run, makesDir]
  | cons op ops ih =>
    rw [World.run, ih]
    cases op with
    | mkdirAll p => simp [makesDir, FS.apply, Bool.or_assoc]
    | writeFile p d => simp [makesDir, FS.apply]

theorem FS.ext_fun {a b : FS} (hd : ∀ q, a.dirs q = b.dirs q) (hf : ∀ q, a.files q = b.files q) :
    a = b := by
  cases a
  cases b
  simp only [FS.mk.injEq]
  exact ⟨funext hd, funext hf⟩

theorem run_twice_fs (w : World) (ops : List FsOp) : ((w.run ops).run ops).fs = (w.run ops).fs := by
  apply FS.ext_fun
  · intro q
    rw [run_dirs (w.run ops), run_dirs w]
    cases w.fs.dirs q <;> cases makesDir ops q <;> rfl
  · intro q
    rw [run_files (w.run ops), run_files w]
    cases lastWrite ops q <;> simp

theorem lastWrite_mem (ops : List FsOp) (q d : String) (h : lastWrite ops q = some d) :
    FsOp.writeFile q d ∈ ops := by
  induction ops with
  | nil => simp [lastWrite] at h
  | cons op ops ih =>
    cases op with
    | mkdirAll p => exact List.mem_cons_of_mem _ (ih (by simpa [lastWrite] using h))
    | writeFile p d2 =>
      cases hl : lastWrite ops q with
      | some d3 =>
        have : d3 = d := by simpa [lastWrite, hl] using h
        exact List.mem_cons_of_mem _ (ih (by rw [hl, this]))
      | none =>
        by_cases hq : q = p
        · subst hq
          have : d2 = d := by simpa [lastWrite, hl] using h
          simp [this]
        · simp [lastWrite, hl, hq] at h

theorem lastWrite_isSome (ops : List FsOp) (q : String) (h : q ∈ writtenPaths ops) :
    ∃ d, lastWrite ops q = some d := by
  induction ops with
  | nil => simp [writtenPaths] at h
  | cons op ops ih =>
    cases op with
    | mkdirAll p => simpa [lastWrite] using ih (by simpa [writtenPaths] using h)
    | writeFile p d2 =>
      cases hl : lastWrite ops q with
      | some d3 => exact ⟨d3, by simp [lastWrite, hl]⟩
      | none =>
        by_cases hq : q = p
        · subst hq
          exact ⟨d2, by simp [lastWrite, hl]⟩
        · simp only [writtenPaths, List.mem_cons, hq, false_or] at h
          obtain ⟨d, hd⟩ := ih h
          rw [hl] at hd
          cases hd

theorem lastWrite_of_written (ops : List FsOp) (q : String) (h : q ∈ writtenPaths ops) :
    ∃ d, FsOp.writeFile q d ∈ ops ∧ lastWrite ops q = some d := by
  obtain ⟨d, hd⟩ := lastWrite_isSome ops q h
  exact ⟨d, lastWrite_mem ops q d hd, hd⟩

/-- C9: when no system call fails, a second run with the same configuration
and project path succeeds like the first and leaves the file system exactly as
the first run left it; and after a run every path the run writes holds
content written by the run, the same whatever the file system held before. -/
theorem generate_idempotent (env : Env) (g : Generator) (config : ProjectConfig) (w : World)
    (henv : env.noFault) :
    (Generate env g config w).1 = none ∧
    (Generate env g config (Generate env g config w).2).1 = none ∧
    (Generate env g config (Generate env g config w).2).2.fs = (Generate env g config w).2.fs ∧
    ∀ p ∈ writtenPaths (generatePlan g config),
      (∃ data, FsOp.writeFile p data ∈ generatePlan g config ∧
        (Generate env g config w).2.fs.files p = some data) ∧
      ∀ w0 : World, (Generate env g config w0).2.fs.files p =
        (Generate env g config w).2.fs.files p := by
  have hrun := isPlan_Generate henv g config
  refine ⟨by rw [hrun w], by rw [hrun], ?_, ?_⟩
  · rw [hrun w, hrun (w.run _)]
    exact run_twice_fs w _
  · intro p hp
    obtain ⟨d, hd, hl⟩ := lastWrite_of_written _ p hp
    refine ⟨⟨d, hd, ?_⟩, fun w0 => ?_⟩
    · rw [hrun w, run_files, hl]
      rfl
    · rw [hrun w, hrun w0, run_files, run_files, hl]
      rfl

/-- C9 at work: two runs of scenario A on the empty file system. -/
theorem generate_idempotent_witness :
    (Generate okEnv (New "/srv/orders") scenarioA
      (Generate okEnv (New "/srv/orders") scenarioA emptyWorld).2).2.fs =
    (Generate okEnv (New "/srv/orders") scenarioA emptyWorld).2.fs :=
  (generate_idempotent okEnv (New "/srv/orders") scenarioA emptyWorld (fun _ _ => rfl)).2.2.1

/-! ## C10: failing -/

theorem frames_retNil : Frames retNil := by
  intro w
  exact ⟨[], by simp [retNil], fun _ _ => rfl, fun _ h => h, fun _ h => h⟩

theorem frames_syscall (env : Env) (op : FsOp) : Frames (syscall env op) := by
  intro w
  refine ⟨[op], ?_, ?_, ?_, ?_⟩
  · unfold syscall
    cases env.fault w.fs op <;> rfl
  · intro p hp
    unfold syscall
    cases env.fault w.fs op with
    | some e => rfl
    | none =>
      cases op with
      | mkdirAll q => rfl
      | writeFile q d =>
        have : p ≠ q := by simpa [writtenPaths] using hp
        simp [FS.apply, this]
  · intro p hp
    unfold syscall
    cases env.fault w.fs op with
    | some e => exact hp
    | none =>
      cases op with
      | mkdirAll q => exact hp
      | writeFile q d =>
        by_cases h : p = q <;> simp [FS.apply, h]
        exact hp
  · intro p hp
    unfold syscall
    cases env.fault w.fs op with
    | some e => exact hp
    | none =>
      cases op with
      | mkdirAll q => simp [FS.apply, hp]
      | writeFile q d => exact hp

theorem frames_check {a rest : Act} (f : GoError → GoError) (ha : Frames a) (hr : Frames rest) :
    Frames (check a f rest) := by
  intro w
  obtain ⟨opsA, hlogA, hfA, hkA, hdA⟩ := ha w
  unfold check
  cases hres : a w with
  | mk r w1 =>
    rw [hres] at hlogA hfA hkA hdA
    cases r with
    | some err => exact ⟨opsA, hlogA, hfA, hkA, hdA⟩
    | none =>
      obtain ⟨opsB, hlogB, hfB, hkB, hdB⟩ := hr w1
      refine ⟨opsA ++ opsB, ?_, ?_, ?_, ?_⟩
      · simp only at hlogA ⊢
        rw [hlogB, hlogA, List.append_assoc]
      · intro p hp
        rw [writtenPaths_append, List.mem_append, not_or] at hp
        simp only at hfA ⊢
        rw [hfB p hp.2, hfA p hp.1]
      · intro p hp
        exact hkB p (hkA p hp)
      · intro p hp
        exact hdB p (hdA p hp)

theorem frames_write (env : Env) (path data : String) : Frames (osWriteFile env path data) :=
  frames_syscall env _

theorem frames_mkdir (env : Env) (path : String) : Frames (osMkdirAll env path) :=
  frames_syscall env _

theorem frames_createDirs (env : Env) (g : Generator) (dirs : List String) :
    Frames (createDirs env g dirs) := by
  induction dirs with
  | nil => exact frames_retNil
  | cons d ds ih => exact frames_check _ (frames_mkdir env _) ih

theorem frames_generateConfig (env : Env) (g : Generator) (config : ProjectConfig) :
    Frames (generateConfig env g config) :=
  frames_check _ (frames_write env _ _) <| frames_check _ (frames_write env _ _) frames_retNil

theorem frames_generateMainFiles (env : Env) (g : Generator) (config : ProjectConfig) :
    Frames (generateMainFiles env g config) :=
  frames_check _ (frames_write env _ _) <|
    frames_check _ (frames_check _ (frames_mkdir env _) (frames_write env _ _)) <|
    frames_check _ (frames_write env _ _) <| frames_check _ (frames_write env _ _) frames_retNil

theorem frames_generateHandlers (env : Env) (g : Generator) (config : ProjectConfig) :
    Frames (generateHandlers env g config) :=
  frames_check _ (frames_write env _ _) <| frames_check _ (frames_write env _ _) <|
    frames_check _ (frames_write env _ _) frames_retNil

theorem frames_generateDatabaseLayer (env : Env) (g : Generator) (config : ProjectConfig) :
    Frames (generateDatabaseLayer env g config) := by
  unfold generateDatabaseLayer
  split
  · exact frames_retNil
  · exact frames_check _ (frames_write env _ _) <| frames_check _ (frames_write env _ _) <|
      frames_check _ (frames_write env _ _) <| frames_check _ (frames_write env _ _) frames_retNil

theorem frames_generateGRPC (env : Env) (g : Generator) (config : ProjectConfig) :
    Frames (generateGRPC env g config) :=
  frames_check _ (frames_check _ (frames_mkdir env _) (frames_write env _ _)) <|
    frames_check _ (frames_check _ (frames_mkdir env _) (frames_write env _ _)) <|
    frames_check _ (frames_write env _ _) <|
    frames_check _ (frames_check _ (frames_mkdir env _) (frames_write env _ _)) frames_retNil

theorem frames_generateDockerFiles (env : Env) (g : Generator) (config : ProjectConfig) :
    Frames (generateDockerFiles env g config) :=
  frames_check _ (frames_write env _ _) <| frames_check _ (frames_write env _ _) <|
    frames_check _ (frames_write env _ _) frames_retNil

theorem frames_phases (env : Env) (g : Generator) (config : ProjectConfig) :
    ∀ ph ∈ phases env g config, Frames ph.2 := by
  intro ph hph
  unfold phases at hph
  cases hg : config.EnableGRPC
  · simp only [hg, Bool.false_eq_true, reduceIte, List.append_nil, List.cons_append,
      List.nil_append, List.mem_cons, List.mem_singleton, List.not_mem_nil, or_false] at hph
    obtain rfl | rfl | rfl | rfl | rfl | rfl | rfl | rfl := hph
    · exact frames_createDirs env g _
    · exact frames_write env _ _
    · exact frames_generateConfig env g config
    · exact frames_generateMainFiles env g config
    · exact frames_generateHandlers env g config
    · exact frames_generateDatabaseLayer env g config
    · exact frames_generateDockerFiles env g config
    · exact frames_write env _ _
  · simp only [hg, reduceIte, List.cons_append, List.nil_append, List.mem_cons,
      List.mem_singleton, List.not_mem_nil, or_false] at hph
    obtain rfl | rfl | rfl | rfl | rfl | rfl | rfl | rfl | rfl := hph
    · exact frames_createDirs env g _
    · exact frames_write env _ _
    · exact frames_generateConfig env g config
    · exact frames_generateMainFiles env g config
    · exact frames_generateHandlers env g config
    · exact frames_generateDatabaseLayer env g config
    · exact frames_generateGRPC env g config
    · exact frames_generateDockerFiles env g config
    · exact frames_write env _ _

theorem check_eq_failFast (pre : String) (a rest : Act) (ps : List (String × Act))
    (h : rest = failFast ps) : check a (GoError.wrap pre) rest = failFast ((pre, a) :: ps) := by
  funext w
  simp only [check, failFast, h]

theorem Generate_eq_failFast (env : Env) (g : Generator) (config : ProjectConfig) :
    Generate env g config = failFast (phases env g config) := by
  have htail : check (generateDockerFiles env g config)
      (GoError.wrap "ошибка создания Docker файлов: ")
      (check (generateMakefile env g config) (GoError.wrap "ошибка создания Makefile: ") retNil) =
      failFast [("ошибка создания Docker файлов: ", generateDockerFiles env g config),
        ("ошибка создания Makefile: ", generateMakefile env g config)] :=
    check_eq_failFast _ _ _ _ (check_eq_failFast _ _ _ _ rfl)
  unfold Generate phases
  refine check_eq_failFast _ _ _ _ <| check_eq_failFast _ _ _ _ <| check_eq_failFast _ _ _ _ <|
    check_eq_failFast _ _ _ _ <| check_eq_failFast _ _ _ _ <| check_eq_failFast _ _ _ _ ?_
  rw [htail]
  cases config.EnableGRPC
  · funext w
    simp [check, retNil, failFast]
  · funext w
    simp only [reduceIte, check, retNil, failFast, List.cons_append, List.nil_append, id]
    cases generateGRPC env g config w with
    | mk r w1 => cases r <;> rfl

theorem failFast_append_fail (before after : List (String × Act)) (pre : String) (a : Act)
    (w w1 w2 : World) (err : GoError)
    (hbefore : failFast before w = (none, w1)) (hfail : a w1 = (some err, w2)) :
    failFast (before ++ (pre, a) :: after) w = (some (GoError.wrap pre err), w2) := by
  induction before generalizing w with
  | nil =>
    simp only [failFast, retNil, Prod.mk.injEq, true_and] at hbefore
    subst hbefore
    simp [failFast, hfail]
  | cons ph rest ih =>
    obtain ⟨pre0, a0⟩ := ph
    simp only [List.cons_append, failFast] at hbefore ⊢
    cases h0 : a0 w with
    | mk r w0 =>
      rw [h0] at hbefore
      cases r with
      | some e => simp at hbefore
      | none => exact ih w0 hbefore

theorem frames_failFast (ps : List (String × Act)) (h : ∀ ph ∈ ps, Frames ph.2) :
    Frames (failFast ps) := by
  induction ps with
  | nil => exact frames_retNil
  | cons ph rest ih =>
    obtain ⟨pre, a⟩ := ph
    have ha : Frames a := h (pre, a) (by simp)
    have hrest : Frames (failFast rest) := ih (fun ph hph => h ph (List.mem_cons_of_mem _ hph))
    have := frames_check (GoError.wrap pre) ha hrest
    rwa [check_eq_failFast pre a (failFast rest) rest rfl] at this

/-- C10: the phases run in the order skeleton, go.mod, config, main files,
handlers, database layer, gRPC when enabled, Docker files, Makefile; when the
phases before one have succeeded and that one fails, `Generate` returns its
error, wrapped, together with the world exactly as the failing phase left it:
no call of a later phase is made, and what earlier phases created is still
there, every file the failing phase did not itself write with the content it
had.  No run, failing or not, removes a file or a directory. -/
theorem generate_fail_fast (env : Env) (g : Generator) (config : ProjectConfig)
    (w w1 w2 : World) (before after : List (String × Act)) (pre : String) (a : Act)
    (err : GoError)
    (hsplit : phases env g config = before ++ (pre, a) :: after)
    (hbefore : failFast before w = (none, w1))
    (hfail : a w1 = (some err, w2)) :
    Generate env g config = failFast (phases env g config) ∧
    Generate env g config w = (some (GoError.wrap pre err), w2) ∧
    (∃ ops, w2.log = w1.log ++ ops ∧
      ∀ p, p ∉ writtenPaths ops → w2.fs.files p = w1.fs.files p) ∧
    (∀ p, w1.fs.files p ≠ none → w2.fs.files p ≠ none) ∧
    (∀ p, w1.fs.dirs p = true → w2.fs.dirs p = true) ∧
    Frames (Generate env g config) := by
  have ha : Frames a := frames_phases env g config (pre, a) (by rw [hsplit]; simp)
  obtain ⟨ops, hlog, hfiles, hkeep, hdirs⟩ := ha w1
  rw [hfail] at hlog hfiles hkeep hdirs
  refine ⟨Generate_eq_failFast env g config, ?_, ⟨ops, hlog, hfiles⟩, hkeep, hdirs, ?_⟩
  · rw [Generate_eq_failFast, hsplit]
    exact failFast_append_fail before after pre a w w1 w2 err hbefore hfail
  · rw [Generate_eq_failFast]
    exact frames_failFast _ (frames_phases env g config)

/-- C10 at work: scenario A on the empty file system when config.yaml cannot be
written: the run stops in the configuration phase. -/
theorem generate_fail_fast_witness :
    Generate readOnlyConfigEnv (New "/srv/orders") scenarioA emptyWorld =
      (some (GoError.wrap "ошибка создания конфига: "
          (GoError.sys "open /srv/orders/config.yaml: permission denied")),
        (generateConfig readOnlyConfigEnv (New "/srv/orders") scenarioA
          (failFast ((phases readOnlyConfigEnv (New "/srv/orders") scenarioA).take 2)
            emptyWorld).2).2) :=
  (generate_fail_fast readOnlyConfigEnv (New "/srv/orders") scenarioA emptyWorld
    (failFast ((phases readOnlyConfigEnv (New "/srv/orders") scenarioA).take 2) emptyWorld).2
    (generateConfig readOnlyConfigEnv (New "/srv/orders") scenarioA
      (failFast ((phases readOnlyConfigEnv (New "/srv/orders") scenarioA).take 2)
        emptyWorld).2).2
    ((phases readOnlyConfigEnv (New "/srv/orders") scenarioA).take 2)
    ((phases readOnlyConfigEnv (New "/srv/orders") scenarioA).drop 3)
    "ошибка создания конфига: "
    (generateConfig readOnlyConfigEnv (New "/srv/orders") scenarioA)
    (GoError.sys "open /srv/orders/config.yaml: permission denied")
    (by rfl) (Prod.ext (by decide) rfl) (Prod.ext (by decide) rfl)).2.1

/-! ## C11: what a returned error says -/

theorem passes_retNil (env : Env) : Passes env retNil := by
  intro w e h
  simp [retNil] at h

theorem passes_syscall (env : Env) (op : FsOp) : Passes env (syscall env op) := by
  intro w e h
  unfold syscall at h ⊢
  cases hf : env.fault w.fs op with
  | none => simp [hf] at h
  | some err =>
    simp only [hf, Option.some.injEq] at h ⊢
    subst h
    exact ⟨op, hf, by simp⟩

theorem passes_check {env : Env} {a rest : Act} (ha : Passes env a) (hr : Passes env rest) :
    Passes env (check a id rest) := by
  intro w e h
  unfold check at h ⊢
  cases hres : a w with
  | mk r w1 =>
    have ha2 := ha w
    rw [hres] at ha2 h
    cases r with
    | some err =>
      simp only [id, Option.some.injEq] at h ⊢
      exact ha2 e (by simp [h])
    | none => exact hr w1 e h

theorem passes_write (env : Env) (path data : String) : Passes env (osWriteFile env path data) :=
  passes_syscall env _

theorem passes_mkdir (env : Env) (path : String) : Passes env (osMkdirAll env path) :=
  passes_syscall env _

theorem namesDir_createDirs (env : Env) (g : Generator) (dirs : List String) :
    NamesDir env (createDirs env g dirs) := by
  induction dirs with
  | nil =>
    intro w e h
    simp [createDirs, retNil] at h
  | cons d ds ih =>
    intro w e h
    unfold createDirs check at h ⊢
    simp only at h ⊢
    cases hres : osMkdirAll env (filepathJoin [g.projectPath, d]) w with
    | mk r w1 =>
      have hp := passes_mkdir env (filepathJoin [g.projectPath, d]) w
      rw [hres] at hp h
      cases r with
      | some err =>
        simp only [Option.some.injEq] at h ⊢
        obtain ⟨op, hop, hlast⟩ := hp err rfl
        have hop2 : op = FsOp.mkdirAll (filepathJoin [g.projectPath, d]) := by
          have hlog : w1.log = w.log ++ [FsOp.mkdirAll (filepathJoin [g.projectPath, d])] := by
            have := congrArg (fun r => r.2.log) hres
            simp only [osMkdirAll, syscall] at this
            cases hf : env.fault w.fs (FsOp.mkdirAll (filepathJoin [g.projectPath, d])) <;>
              simp [hf] at this <;> exact this.symm
          simp only at hlast
          rw [hlog] at hlast
          simpa using hlast.symm
        subst hop2
        exact ⟨_, err, hop, hlast, h.symm⟩
      | none => exact ih w1 e h

theorem passes_generateConfig (env : Env) (g : Generator) (config : ProjectConfig) :
    Passes env (generateConfig env g config) :=
  passes_check (passes_write env _ _) <| passes_check (passes_write env _ _) (passes_retNil env)

theorem passes_generateMainFiles (env : Env) (g : Generator) (config : ProjectConfig) :
    Passes env (generateMainFiles env g config) :=
  passes_check (passes_write env _ _) <|
    passes_check (passes_check (passes_mkdir env _) (passes_write env _ _)) <|
    passes_check (passes_write env _ _) <|
    passes_check (passes_write env _ _) (passes_retNil env)

theorem passes_generateHandlers (env : Env) (g : Generator) (config : ProjectConfig) :
    Passes env (generateHandlers env g config) :=
  passes_check (passes_write env _ _) <| passes_check (passes_write env _ _) <|
    passes_check (passes_write env _ _) (passes_retNil env)

theorem passes_generateDatabaseLayer (env : Env) (g : Generator) (config : ProjectConfig) :
    Passes env (generateDatabaseLayer env g config) := by
  unfold generateDatabaseLayer
  split
  · exact passes_retNil env
  · exact passes_check (passes_write env _ _) <| passes_check (passes_write env _ _) <|
      passes_check (passes_write env _ _) <|
      passes_check (passes_write env _ _) (passes_retNil env)

theorem passes_generateGRPC (env : Env) (g : Generator) (config : ProjectConfig) :
    Passes env (generateGRPC env g config) :=
  passes_check (passes_check (passes_mkdir env _) (passes_write env _ _)) <|
    passes_check (passes_check (passes_mkdir env _) (passes_write env _ _)) <|
    passes_check (passes_write env _ _) <|
    passes_check (passes_check (passes_mkdir env _) (passes_write env _ _)) (passes_retNil env)

theorem passes_generateDockerFiles (env : Env) (g : Generator) (config : ProjectConfig) :
    Passes env (generateDockerFiles env g config) :=
  passes_check (passes_write env _ _) <| passes_check (passes_write env _ _) <|
    passes_check (passes_write env _ _) (passes_retNil env)

theorem failFast_error (ps : List (String × Act)) (w : World) (e : GoError)
    (h : (failFast ps w).1 = some e) :
    ∃ label a w0 e0, (label, a) ∈ ps ∧ (a w0).1 = some e0 ∧ (a w0).2 = (failFast ps w).2 ∧
      e = GoError.wrap label e0 := by
  induction ps generalizing w with
  | nil => simp [failFast, retNil] at h
  | cons ph rest ih =>
    obtain ⟨label, a⟩ := ph
    unfold failFast at h ⊢
    cases hres : a w with
    | mk r w1 =>
      rw [hres] at h
      cases r with
      | some err =>
        simp only [Option.some.injEq] at h ⊢
        exact ⟨label, a, w, err, by simp, by rw [hres], by rw [hres], h.symm⟩
      | none =>
        obtain ⟨l2, a2, w0, e0, hmem, h1, h2, h3⟩ := ih w1 h
        exact ⟨l2, a2, w0, e0, List.mem_cons_of_mem _ hmem, h1, h2, h3⟩

theorem failFast_error_split (ps : List (String × Act)) (w : World) (e : GoError)
    (h : (failFast ps w).1 = some e) :
    ∃ before label act after inner,
      ps = before ++ (label, act) :: after ∧
      (failFast before w).1 = none ∧
      (act (failFast before w).2).1 = some inner ∧
      failFast ps w = (some (GoError.wrap label inner), (act (failFast before w).2).2) := by
  induction ps generalizing w with
  | nil => simp [failFast, retNil] at h
  | cons ph rest ih =>
    obtain ⟨label, a⟩ := ph
    cases hres : a w with
    | mk r w1 =>
      cases r with
      | some err =>
        refine ⟨[], label, a, rest, err, rfl, rfl, ?_, ?_⟩
        · show (a w).1 = some err
          rw [hres]
        · show failFast ((label, a) :: rest) w = (_, (a w).2)
          simp only [failFast, hres]
      | none =>
        have hstep : ∀ qs, failFast ((label, a) :: qs) w = failFast qs w1 := by
          intro qs
          simp only [failFast, hres]
        rw [hstep] at h
        obtain ⟨before, l2, a2, after, inner, hsplit, h1, h2, h3⟩ := ih w1 h
        refine ⟨(label, a) :: before, l2, a2, after, inner, by rw [hsplit]; rfl, ?_, ?_, ?_⟩
        · rw [hstep]; exact h1
        · rw [hstep]; exact h2
        · rw [hstep, hstep]; exact h3

theorem phases_error_shape (env : Env) (g : Generator) (config : ProjectConfig) :
    ∀ ph ∈ phases env g config,
      (ph.1 = skeletonLabel ∧ NamesDir env ph.2) ∨ (ph.1 ≠ skeletonLabel ∧ Passes env ph.2) := by
  intro ph hph
  unfold phases at hph
  cases hg : config.EnableGRPC
  · simp only [hg, Bool.false_eq_true, reduceIte, List.append_nil, List.cons_append,
      List.nil_append, List.mem_cons, List.mem_singleton, List.not_mem_nil, or_false] at hph
    obtain rfl | rfl | rfl | rfl | rfl | rfl | rfl | rfl := hph
    · exact Or.inl ⟨rfl, namesDir_createDirs env g _⟩
    · exact Or.inr ⟨by dsimp only; decide, passes_write env _ _⟩
    · exact Or.inr ⟨by dsimp only; decide, passes_generateConfig env g config⟩
    · exact Or.inr ⟨by dsimp only; decide, passes_generateMainFiles env g config⟩
    · exact Or.inr ⟨by dsimp only; decide, passes_generateHandlers env g config⟩
    · exact Or.inr ⟨by dsimp only; decide, passes_generateDatabaseLayer env g config⟩
    · exact Or.inr ⟨by dsimp only; decide, passes_generateDockerFiles env g config⟩
    · exact Or.inr ⟨by dsimp only; decide, passes_write env _ _⟩
  · simp only [hg, reduceIte, List.cons_append, List.nil_append, List.mem_cons,
      List.mem_singleton, List.not_mem_nil, or_false] at hph
    obtain rfl | rfl | rfl | rfl | rfl | rfl | rfl | rfl | rfl := hph
    · exact Or.inl ⟨rfl, namesDir_createDirs env g _⟩
    · exact Or.inr ⟨by dsimp only; decide, passes_write env _ _⟩
    · exact Or.inr ⟨by dsimp only; decide, passes_generateConfig env g config⟩
    · exact Or.inr ⟨by dsimp only; decide, passes_generateMainFiles env g config⟩
    · exact Or.inr ⟨by dsimp only; decide, passes_generateHandlers env g config⟩
    · exact Or.inr ⟨by dsimp only; decide, passes_generateDatabaseLayer env g config⟩
    · exact Or.inr ⟨by dsimp only; decide, passes_generateGRPC env g config⟩
    · exact Or.inr ⟨by dsimp only; decide, passes_generateDockerFiles env g config⟩
    · exact Or.inr ⟨by dsimp only; decide, passes_write env _ _⟩

/-- C11 as stated fails: when the write of config.yaml is refused, the text
that `Generate` and its phases put in front of the cause is the label of the
configuration phase alone and has no path in it. -/
theorem write_error_without_path :
    (Generate readOnlyConfigEnv (New "/srv/orders") scenarioA emptyWorld).1 =
      some (GoError.wrap "ошибка создания конфига: "
        (GoError.sys "open /srv/orders/config.yaml: permission denied")) ∧
    (writtenPaths (Generate readOnlyConfigEnv (New "/srv/orders") scenarioA
      emptyWorld).2.log).getLast? = some "/srv/orders/config.yaml" ∧
    GoError.added (GoError.wrap "ошибка создания конфига: "
        (GoError.sys "open /srv/orders/config.yaml: permission denied")) =
      "ошибка создания конфига: " ∧
    stringsContains "ошибка создания конфига: " "/srv/orders/config.yaml" = false ∧
    stringsContains "ошибка создания конфига: " "config.yaml" = false := by
  refine ⟨by decide!, by decide!, by decide, by decide, by decide⟩

/-- C11, amended: whenever `Generate` returns an error, the phases listed
before some phase have all succeeded and that phase has failed, in the world
they left, with an error that `Generate` returns under the label that
`phases` pairs with this very phase (the pairing of `Generate` itself, spelt
out in the first part); the error of the phase wraps the error of the system
call that failed, which is the last call made.  The path is named in the
added text when the skeleton phase fails in creating a directory; a rendering
phase hands on the error of the call as it is, so that the label of the phase
is all that is added. -/
theorem generate_error_names_phase (env : Env) (g : Generator) (config : ProjectConfig)
    (w : World) (e : GoError) (h : (Generate env g config w).1 = some e) :
    phases env g config =
      [("ошибка создания структуры директорий: ", createDirectoryStructure env g),
       ("ошибка создания go.mod: ", generateGoMod env g config),
       ("ошибка создания конфига: ", generateConfig env g config),
       ("ошибка создания основных файлов: ", generateMainFiles env g config),
       ("ошибка создания handlers: ", generateHandlers env g config),
       ("ошибка создания слоя БД: ", generateDatabaseLayer env g config)] ++
      (if config.EnableGRPC then [("ошибка создания gRPC: ", generateGRPC env g config)]
       else []) ++
      [("ошибка создания Docker файлов: ", generateDockerFiles env g config),
       ("ошибка создания Makefile: ", generateMakefile env g config)] ∧
    ∃ before label act after inner cause op,
      phases env g config = before ++ (label, act) :: after ∧
      (failFast before w).1 = none ∧
      (act (failFast before w).2).1 = some inner ∧
      Generate env g config w =
        (some (GoError.wrap label inner), (act (failFast before w).2).2) ∧
      e = GoError.wrap label inner ∧
      env.fault (Generate env g config w).2.fs op = some cause ∧
      (Generate env g config w).2.log.getLast? = some op ∧
      ((label = skeletonLabel ∧ ∃ path, op = FsOp.mkdirAll path ∧
          inner = GoError.wrap ("ошибка создания директории " ++ path ++ ": ") cause) ∨
       (label ≠ skeletonLabel ∧ inner = cause)) := by
  refine ⟨rfl, ?_⟩
  rw [Generate_eq_failFast] at h ⊢
  obtain ⟨before, label, act, after, inner, hsplit, h1, h2, h3⟩ := failFast_error_split _ w e h
  have hmem : (label, act) ∈ phases env g config := by rw [hsplit]; simp
  have he : e = GoError.wrap label inner := by
    rw [h3] at h
    exact (Option.some.inj h).symm
  have hw : (failFast (phases env g config) w).2 = (act (failFast before w).2).2 := by rw [h3]
  rcases phases_error_shape env g config (label, act) hmem with ⟨hl, hn⟩ | ⟨hl, hp⟩
  · obtain ⟨path, cause, hc, hlast, hinner⟩ := hn (failFast before w).2 inner h2
    rw [← hw] at hc hlast
    exact ⟨before, label, act, after, inner, cause, _, hsplit, h1, h2, h3, he, hc, hlast,
      Or.inl ⟨hl, path, rfl, hinner⟩⟩
  · obtain ⟨op, hc, hlast⟩ := hp (failFast before w).2 inner h2
    rw [← hw] at hc hlast
    exact ⟨before, label, act, after, inner, inner, op, hsplit, h1, h2, h3, he, hc, hlast,
      Or.inr ⟨hl, rfl⟩⟩

/-- C11 at work: scenario A when config.yaml cannot be written: the error is
the one of the refused write under the label of the configuration phase. -/
theorem generate_error_names_phase_witness :
    ∃ before label act after inner cause op,
      phases readOnlyConfigEnv (New "/srv/orders") scenarioA = before ++ (label, act) :: after ∧
      (failFast before emptyWorld).1 = none ∧
      (act (failFast before emptyWorld).2).1 = some inner ∧
      Generate readOnlyConfigEnv (New "/srv/orders") scenarioA emptyWorld =
        (some (GoError.wrap label inner), (act (failFast before emptyWorld).2).2) ∧
      GoError.wrap "ошибка создания конфига: "
          (GoError.sys "open /srv/orders/config.yaml: permission denied") =
        GoError.wrap label inner ∧
      readOnlyConfigEnv.fault
        (Generate readOnlyConfigEnv (New "/srv/orders") scenarioA emptyWorld).2.fs op
        = some cause ∧
      (Generate readOnlyConfigEnv (New "/srv/orders") scenarioA emptyWorld).2.log.getLast?
        = some op ∧
      ((label = skeletonLabel ∧ ∃ path, op = FsOp.mkdirAll path ∧
          inner = GoError.wrap ("ошибка создания директории " ++ path ++ ": ") cause) ∨
       (label ≠ skeletonLabel ∧ inner = cause)) :=
  (generate_error_names_phase readOnlyConfigEnv (New "/srv/orders") scenarioA emptyWorld _
    (by decide!)).2

/-! ## C12, C13: the operations of the gRPC service -/

theorem protoRpcNames_eq (config : ProjectConfig) :
    protoRpcNames (protoFileContent config) = serviceOperations := by
  unfold protoFileContent
  decide!

theorem serverRpcMethods_eq (config : ProjectConfig) :
    serverRpcMethods (grpcServerContent config) = serviceOperations := by
  unfold grpcServerContent
  decide!

theorem clientRpcMethods_eq (config : ProjectConfig) :
    clientRpcMethods (grpcClientContent config) = serviceOperations := by
  unfold grpcClientContent
  decide!

/-- C12 as stated fails: the service of the proto file of scenario A does not
have six rpc operations. -/
theorem proto_service_not_six :
    ¬ (protoRpcNames (protoFileContent scenarioA)).length = 6 := by
  rw [protoRpcNames_eq]
  decide

/-- C12, amended: the service declared in the proto file has exactly seven rpc
operations, a health check, a ping and five operations on the user resource:
create, get, update, delete and list. -/
theorem proto_service_operations (config : ProjectConfig) :
    protoRpcNames (protoFileContent config) =
      [lit "HealthCheck", lit "Ping", lit "CreateUser", lit "GetUser", lit "UpdateUser",
       lit "DeleteUser", lit "ListUsers"] ∧
    (protoRpcNames (protoFileContent config)).length = 7 ∧
    ((protoRpcNames (protoFileContent config)).filter
      (fun op => endsWith (lit "User") op || endsWith (lit "Users") op)).length = 5 := by
  rw [protoRpcNames_eq]
  exact ⟨rfl, by decide, by decide⟩

/-- C13: the rpc operations declared in the proto file, the handler methods of
`Server` (its methods other than `Start` and `Stop`) and the call methods of
`Client` (its methods other than `Close`) are the same names, in the same
order, and no name occurs twice in any of the three files. -/
theorem rpc_operations_correspond (config : ProjectConfig) :
    protoRpcNames (protoFileContent config) = serverRpcMethods (grpcServerContent config) ∧
    serverRpcMethods (grpcServerContent config) = clientRpcMethods (grpcClientContent config) ∧
    (protoRpcNames (protoFileContent config)).Nodup ∧
    (serverRpcMethods (grpcServerContent config)).Nodup ∧
    (clientRpcMethods (grpcClientContent config)).Nodup ∧
    goMethodNames "(s *Server)" (grpcServerContent config) =
      [lit "Start", lit "Stop"] ++ serverRpcMethods (grpcServerContent config) ∧
    goMethodNames "(c *Client)" (grpcClientContent config) =
      [lit "Close"] ++ clientRpcMethods (grpcClientContent config) := by
  rw [protoRpcNames_eq, serverRpcMethods_eq, clientRpcMethods_eq]
  refine ⟨rfl, rfl, by decide, by decide, by decide, ?_, ?_⟩
  · unfold grpcServerContent
    decide!
  · unfold grpcClientContent
    decide!

/-! ## C14: the database status of the health report -/

theorem ginHealth_mentions (config : ProjectConfig) :
    mentions (generateGinHealthHandler config) "h.db.Ping()" = !dbDisabled config ∧
    mentions (generateGinHealthHandler config) "response.Database = dbStatus"
      = !dbDisabled config ∧
    mentions (generateGinHealthHandler config) ".Database" = !dbDisabled config := by
  unfold dbDisabled generateGinHealthHandler
  cases stringsContains (stringsToLower config.Database) "без" <;>
    simp only [Bool.not_true, Bool.not_false, Bool.false_eq_true, reduceIte] <;>
    refine ⟨?_, ?_, ?_⟩ <;> decide!

theorem fiberHealth_mentions (config : ProjectConfig) :
    mentions (generateFiberHealthHandler config) "h.db.Ping()" = !dbDisabled config ∧
    mentions (generateFiberHealthHandler config) "response.Database = dbStatus"
      = !dbDisabled config ∧
    mentions (generateFiberHealthHandler config) ".Database" = !dbDisabled config := by
  unfold dbDisabled generateFiberHealthHandler
  cases stringsContains (stringsToLower config.Database) "без" <;>
    simp only [Bool.not_true, Bool.not_false, Bool.false_eq_true, reduceIte] <;>
    refine ⟨?_, ?_, ?_⟩ <;> decide!

theorem echoHealth_mentions (config : ProjectConfig) :
    mentions (generateEchoHealthHandler config) "h.db.Ping()" = !dbDisabled config ∧
    mentions (generateEchoHealthHandler config) "response.Database = dbStatus"
      = !dbDisabled config ∧
    mentions (generateEchoHealthHandler config) ".Database" = !dbDisabled config := by
  unfold dbDisabled generateEchoHealthHandler
  cases stringsContains (stringsToLower config.Database) "без" <;>
    simp only [Bool.not_true, Bool.not_false, Bool.false_eq_true, reduceIte] <;>
    refine ⟨?_, ?_, ?_⟩ <;> decide!

/-- C14: for each of the three framework variants, and so for every
configuration, health.go has the code that pings the database and the
assignment of the database status to the response iff the database is enabled;
with no database the file has no access to a `Database` field at all. -/
theorem health_database_status (config : ProjectConfig) :
    (∀ variant ∈ [generateGinHealthHandler config, generateFiberHealthHandler config,
        generateEchoHealthHandler config, healthHandlerContent config],
      mentions variant "h.db.Ping()" = !dbDisabled config ∧
      mentions variant "response.Database = dbStatus" = !dbDisabled config ∧
      mentions variant ".Database" = !dbDisabled config) ∧
    healthHandlerContent { config with Framework := "gin" } = generateGinHealthHandler config ∧
    healthHandlerContent { config with Framework := "fiber" }
      = generateFiberHealthHandler config ∧
    healthHandlerContent { config with Framework := "echo" }
      = generateEchoHealthHandler config := by
  have hall : mentions (healthHandlerContent config) "h.db.Ping()" = !dbDisabled config ∧
      mentions (healthHandlerContent config) "response.Database = dbStatus"
        = !dbDisabled config ∧
      mentions (healthHandlerContent config) ".Database" = !dbDisabled config := by
    unfold healthHandlerContent
    split_ifs
    · exact ginHealth_mentions config
    · exact fiberHealth_mentions config
    · exact echoHealth_mentions config
    · exact ginHealth_mentions config
  refine ⟨?_, rfl, rfl, rfl⟩
  intro variant hv
  simp only [List.mem_cons, List.mem_singleton, List.not_mem_nil, or_false] at hv
  rcases hv with rfl | rfl | rfl | rfl
  · exact ginHealth_mentions config
  · exact fiberHealth_mentions config
  · exact echoHealth_mentions config
  · exact hall

/-! ## C15, C16, C17: config.yaml and its loader -/

theorem yamlTopKeys_database_iff (config : ProjectConfig) :
    lit "database" ∈ yamlTopKeys (configYAMLContent config) ↔
      stringsToLower config.Database ∈ ["postgresql", "mysql", "mongodb", "in-memory"] ∧
      dbDisabled config = false := by
  obtain ⟨name, moduleName, framework, database, grpc, path⟩ := config
  unfold dbDisabled
  cases hdis : stringsContains (stringsToLower database) "без" <;>
    cases grpc <;>
    simp only [configYAMLContent, hdis, Bool.not_true, Bool.not_false, Bool.false_eq_true,
      reduceIte, List.mem_cons, List.mem_singleton, List.not_mem_nil, or_false] <;>
    (try split_ifs) <;>
    constructor <;>
    first
      | (intro _; decide!)
      | (intro h; exact absurd h (by decide!))
      | (intro _; simp_all)

/-- C15 on the code: with the database "postgres", which is enabled (the four
database files are written, the implementation being the PostgreSQL one) but
not one of the four names the settings renderer knows, config.yaml has no
top-level `database:` block; with "postgresql" it has one. -/
theorem config_yaml_without_database_block :
    dbDisabled unknownDatabase = false ∧
    writtenPaths (databasePlan (New "/srv/orders") unknownDatabase) =
      ["/srv/orders/pkg/database/interface.go", "/srv/orders/pkg/database/database.go",
       "/srv/orders/internal/repository/user.go", "/srv/orders/internal/models/models.go"] ∧
    databaseImplementationContent unknownDatabase =
      generatePostgreSQLImplementation unknownDatabase ∧
    yamlTopKeys (configYAMLContent unknownDatabase) =
      [lit "app", lit "grpc", lit "logger", lit "swagger"] ∧
    yamlBlockKeys "database:" (configYAMLContent unknownDatabase) = [] ∧
    yamlTopKeys (configYAMLContent scenarioA) =
      [lit "app", lit "database", lit "grpc", lit "logger", lit "swagger"] := by
  refine ⟨by decide, ?_, by decide!, by decide!, by decide!, by decide!⟩
  rw [writtenPaths_databasePlan]
  decide

theorem databaseConfig_keys (config : ProjectConfig) :
    structYamlKeys "DatabaseConfig" (configGoContent config) = databaseConfigKeys ∧
    lit "Database" ∈ structFieldNames "Config" (configGoContent config) := by
  obtain ⟨name, moduleName, framework, database, grpc, path⟩ := config
  cases grpc <;> simp only [configGoContent, Bool.false_eq_true, reduceIte] <;>
    constructor <;> decide!

theorem yaml_database_block_keys (config : ProjectConfig) :
    yamlBlockKeys "database:" (configYAMLContent config) =
      if dbDisabled config then [] else databaseBlockKeys (stringsToLower config.Database) := by
  obtain ⟨name, moduleName, framework, database, grpc, path⟩ := config
  unfold dbDisabled databaseBlockKeys
  cases hdis : stringsContains (stringsToLower database) "без" <;>
    cases grpc <;>
    simp only [configYAMLContent, hdis, Bool.not_true, Bool.not_false, Bool.false_eq_true,
      reduceIte] <;>
    (try split_ifs) <;> decide!

theorem databaseBlockKeys_subset (database : String) :
    ∀ k ∈ databaseBlockKeys database, k ∈ databaseConfigKeys := by
  unfold databaseBlockKeys
  split_ifs <;> decide

/-- C16 as stated fails: for mongodb the fields of `DatabaseConfig` are not the
keys of the database block of config.yaml, and with the database switched off
the type `Config` still has its `Database` field. -/
theorem databaseConfig_not_per_variant :
    structYamlKeys "DatabaseConfig" (configGoContent { scenarioA with Database := "mongodb" }) ≠
      yamlBlockKeys "database:" (configYAMLContent { scenarioA with Database := "mongodb" }) ∧
    dbDisabled { scenarioA with Database := "Без БД" } = true ∧
    lit "Database" ∈
      structFieldNames "Config" (configGoContent { scenarioA with Database := "Без БД" }) := by
  refine ⟨by decide!, by decide, by decide!⟩

/-- C16, amended: whatever the configuration, `DatabaseConfig` declares the
same thirteen fields (type, host, port, user, password, name, ssl_mode, uri,
path, charset, max_connections, max_idle_connections, timeout) and `Config`
has its `Database` field; the keys of the database block of config.yaml for
the selected variant (host, port, user and password for postgresql and mysql,
uri for mongodb, path for in-memory) are all among those thirteen. -/
theorem databaseConfig_covers_block (config : ProjectConfig) :
    structYamlKeys "DatabaseConfig" (configGoContent config) = databaseConfigKeys ∧
    databaseConfigKeys.length = 13 ∧
    lit "Database" ∈ structFieldNames "Config" (configGoContent config) ∧
    yamlBlockKeys "database:" (configYAMLContent config) =
      (if dbDisabled config then [] else databaseBlockKeys (stringsToLower config.Database)) ∧
    (∀ k ∈ yamlBlockKeys "database:" (configYAMLContent config),
      k ∈ structYamlKeys "DatabaseConfig" (configGoContent config)) ∧
    (∀ k ∈ [lit "host", lit "port", lit "user", lit "password"],
      k ∈ databaseBlockKeys "postgresql" ∧ k ∈ databaseBlockKeys "mysql") ∧
    lit "uri" ∈ databaseBlockKeys "mongodb" ∧ lit "path" ∈ databaseBlockKeys "in-memory" := by
  refine ⟨(databaseConfig_keys config).1, by decide, (databaseConfig_keys config).2,
    yaml_database_block_keys config, ?_, by decide, by decide, by decide⟩
  rw [yaml_database_block_keys, (databaseConfig_keys config).1]
  intro k hk
  split at hk
  · simp at hk
  · exact databaseBlockKeys_subset _ k hk

/-- The yaml keys of the gRPC settings. -/
theorem grpcConfig_keys_eq (config : ProjectConfig) :
    structYamlKeys "GRPCConfig" (configGoContent config) =
      (if config.EnableGRPC then
        [lit "enabled", lit "port", lit "max_connection_age", lit "max_connection_idle"]
       else []) ∧
    declaresStruct "GRPCConfig" (configGoContent config) = config.EnableGRPC ∧
    (lit "GRPC" ∈ structFieldNames "Config" (configGoContent config) ↔
      config.EnableGRPC = true) := by
  obtain ⟨name, moduleName, framework, database, grpc, path⟩ := config
  cases grpc <;> simp only [configGoContent, Bool.false_eq_true, reduceIte] <;>
    refine ⟨?_, ?_, ?_⟩ <;> decide!

theorem yaml_grpc_block_keys (config : ProjectConfig) :
    yamlBlockKeys "grpc:" (configYAMLContent config) =
      (if config.EnableGRPC then
        [lit "enabled", lit "port", lit "max_connection_age", lit "max_connection_idle"]
       else []) ∧
    (lit "grpc" ∈ yamlTopKeys (configYAMLContent config) ↔ config.EnableGRPC = true) := by
  obtain ⟨name, moduleName, framework, database, grpc, path⟩ := config
  cases grpc <;> simp only [configYAMLContent, Bool.false_eq_true, reduceIte] <;>
    split_ifs <;> constructor <;> decide!

/-- C17: config.go declares the `GRPC` field of `Config` and the type
`GRPCConfig` iff config.yaml has a grpc block, and that is so iff gRPC is
enabled; the yaml keys of `GRPCConfig` are then enabled, port,
max_connection_age and max_connection_idle, exactly the keys of the grpc block
of config.yaml. -/
theorem grpc_settings_mirror (config : ProjectConfig) :
    (lit "GRPC" ∈ structFieldNames "Config" (configGoContent config) ↔
      config.EnableGRPC = true) ∧
    declaresStruct "GRPCConfig" (configGoContent config) = config.EnableGRPC ∧
    (lit "grpc" ∈ yamlTopKeys (configYAMLContent config) ↔ config.EnableGRPC = true) ∧
    (lit "grpc:" ∈ linesOf (configYAMLContent config) ↔ config.EnableGRPC = true) ∧
    structYamlKeys "GRPCConfig" (configGoContent config) =
      yamlBlockKeys "grpc:" (configYAMLContent config) ∧
    yamlBlockKeys "grpc:" (configYAMLContent config) =
      (if config.EnableGRPC then
        [lit "enabled", lit "port", lit "max_connection_age", lit "max_connection_idle"]
       else []) := by
  refine ⟨(grpcConfig_keys_eq config).2.2, (grpcConfig_keys_eq config).2.1,
    (yaml_grpc_block_keys config).2, yaml_grpc_block_iff config, ?_,
    (yaml_grpc_block_keys config).1⟩
  rw [(grpcConfig_keys_eq config).1, (yaml_grpc_block_keys config).1]

/-! ## C18, C19, C20: fallbacks and variant-independent files -/

theorem render_congr (c1 c2 : ProjectConfig) (t : Template) (hname : c1.Name = c2.Name)
    (hmodule : c1.ModuleName = c2.ModuleName) : render c1 t = render c2 t := by
  induction t with
  | nil => rfl
  | cons s t ih => cases s <;> simp [render, Seg.render, ih, hname, hmodule]

theorem render_congr_module (c1 c2 : ProjectConfig) (t : Template)
    (hmodule : c1.ModuleName = c2.ModuleName) (ht : Seg.name ∉ t) :
    render c1 t = render c2 t := by
  induction t with
  | nil => rfl
  | cons s t ih =>
    have hs : s ≠ Seg.name := fun h => ht (by simp [h])
    have ht2 : Seg.name ∉ t := fun h => ht (by simp [h])
    cases s with
    | text x => simp [render, Seg.render, ih ht2]
    | name => exact absurd rfl hs
    | moduleName => simp [render, Seg.render, ih ht2, hmodule]

theorem postgres_no_name (config : ProjectConfig) :
    Seg.name ∉ generatePostgreSQLImplementation config := by
  unfold generatePostgreSQLImplementation
  decide

theorem databaseImplementation_fallback (config : ProjectConfig)
    (h : stringsToLower config.Database ∉ ["postgresql", "mysql", "mongodb", "in-memory"]) :
    databaseImplementationContent config = generatePostgreSQLImplementation config := by
  simp only [List.mem_cons, List.mem_singleton, List.not_mem_nil, or_false, not_or] at h
  unfold databaseImplementationContent
  simp [h.1, h.2.1, h.2.2.1, h.2.2.2]

theorem databaseImplementation_postgresql (config : ProjectConfig)
    (h : stringsToLower config.Database = "postgresql") :
    databaseImplementationContent config = generatePostgreSQLImplementation config := by
  unfold databaseImplementationContent
  simp [h]

/-- C18: for a database name whose lower-cased form is none of postgresql,
mysql, mongodb, in-memory, `generateDatabaseImplementation` behaves as for
"postgresql": when the write does not fail it returns no error, and what it
writes to pkg/database/database.go is the PostgreSQL implementation, byte for
byte what any configuration with database postgresql and the same module path
gets. -/
theorem database_implementation_falls_back (env : Env) (g : Generator)
    (config : ProjectConfig) (w : World)
    (h : stringsToLower config.Database ∉ ["postgresql", "mysql", "mongodb", "in-memory"]) :
    generateDatabaseImplementation env g config =
      generateDatabaseImplementation env g { config with Database := "postgresql" } ∧
    generateDatabaseImplementation env g config =
      osWriteFile env (filepathJoin [g.projectPath, "pkg/database/database.go"])
        (render config (generatePostgreSQLImplementation config)) ∧
    (env.noFault → (generateDatabaseImplementation env g config w).1 = none ∧
      (generateDatabaseImplementation env g config w).2.fs.files
        (filepathJoin [g.projectPath, "pkg/database/database.go"]) =
        some (render config (generatePostgreSQLImplementation config))) ∧
    ∀ other : ProjectConfig, stringsToLower other.Database = "postgresql" →
      other.ModuleName = config.ModuleName →
      render config (databaseImplementationContent config) =
        render other (databaseImplementationContent other) := by
  have hc := databaseImplementation_fallback config h
  have hw : generateDatabaseImplementation env g config =
      osWriteFile env (filepathJoin [g.projectPath, "pkg/database/database.go"])
        (render config (generatePostgreSQLImplementation config)) := by
    unfold generateDatabaseImplementation
    rw [hc]
  refine ⟨?_, hw, ?_, ?_⟩
  · rw [hw]
    unfold generateDatabaseImplementation
    have hpg : stringsToLower "postgresql" = "postgresql" := by decide
    rw [databaseImplementation_postgresql { config with Database := "postgresql" } hpg]
    rfl
  · intro henv
    rw [hw, isPlan_write henv _ _ w]
    exact ⟨rfl, by simp [World.run, FS.apply]⟩
  · intro other hdb hm
    rw [hc, databaseImplementation_postgresql other hdb]
    exact render_congr_module config other _ hm.symm (postgres_no_name config)

/-- C18 at work: the database "oracle". -/
theorem database_implementation_falls_back_witness :
    generateDatabaseImplementation okEnv (New "/srv/orders")
        { scenarioA with Database := "oracle" } =
      generateDatabaseImplementation okEnv (New "/srv/orders")
        { { scenarioA with Database := "oracle" } with Database := "postgresql" } :=
  (database_implementation_falls_back okEnv (New "/srv/orders")
    { scenarioA with Database := "oracle" } emptyWorld (by decide)).1

theorem ginHandler_no_name (config : ProjectConfig) : Seg.name ∉ generateGinHandler config := by
  unfold generateGinHandler
  cases stringsContains (stringsToLower config.Database) "без" <;>
    simp only [Bool.not_true, Bool.not_false, Bool.false_eq_true, reduceIte] <;> decide

theorem ginHealth_no_name (config : ProjectConfig) :
    Seg.name ∉ generateGinHealthHandler config := by
  unfold generateGinHealthHandler
  cases stringsContains (stringsToLower config.Database) "без" <;>
    simp only [Bool.not_true, Bool.not_false, Bool.false_eq_true, reduceIte] <;> decide

theorem ginHandler_congr (c1 c2 : ProjectConfig) (h : c1.Database = c2.Database) :
    generateGinHandler c1 = generateGinHandler c2 := by
  unfold generateGinHandler
  rw [h]

theorem ginHealth_congr (c1 c2 : ProjectConfig) (h : c1.Database = c2.Database) :
    generateGinHealthHandler c1 = generateGinHealthHandler c2 := by
  unfold generateGinHealthHandler
  rw [h]

theorem handler_contents_fallback (config : ProjectConfig)
    (h : stringsToLower config.Framework ∉ ["gin", "fiber", "echo"]) :
    baseHandlerContent config = generateGinHandler config ∧
    healthHandlerContent config = generateGinHealthHandler config := by
  simp only [List.mem_cons, List.mem_singleton, List.not_mem_nil, or_false, not_or] at h
  unfold baseHandlerContent healthHandlerContent
  simp [h.1, h.2.1, h.2.2]

theorem handler_contents_gin (config : ProjectConfig)
    (h : stringsToLower config.Framework = "gin") :
    baseHandlerContent config = generateGinHandler config ∧
    healthHandlerContent config = generateGinHealthHandler config := by
  unfold baseHandlerContent healthHandlerContent
  simp [h]

/-- C19: for a framework name whose lower-cased form is none of gin, fiber,
echo, `generateBaseHandler` and `generateHealthHandler` behave as for "gin":
when the writes do not fail they return no error, and what they write to
internal/handlers/handler.go and internal/handlers/health.go are the Gin
variants, byte for byte what any configuration with framework gin and the same
module path and database gets. -/
theorem handlers_fall_back (env : Env) (g : Generator) (config : ProjectConfig) (w : World)
    (h : stringsToLower config.Framework ∉ ["gin", "fiber", "echo"]) :
    generateBaseHandler env g config =
      generateBaseHandler env g { config with Framework := "gin" } ∧
    generateHealthHandler env g config =
      generateHealthHandler env g { config with Framework := "gin" } ∧
    generateBaseHandler env g config =
      osWriteFile env (filepathJoin [g.projectPath, "internal/handlers/handler.go"])
        (render config (generateGinHandler config)) ∧
    generateHealthHandler env g config =
      osWriteFile env (filepathJoin [g.projectPath, "internal/handlers/health.go"])
        (render config (generateGinHealthHandler config)) ∧
    (env.noFault → (generateBaseHandler env g config w).1 = none ∧
      (generateHealthHandler env g config w).1 = none) ∧
    ∀ other : ProjectConfig, stringsToLower other.Framework = "gin" →
      other.ModuleName = config.ModuleName → other.Database = config.Database →
      render config (baseHandlerContent config) = render other (baseHandlerContent other) ∧
      render config (healthHandlerContent config) =
        render other (healthHandlerContent other) := by
  obtain ⟨hb, hh⟩ := handler_contents_fallback config h
  have hgin : stringsToLower "gin" = "gin" := by decide
  obtain ⟨hb2, hh2⟩ := handler_contents_gin { config with Framework := "gin" } hgin
  have hwb : generateBaseHandler env g config =
      osWriteFile env (filepathJoin [g.projectPath, "internal/handlers/handler.go"])
        (render config (generateGinHandler config)) := by
    unfold generateBaseHandler
    rw [hb]
  have hwh : generateHealthHandler env g config =
      osWriteFile env (filepathJoin [g.projectPath, "internal/handlers/health.go"])
        (render config (generateGinHealthHandler config)) := by
    unfold generateHealthHandler
    rw [hh]
  refine ⟨?_, ?_, hwb, hwh, ?_, ?_⟩
  · rw [hwb]
    unfold generateBaseHandler
    rw [hb2, ginHandler_congr { config with Framework := "gin" } config rfl]
    dsimp only
    rw [render_congr { config with Framework := "gin" } config _ rfl rfl]
  · rw [hwh]
    unfold generateHealthHandler
    rw [hh2, ginHealth_congr { config with Framework := "gin" } config rfl]
    dsimp only
    rw [render_congr { config with Framework := "gin" } config _ rfl rfl]
  · intro henv
    rw [hwb, hwh, isPlan_write henv _ _ w, isPlan_write henv _ _ w]
    exact ⟨rfl, rfl⟩
  · intro other hfw hm hdb
    obtain ⟨hb3, hh3⟩ := handler_contents_gin other hfw
    rw [hb, hh, hb3, hh3, ginHandler_congr other config hdb, ginHealth_congr other config hdb]
    exact ⟨render_congr_module config other _ hm.symm (ginHandler_no_name config),
      render_congr_module config other _ hm.symm (ginHealth_no_name config)⟩

/-- C19 at work: the framework "chi". -/
theorem handlers_fall_back_witness :
    generateBaseHandler okEnv (New "/srv/orders") { scenarioA with Framework := "chi" } =
      generateBaseHandler okEnv (New "/srv/orders")
        { { scenarioA with Framework := "chi" } with Framework := "gin" } :=
  (handlers_fall_back okEnv (New "/srv/orders") { scenarioA with Framework := "chi" }
    emptyWorld (by decide)).1

theorem databaseFiles_no_name (config : ProjectConfig) :
    Seg.name ∉ databaseInterfaceContent config ∧ Seg.name ∉ repositoriesContent config ∧
    Seg.name ∉ modelsContent config := by
  unfold databaseInterfaceContent repositoriesContent modelsContent
  exact ⟨by decide, by decide, by decide⟩

/-- C20: for two configurations with the same module path whose databases are
enabled, the three files pkg/database/interface.go,
internal/repository/user.go and internal/models/models.go that the database
phase writes are byte-identical, whatever else differs (database variant,
framework, name, gRPC). -/
theorem database_common_files_equal (g : Generator) (c1 c2 : ProjectConfig)
    (hmodule : c1.ModuleName = c2.ModuleName)
    (h1 : dbDisabled c1 = false) (h2 : dbDisabled c2 = false) :
    render c1 (databaseInterfaceContent c1) = render c2 (databaseInterfaceContent c2) ∧
    render c1 (repositoriesContent c1) = render c2 (repositoriesContent c2) ∧
    render c1 (modelsContent c1) = render c2 (modelsContent c2) ∧
    (∀ c ∈ [c1, c2],
      FsOp.writeFile (filepathJoin [g.projectPath, "pkg/database/interface.go"])
        (render c (databaseInterfaceContent c)) ∈ generatePlan g c ∧
      FsOp.writeFile (filepathJoin [g.projectPath, "internal/repository/user.go"])
        (render c (repositoriesContent c)) ∈ generatePlan g c ∧
      FsOp.writeFile (filepathJoin [g.projectPath, "internal/models/models.go"])
        (render c (modelsContent c)) ∈ generatePlan g c) := by
  obtain ⟨n1, n2, n3⟩ := databaseFiles_no_name c1
  have e1 : databaseInterfaceContent c1 = databaseInterfaceContent c2 := rfl
  have e2 : repositoriesContent c1 = repositoriesContent c2 := rfl
  have e3 : modelsContent c1 = modelsContent c2 := rfl
  refine ⟨?_, ?_, ?_, ?_⟩
  · rw [← e1]; exact render_congr_module c1 c2 _ hmodule n1
  · rw [← e2]; exact render_congr_module c1 c2 _ hmodule n2
  · rw [← e3]; exact render_congr_module c1 c2 _ hmodule n3
  · intro c hc
    have hdis : dbDisabled c = false := by
      simp only [List.mem_cons, List.mem_singleton, List.not_mem_nil, or_false] at hc
      rcases hc with rfl | rfl
      · exact h1
      · exact h2
    have hplan : databasePlan g c =
        [.writeFile (filepathJoin [g.projectPath, "pkg/database/interface.go"])
           (render c (databaseInterfaceContent c)),
         .writeFile (filepathJoin [g.projectPath, "pkg/database/database.go"])
           (render c (databaseImplementationContent c)),
         .writeFile (filepathJoin [g.projectPath, "internal/repository/user.go"])
           (render c (repositoriesContent c)),
         .writeFile (filepathJoin [g.projectPath, "internal/models/models.go"])
           (render c (modelsContent c))] := by
      unfold databasePlan
      rw [hdis]
      rfl
    have hsub : ∀ op ∈ databasePlan g c, op ∈ generatePlan g c := by
      intro op hop
      unfold generatePlan
      simp only [List.mem_append]
      exact Or.inl (Or.inl (Or.inr hop))
    refine ⟨hsub _ ?_, hsub _ ?_, hsub _ ?_⟩ <;> rw [hplan] <;> simp

/-- C20 at work: scenario A and an echo project named "billing" with MySQL. -/
theorem database_common_files_equal_witness :
    render scenarioA (databaseInterfaceContent scenarioA) =
      render { scenarioA with Name := "billing", Framework := "echo", Database := "MySQL",
                              EnableGRPC := false }
        (databaseInterfaceContent
          { scenarioA with Name := "billing", Framework := "echo", Database := "MySQL",
                           EnableGRPC := false }) :=
  (database_common_files_equal (New "/srv/orders") scenarioA
    { scenarioA with Name := "billing", Framework := "echo", Database := "MySQL",
                     EnableGRPC := false } rfl (by decide) (by decide)).1

/-! ## Paths: cleaned paths as stacks of elements -/

theorem filepathClean_eq_renderPath (s : String) (hs : s.data ≠ []) :
    filepathClean s = renderPath (isRooted s.data) (elemsOf s) := by
  unfold filepathClean renderPath elemsOf isRooted
  simp only [hs, if_false]

theorem isRooted_append (a b : List Char) (ha : a ≠ []) : isRooted (a ++ b) = isRooted a := by
  cases a with
  | nil => exact absurd rfl ha
  | cons c cs => simp [isRooted, startsWith]

theorem filepathJoin_pair_of_ne (p rel : String) (hp : p.data ≠ []) (hrel : rel.data ≠ []) :
    filepathJoin [p, rel] =
      renderPath (isRooted p.data) (cleanElems (isRooted p.data) (elemsOf p) (splitSep rel.data)) := by
  have hne : p.data ++ '/' :: rel.data ≠ [] := by simp
  unfold filepathJoin
  simp only [List.filter, hp, hrel, ne_eq, not_false_eq_true, decide_True, List.map, joinSep]
  rw [filepathClean_eq_renderPath _ hne]
  simp only [elemsOf, hne, hp, if_false, isRooted_append _ _ hp, splitSep_append,
    cleanElems_append]

theorem filepathJoin_pair_of_empty (p rel : String) (hp : p.data = []) (hrel : rel.data ≠ [])
    (hrooted : isRooted rel.data = false) :
    filepathJoin [p, rel] = renderPath false (cleanElems false [] (splitSep rel.data)) := by
  unfold filepathJoin
  simp only [List.filter, hp, hrel, ne_eq, not_true_eq_false, decide_False, not_false_eq_true,
    decide_True, List.map, joinSep]
  rw [filepathClean_eq_renderPath _ hrel]
  simp only [elemsOf, hrel, if_false, hrooted]

/-- Joining a relative path onto a project path pushes its elements onto the
cleaned elements of the project path. -/
theorem filepathJoin_pair (p rel : String) (hrel : rel.data ≠ [])
    (hrooted : isRooted rel.data = false) :
    filepathJoin [p, rel] =
      renderPath (isRooted p.data) (cleanElems (isRooted p.data) (elemsOf p) (splitSep rel.data)) := by
  by_cases hp : p.data = []
  · rw [filepathJoin_pair_of_empty p rel hp hrel hrooted]
    simp [elemsOf, hp, isRooted, startsWith]
  · exact filepathJoin_pair_of_ne p rel hp hrel

theorem norm_step (r : Bool) (acc : List (List Char)) (e : List Char) (he : '/' ∉ e)
    (h : Norm r acc) : Norm r (cleanElems r acc [e]) := by
  by_cases h1 : e = [] ∨ e = ['.']
  · simpa [cleanElems, h1] using h
  · have h1a : e ≠ [] := fun x => h1 (Or.inl x)
    have h1b : e ≠ ['.'] := fun x => h1 (Or.inr x)
    by_cases h2 : e = ['.', '.']
    · subst h2
      cases acc with
      | nil => cases r <;> simp [cleanElems, Norm]
      | cons a as =>
        by_cases h3 : a = ['.', '.']
        · subst h3
          obtain ⟨_, _, _, h4, h5⟩ := h
          obtain ⟨hr, hall⟩ := h4 rfl
          simp only [cleanElems, h1, if_false, if_true]
          refine ⟨by simp, by simp, by simp, fun _ => ⟨hr, ?_⟩, by simp, by simp, by simp,
            fun _ => ⟨hr, hall⟩, h5⟩
          intro x hx
          rcases List.mem_cons.1 hx with rfl | hx
          · rfl
          · exact hall x hx
        · simp only [cleanElems, h1, h3, if_false, if_true]
          exact h.2.2.2.2
    · simp only [cleanElems, h1, h2, if_false]
      exact ⟨h1a, h1b, he, fun x => absurd x h2, h⟩

theorem norm_cleanElems (r : Bool) (xs : List (List Char)) :
    ∀ acc, (∀ e ∈ xs, '/' ∉ e) → Norm r acc → Norm r (cleanElems r acc xs) := by
  induction xs with
  | nil => intro acc _ h; exact h
  | cons e es ih =>
    intro acc hx h
    rw [cleanElems_cons]
    exact ih _ (fun x hx2 => hx x (List.mem_cons_of_mem _ hx2))
      (norm_step r acc e (hx e (List.mem_cons_self _ _)) h)

theorem norm_elemsOf (p : String) : Norm (isRooted p.data) (elemsOf p) := by
  unfold elemsOf
  split
  · trivial
  · exact norm_cleanElems _ _ _ (splitSep_no_sep _) trivial

theorem norm_mem (r : Bool) (acc : List (List Char)) (h : Norm r acc) :
    ∀ e ∈ acc, e ≠ [] ∧ '/' ∉ e := by
  induction acc with
  | nil => simp
  | cons a as ih =>
    intro e he
    rcases List.mem_cons.1 he with rfl | he
    · exact ⟨h.1, h.2.2.1⟩
    · exact ih h.2.2.2.2 e he

theorem splitSep_joinSep (xs : List (List Char)) (hne : xs ≠ []) (h : ∀ e ∈ xs, '/' ∉ e) :
    splitSep (joinSep xs) = xs := by
  induction xs with
  | nil => exact absurd rfl hne
  | cons e es ih =>
    cases es with
    | nil => exact splitSep_of_not_mem e (h e (List.mem_cons_self _ _))
    | cons e2 es2 =>
      show splitSep (e ++ '/' :: joinSep (e2 :: es2)) = _
      rw [splitSep_append, splitSep_of_not_mem e (h e (List.mem_cons_self _ _)),
        ih (by simp) (fun x hx => h x (List.mem_cons_of_mem _ hx))]
      rfl

theorem cleanElems_reverse (r : Bool) (acc : List (List Char)) (h : Norm r acc) :
    cleanElems r [] acc.reverse = acc := by
  induction acc with
  | nil => rfl
  | cons e as ih =>
    obtain ⟨h1, h2, h3, h4, h5⟩ := h
    rw [List.reverse_cons, cleanElems_append, ih h5]
    by_cases hd : e = ['.', '.']
    · subst hd
      obtain ⟨hr, hall⟩ := h4 rfl
      subst hr
      cases as with
      | nil => simp [cleanElems]
      | cons a as2 =>
        have ha : a = ['.', '.'] := hall a (List.mem_cons_self _ _)
        subst ha
        simp [cleanElems]
    · exact cleanElems_name r as e ⟨h1, h2, hd, h3⟩

theorem joinSep_eq_nil (xs : List (List Char)) (h : ∀ e ∈ xs, e ≠ []) (hj : joinSep xs = []) :
    xs = [] := by
  cases xs with
  | nil => rfl
  | cons e es =>
    exfalso
    have he := h e (List.mem_cons_self _ _)
    cases es with
    | nil => exact he hj
    | cons e2 es2 =>
      have : e ++ '/' :: joinSep (e2 :: es2) = [] := hj
      simp at this

theorem isRooted_joinSep (xs : List (List Char)) (h : ∀ e ∈ xs, e ≠ [] ∧ '/' ∉ e) :
    isRooted (joinSep xs) = false := by
  cases xs with
  | nil => rfl
  | cons e es =>
    obtain ⟨he, hs⟩ := h e (List.mem_cons_self _ _)
    cases e with
    | nil => exact absurd rfl he
    | cons c cs =>
      have hc : c ≠ '/' := fun x => hs (by simp [x])
      have hc2 : ¬ ('/' = c) := fun x => hc x.symm
      cases es with
      | nil => simp [joinSep, isRooted, startsWith, hc2]
      | cons e2 es2 => simp [joinSep, isRooted, startsWith, hc2]

/-- Cleaning a cleaned path gives back its elements. -/
theorem elemsOf_renderPath (r : Bool) (acc : List (List Char)) (h : Norm r acc) :
    isRooted (renderPath r acc).data = r ∧ elemsOf (renderPath r acc) = acc ∧
    (renderPath r acc).data ≠ [] := by
  have hmem := norm_mem r acc h
  have hrev : ∀ e ∈ acc.reverse, e ≠ [] ∧ '/' ∉ e := fun e he => hmem e (List.mem_reverse.1 he)
  have hclean : cleanElems r [] (splitSep (joinSep acc.reverse)) = acc := by
    by_cases hacc : acc = []
    · subst hacc
      cases r <;> rfl
    · rw [splitSep_joinSep _ (by simpa using hacc) (fun e he => (hrev e he).2)]
      exact cleanElems_reverse r acc h
  cases r with
  | true =>
    have hd : (renderPath true acc).data = '/' :: joinSep acc.reverse := by simp [renderPath]
    refine ⟨by rw [hd]; rfl, ?_, by rw [hd]; simp⟩
    unfold elemsOf
    rw [hd]
    simp only [List.cons_ne_nil, if_false]
    have : isRooted ('/' :: joinSep acc.reverse) = true := rfl
    rw [this]
    simp only [splitSep, if_true]
    rw [cleanElems_cons]
    simpa [cleanElems] using hclean
  | false =>
    by_cases hj : joinSep acc.reverse = []
    · have hacc : acc = [] := by
        have := joinSep_eq_nil _ (fun e he => (hrev e he).1) hj
        simpa using this
      subst hacc
      exact ⟨rfl, rfl, by decide⟩
    · have hd : (renderPath false acc).data = joinSep acc.reverse := by simp [renderPath, hj]
      have hroot : isRooted (joinSep acc.reverse) = false := isRooted_joinSep _ hrev
      refine ⟨by rw [hd]; exact hroot, ?_, by rw [hd]; exact hj⟩
      unfold elemsOf
      rw [hd]
      simp only [hj, if_false, hroot]
      exact hclean

theorem dirChain_mem (rest : List Char) :
    ∀ (x pre : List Char), pre.reverse ++ x ≠ [] →
      (⟨pre.reverse ++ x⟩ : String) ∈ dirChain pre x ∧
      (⟨pre.reverse ++ x⟩ : String) ∈ dirChain pre (x ++ '/' :: rest) := by
  intro x
  induction x with
  | nil =>
    intro pre h
    have hp : pre ≠ [] := by simpa using h
    simp [dirChain, hp]
  | cons c cs ih =>
    intro pre h
    have h2 : (c :: pre).reverse ++ cs ≠ [] := by simp
    have e : (c :: pre).reverse ++ cs = pre.reverse ++ c :: cs := by simp
    obtain ⟨i1, i2⟩ := ih (c :: pre) h2
    rw [e] at i1 i2
    constructor
    · unfold dirChain
      split
      · exact List.mem_cons_of_mem _ i1
      · exact i1
    · rw [List.cons_append]
      unfold dirChain
      split
      · exact List.mem_cons_of_mem _ i2
      · exact i2

/-- `os.MkdirAll` makes sure of the path it is given. -/
theorem dirChain_self (q : String) (h : q.data ≠ []) : q ∈ dirChain [] q.data := by
  have := (dirChain_mem [] q.data [] (by simpa using h)).1
  simpa using this

/-- `os.MkdirAll` makes sure of the directory above the last element. -/
theorem dirChain_parent (x rest : List Char) (h : x ≠ []) :
    (⟨x⟩ : String) ∈ dirChain [] (x ++ '/' :: rest) := by
  have := (dirChain_mem rest x [] (by simpa using h)).2
  simpa using this

theorem filepathClean_ne (s : String) : (filepathClean s).data ≠ [] := by
  unfold filepathClean
  split
  · decide
  · dsimp only
    split
    · simp
    · split
      · decide
      · assumption

theorem filepathJoin_ne (p rel : String) (h : rel.data ≠ []) :
    (filepathJoin [p, rel]).data ≠ [] := by
  unfold filepathJoin
  by_cases hp : p.data = []
  · simp only [List.filter, hp, h, ne_eq, not_true_eq_false, decide_False, not_false_eq_true,
      decide_True]
    exact filepathClean_ne _
  · simp only [List.filter, hp, h, ne_eq, not_false_eq_true, decide_True]
    exact filepathClean_ne _

theorem makesDir_of_mem (ops : List FsOp) (q : String) (hq : q.data ≠ [])
    (h : FsOp.mkdirAll q ∈ ops) : makesDir ops q = true := by
  induction ops with
  | nil => cases h
  | cons op ops ih =>
    rcases List.mem_cons.1 h with heq | h2
    · subst heq
      simp [makesDir, dirChain_self q hq]
    · cases op <;> simp [makesDir, ih h2]

theorem makesDir_append (a b : List FsOp) (q : String) :
    makesDir (a ++ b) q = (makesDir a q || makesDir b q) := by
  induction a with
  | nil => simp [makesDir]
  | cons op ops ih => cases op <;> simp [makesDir, ih, Bool.or_assoc]

/-! ## Running in any environment -/

theorem follows_retNil (env : Env) : Follows env retNil [] := fun _ => Or.inl ⟨rfl, rfl⟩

theorem follows_syscall (env : Env) (op : FsOp) : Follows env (syscall env op) [op] := by
  intro w
  cases h : env.fault w.fs op with
  | none =>
    left
    simp [syscall, h, World.run]
  | some err =>
    right
    refine ⟨[], op, [], rfl, ?_, ?_, ?_⟩
    · simp [syscall, h]
    · simp [World.run, h]
    · simp [syscall, h, World.run]

theorem follows_check {env : Env} {a rest : Act} {f : GoError → GoError} {A B : List FsOp}
    (ha : Follows env a A) (hr : Follows env rest B) : Follows env (check a f rest) (A ++ B) := by
  intro w
  rcases ha w with ⟨h1, h2⟩ | ⟨pre, op, post, hA, h1, hf, h2⟩
  · have hc : check a f rest w = rest (w.run A) := by
      unfold check
      cases haw : a w with
      | mk r w1 =>
        rw [haw] at h1 h2
        dsimp only at h1 h2
        subst h1
        subst h2
        rfl
    rw [hc]
    rcases hr (w.run A) with ⟨h3, h4⟩ | ⟨pre, op, post, hB, h3, hf, h4⟩
    · left
      exact ⟨h3, by rw [h4, World.run_append]⟩
    · right
      refine ⟨A ++ pre, op, post, by rw [hB, List.append_assoc], h3, ?_, ?_⟩
      · rw [World.run_append]; exact hf
      · rw [h4, World.run_append, World.run_log]
        simp only [List.append_assoc]
  · right
    refine ⟨pre, op, post ++ B, by rw [hA]; simp, ?_, hf, ?_⟩
    · unfold check
      cases haw : a w with
      | mk r w1 =>
        rw [haw] at h1
        cases r with
        | none => exact absurd rfl h1
        | some e => simp
    · unfold check
      cases haw : a w with
      | mk r w1 =>
        rw [haw] at h1 h2
        cases r with
        | none => exact absurd rfl h1
        | some e => exact h2

theorem follows_check_nil {env : Env} {a : Act} {f : GoError → GoError} {A : List FsOp}
    (ha : Follows env a A) : Follows env (check a f retNil) A := by
  simpa using follows_check (f := f) ha (follows_retNil env)

theorem follows_write (env : Env) (path data : String) :
    Follows env (osWriteFile env path data) [.writeFile path data] := follows_syscall env _

theorem follows_mkdir (env : Env) (path : String) :
    Follows env (osMkdirAll env path) [.mkdirAll path] := follows_syscall env _

theorem follows_createDirs (env : Env) (g : Generator) (dirs : List String) :
    Follows env (createDirs env g dirs)
      (dirs.map (fun dir => FsOp.mkdirAll (filepathJoin [g.projectPath, dir]))) := by
  induction dirs with
  | nil => exact follows_retNil env
  | cons d ds ih => exact follows_check (follows_mkdir env _) ih

theorem follows_generateDatabaseLayer (env : Env) (g : Generator) (config : ProjectConfig) :
    Follows env (generateDatabaseLayer env g config) (databasePlan g config) := by
  unfold generateDatabaseLayer databasePlan dbDisabled
  split
  · exact follows_retNil env
  · exact follows_check (follows_write env _ _) <| follows_check (follows_write env _ _) <|
      follows_check (follows_write env _ _) <| follows_check_nil (follows_write env _ _)

theorem follows_generateGRPC (env : Env) (g : Generator) (config : ProjectConfig) :
    Follows env (generateGRPC env g config) (grpcPlan g config) := by
  unfold generateGRPC grpcPlan generateProtoFile generateGRPCServer generateGRPCClient
    generateProtoMakefile
  exact follows_check (follows_check (follows_mkdir env _) (follows_write env _ _)) <|
    follows_check (follows_check (follows_mkdir env _) (follows_write env _ _)) <|
    follows_check (follows_write env _ _) <|
    follows_check_nil (follows_check (follows_mkdir env _) (follows_write env _ _))

/-- In every environment `Generate` follows its plan. -/
theorem follows_Generate (env : Env) (g : Generator) (config : ProjectConfig) :
    Follows env (Generate env g config) (generatePlan g config) := by
  have hgrpc : Follows env
      (if config.EnableGRPC then
        check (generateGRPC env g config) (GoError.wrap "ошибка создания gRPC: ") retNil
       else retNil)
      (if config.EnableGRPC then grpcPlan g config else []) := by
    split
    · exact follows_check_nil (follows_generateGRPC env g config)
    · exact follows_retNil env
  have hdocker : Follows env (generateDockerFiles env g config) _ :=
    follows_check (follows_write env _ _) <| follows_check (follows_write env _ _) <|
      follows_check_nil (follows_write env _ _)
  have hhandlers : Follows env (generateHandlers env g config) _ :=
    follows_check (follows_write env _ _) <| follows_check (follows_write env _ _) <|
      follows_check_nil (follows_write env _ _)
  have hmain : Follows env (generateMainFiles env g config) _ :=
    follows_check (follows_write env _ _) <|
      follows_check (follows_check (follows_mkdir env _) (follows_write env _ _)) <|
      follows_check (follows_write env _ _) <| follows_check_nil (follows_write env _ _)
  have hconfig : Follows env (generateConfig env g config) _ :=
    follows_check (follows_write env _ _) <| follows_check_nil (follows_write env _ _)
  have hall := follows_check (f := GoError.wrap "ошибка создания структуры директорий: ")
    (follows_createDirs env g skeletonDirs) <|
    follows_check (f := GoError.wrap "ошибка создания go.mod: ")
      (follows_write env (filepathJoin [g.projectPath, "go.mod"])
        (render config (goModContent config))) <|
    follows_check (f := GoError.wrap "ошибка создания конфига: ") hconfig <|
    follows_check (f := GoError.wrap "ошибка создания основных файлов: ") hmain <|
    follows_check (f := GoError.wrap "ошибка создания handlers: ") hhandlers <|
    follows_check (f := GoError.wrap "ошибка создания слоя БД: ")
      (follows_generateDatabaseLayer env g config) <|
    follows_check (f := id) hgrpc <|
    follows_check (f := GoError.wrap "ошибка создания Docker файлов: ") hdocker <|
    follows_check_nil (f := GoError.wrap "ошибка создания Makefile: ")
      (follows_write env (filepathJoin [g.projectPath, "Makefile"])
        (render config (makefileContent config)))
  intro w
  have := hall w
  simpa [Generate, createDirectoryStructure, generatePlan, List.append_assoc] using this

/-- In every environment the system calls of a run are a beginning of the plan. -/
theorem generate_log_prefix (env : Env) (g : Generator) (config : ProjectConfig) (w : World) :
    ∃ ops post, generatePlan g config = ops ++ post ∧
      (Generate env g config w).2.log = w.log ++ ops := by
  rcases follows_Generate env g config w with ⟨_, h2⟩ | ⟨pre, op, post, hp, _, _, h2⟩
  · exact ⟨generatePlan g config, [], by simp, by rw [h2, World.run_log]⟩
  · exact ⟨pre ++ [op], post, by rw [hp]; simp, by rw [h2]; simp⟩

/-! ## Paths: the directory of a path under the project path -/

theorem cleanElems_names (r : Bool) (names : List (List Char)) :
    ∀ acc, (∀ e ∈ names, IsName e) → cleanElems r acc names = names.reverse ++ acc := by
  induction names with
  | nil => intro acc _; rfl
  | cons e es ih =>
    intro acc h
    rw [cleanElems_cons, cleanElems_name r acc e (h e (List.mem_cons_self _ _)),
      ih _ (fun x hx => h x (List.mem_cons_of_mem _ hx))]
    simp

theorem names_relative (rel : String) (h : ∀ e ∈ splitSep rel.data, IsName e) :
    rel.data ≠ [] ∧ isRooted rel.data = false := by
  cases hd : rel.data with
  | nil =>
    rw [hd] at h
    exact absurd rfl (h [] (by simp [splitSep])).1
  | cons c cs =>
    refine ⟨by simp, ?_⟩
    by_cases hc : c = '/'
    · rw [hd, hc] at h
      exact absurd rfl (h [] (by simp [splitSep])).1
    · have hc2 : ¬ ('/' = c) := fun x => hc x.symm
      simp [isRooted, startsWith, hc2]

theorem filepathJoin_names (p rel : String) (h : ∀ e ∈ splitSep rel.data, IsName e) :
    filepathJoin [p, rel] = under p (splitSep rel.data) := by
  obtain ⟨h1, h2⟩ := names_relative rel h
  rw [filepathJoin_pair p rel h1 h2, cleanElems_names _ _ _ h]
  rfl

theorem norm_under (p : String) (names : List (List Char)) (h : ∀ e ∈ names, IsName e) :
    Norm (isRooted p.data) (names.reverse ++ elemsOf p) := by
  rw [← cleanElems_names (isRooted p.data) names (elemsOf p) h]
  exact norm_cleanElems _ _ _ (fun e he => (h e he).2.2.2) (norm_elemsOf p)

theorem filepathJoin_under (p : String) (names : List (List Char)) (rel : String)
    (hn : ∀ e ∈ names, IsName e) (h : ∀ e ∈ splitSep rel.data, IsName e) :
    filepathJoin [under p names, rel] = under p (names ++ splitSep rel.data) := by
  obtain ⟨h1, h2, h3⟩ := elemsOf_renderPath _ _ (norm_under p names hn)
  unfold under
  rw [filepathJoin_pair_of_ne _ rel h3 (names_relative rel h).1, h1, h2,
    cleanElems_names _ _ _ h]
  simp

theorem under_nil (p : String) : under p [] = filepathClean p := by
  unfold under
  by_cases hp : p.data = []
  · cases p with
    | mk d =>
      simp only at hp
      subst hp
      rfl
  · rw [filepathClean_eq_renderPath p hp]
    rfl

theorem dropWhile_append_all {α : Type} (q : α → Bool) (a b : List α)
    (h : ∀ x ∈ a, q x = true) : (a ++ b).dropWhile q = b.dropWhile q := by
  induction a with
  | nil => rfl
  | cons x xs ih =>
    rw [List.cons_append, List.dropWhile_cons, if_pos (h x (List.mem_cons_self _ _))]
    exact ih (fun y hy => h y (List.mem_cons_of_mem _ hy))

theorem dirPrefix_append (x f : List Char) (hf : '/' ∉ f) :
    ((x ++ '/' :: f).reverse.dropWhile (fun c => c ≠ '/')).reverse = x ++ ['/'] := by
  have e : (x ++ '/' :: f).reverse = f.reverse ++ '/' :: x.reverse := by simp
  rw [e, dropWhile_append_all]
  · simp [List.dropWhile]
  · intro c hc
    have : c ≠ '/' := fun h => hf (by rw [← h]; exact List.mem_reverse.1 hc)
    simpa using this

theorem dirPrefix_name (f : List Char) (hf : '/' ∉ f) :
    (f.reverse.dropWhile (fun c => c ≠ '/')).reverse = [] := by
  have e : f.reverse = f.reverse ++ [] := by simp
  rw [e, dropWhile_append_all]
  · rfl
  · intro c hc
    have : c ≠ '/' := fun h => hf (by rw [← h]; exact List.mem_reverse.1 hc)
    simpa using this

theorem renderPath_cons_data (r : Bool) (acc : List (List Char)) (f : List Char)
    (hn : Norm r acc) (hacc : acc ≠ []) :
    (renderPath r (f :: acc)).data = (renderPath r acc).data ++ '/' :: f := by
  have hrev : acc.reverse ≠ [] := by simpa using hacc
  have hj : joinSep (f :: acc).reverse = joinSep acc.reverse ++ '/' :: f := by
    rw [List.reverse_cons, joinSep_snoc, if_neg hrev]
  have hne : joinSep acc.reverse ≠ [] := fun h =>
    hrev (joinSep_eq_nil _ (fun e he => (norm_mem r acc hn e (List.mem_reverse.1 he)).1) h)
  unfold renderPath
  rw [hj]
  cases r with
  | true => simp
  | false => simp [hne]

/-- The directory of a cleaned path with a name as its last element is the
cleaned path without that element. -/
theorem filepathDir_renderPath (r : Bool) (acc : List (List Char)) (f : List Char)
    (hf : IsName f) (hn : Norm r acc) : filepathDir (renderPath r (f :: acc)) = renderPath r acc := by
  have hs : '/' ∉ f := hf.2.2.2
  by_cases hacc : acc = []
  · subst hacc
    unfold filepathDir
    cases r with
    | true =>
      have hd : (renderPath true [f]).data = [] ++ '/' :: f := by simp [renderPath, joinSep]
      rw [hd, dirPrefix_append _ _ hs]
      rfl
    | false =>
      have hd : (renderPath false [f]).data = f := by simp [renderPath, joinSep, hf.1]
      rw [hd, dirPrefix_name _ hs]
      rfl
  · obtain ⟨h1, h2, h3⟩ := elemsOf_renderPath r acc hn
    unfold filepathDir
    rw [renderPath_cons_data r acc f hn hacc, dirPrefix_append _ _ hs]
    have hne : (⟨(renderPath r acc).data ++ ['/']⟩ : String).data ≠ [] := by simp
    rw [filepathClean_eq_renderPath _ hne]
    have hroot : isRooted ((renderPath r acc).data ++ ['/']) = r := by
      rw [isRooted_append _ _ h3, h1]
    have helems : elemsOf ⟨(renderPath r acc).data ++ ['/']⟩ = acc := by
      unfold elemsOf
      simp only [hne, if_false]
      rw [hroot, splitSep_append, cleanElems_append]
      unfold elemsOf at h2
      simp only [h3, if_false, h1] at h2
      rw [h2]
      simp [splitSep, cleanElems]
    simp only [hroot, helems]

theorem filepathDir_under (p : String) (names : List (List Char)) (f : List Char)
    (hn : ∀ e ∈ names, IsName e) (hf : IsName f) :
    filepathDir (under p (names ++ [f])) = under p names := by
  unfold under
  rw [List.reverse_append, List.reverse_singleton, List.singleton_append, List.cons_append]
  exact filepathDir_renderPath _ _ f hf (norm_under p names hn)

/-- The cleaned project path is there once a directory right under it has
been made. -/
theorem root_exists (p : String) (f : List Char) (fs : FS)
    (h : ∀ q, q ∈ dirChain [] (under p [f]).data → fs.dirs q = true) :
    DirExists fs (filepathClean p) := by
  rw [← under_nil]
  by_cases hacc : elemsOf p = []
  · right
    unfold under
    rw [hacc]
    cases isRooted p.data
    · left; rfl
    · right; rfl
  · left
    apply h
    have hn := norm_elemsOf p
    have hd : (under p [f]).data = (under p []).data ++ '/' :: f := by
      unfold under
      exact renderPath_cons_data _ _ f hn hacc
    rw [hd]
    obtain ⟨_, _, h3⟩ := elemsOf_renderPath _ _ hn
    have := dirChain_parent (under p []).data f h3
    simpa using this

theorem filepathDir_join (p rel : String) (names : List (List Char)) (f : List Char)
    (hsplit : splitSep rel.data = names ++ [f]) (hn : ∀ e ∈ names ++ [f], IsName e) :
    filepathDir (filepathJoin [p, rel]) = under p names := by
  rw [filepathJoin_names p rel (by rw [hsplit]; exact hn), hsplit]
  exact filepathDir_under p names f (fun e he => hn e (List.mem_append_left _ he))
    (hn f (by simp))

/-- The directory of a file right under the project path is the cleaned
project path. -/
theorem filepathDir_join_root (p rel : String) (h : IsName rel.data) :
    filepathDir (filepathJoin [p, rel]) = filepathClean p := by
  rw [← under_nil]
  refine filepathDir_join p rel [] rel.data ?_ ?_
  · rw [splitSep_of_not_mem _ h.2.2.2]; rfl
  · intro e he
    simp only [List.nil_append, List.mem_singleton] at he
    rw [he]; exact h

/-- The directory of a file in a directory under the project path, when the
file is named by one relative path. -/
theorem filepathDir_join_dir (p rel dir : String) (f : List Char)
    (hsplit : splitSep rel.data = splitSep dir.data ++ [f])
    (hn : ∀ e ∈ splitSep dir.data ++ [f], IsName e) :
    filepathDir (filepathJoin [p, rel]) = filepathJoin [p, dir] := by
  rw [filepathDir_join p rel _ f hsplit hn,
    filepathJoin_names p dir (fun e he => hn e (List.mem_append_left _ he))]

/-- The directory of a file joined onto a directory under the project path. -/
theorem filepathDir_join_nested (p dir b : String) (hd : ∀ e ∈ splitSep dir.data, IsName e)
    (hb : IsName b.data) :
    filepathDir (filepathJoin [filepathJoin [p, dir], b]) = filepathJoin [p, dir] := by
  have hsb : splitSep b.data = [b.data] := splitSep_of_not_mem _ hb.2.2.2
  rw [filepathJoin_names p dir hd,
    filepathJoin_under p _ b hd (by rw [hsb]; intro e he; rw [List.mem_singleton.1 he]; exact hb),
    hsb]
  exact filepathDir_under p _ _ hd hb

/-! ## C21: the database implementation and its interface -/

theorem interface_methods (config : ProjectConfig) :
    interfaceMethods "Database" (databaseInterfaceContent config) =
      [lit "Connect() error", lit "Close() error", lit "Ping() error",
       lit "BeginTx(ctx context.Context) (Tx, error)", lit "Migrate() error",
       lit "Stats() Stats"] ∧
    interfaceMethods "Tx" (databaseInterfaceContent config) =
      [lit "Commit() error", lit "Rollback() error", lit "Context() context.Context"] := by
  unfold databaseInterfaceContent
  constructor <;> decide!

theorem variants_implement (config : ProjectConfig) :
    ∀ v ∈ databaseVariants config,
      implementsInterfaces (databaseInterfaceContent config) v = true := by
  unfold databaseVariants databaseInterfaceContent generatePostgreSQLImplementation
    generateMySQLImplementation generateMongoDBImplementation generateSQLiteImplementation
  decide!

/-- C21: the `Database` interface of interface.go declares Connect, Close,
Ping, BeginTx, Migrate and Stats and the `Tx` interface Commit, Rollback and
Context; each of the four implementations defines all of them, with the
declared signatures, on its database type and on its transaction type, and one
constructor `New(cfg *config.Config) (Database, error)`; and database.go is
always one of the four. -/
theorem database_implements_interface (config : ProjectConfig) :
    (interfaceMethods "Database" (databaseInterfaceContent config)).map (upTo '(') =
      [lit "Connect", lit "Close", lit "Ping", lit "BeginTx", lit "Migrate", lit "Stats"] ∧
    (interfaceMethods "Tx" (databaseInterfaceContent config)).map (upTo '(') =
      [lit "Commit", lit "Rollback", lit "Context"] ∧
    (∀ v ∈ databaseVariants config,
      implementsInterfaces (databaseInterfaceContent config) v = true) ∧
    (∃ v ∈ databaseVariants config, databaseImplementationContent config = v.1) ∧
    databaseImplementationContent { config with Database := "postgresql" } =
      generatePostgreSQLImplementation config ∧
    databaseImplementationContent { config with Database := "mysql" } =
      generateMySQLImplementation config ∧
    databaseImplementationContent { config with Database := "mongodb" } =
      generateMongoDBImplementation config ∧
    databaseImplementationContent { config with Database := "in-memory" } =
      generateSQLiteImplementation config := by
  refine ⟨?_, ?_, variants_implement config, ?_, rfl, rfl, rfl, rfl⟩
  · rw [(interface_methods config).1]
    decide
  · rw [(interface_methods config).2]
    decide
  · unfold databaseImplementationContent databaseVariants
    split_ifs
    · exact ⟨(generatePostgreSQLImplementation config, "(p *PostgreSQLDatabase)",
        "(tx *PostgreSQLTx)"), by simp, rfl⟩
    · exact ⟨(generateMySQLImplementation config, "(m *MySQLDatabase)", "(tx *MySQLTx)"),
        by simp, rfl⟩
    · exact ⟨(generateMongoDBImplementation config, "(m *MongoDatabase)", "(tx *MongoTx)"),
        by simp, rfl⟩
    · exact ⟨(generateSQLiteImplementation config, "(s *SQLiteDatabase)", "(tx *SQLiteTx)"),
        by simp, rfl⟩
    · exact ⟨(generatePostgreSQLImplementation config, "(p *PostgreSQLDatabase)",
        "(tx *PostgreSQLTx)"), by simp, rfl⟩

/-! ## C22: the written paths are pairwise distinct -/

theorem startsWith_append_self {α : Type} [DecidableEq α] (a b : List α) :
    startsWith a (a ++ b) = true := by
  induction a with
  | nil => cases b <;> rfl
  | cons x xs ih => simp [startsWith, ih]

theorem endsWith_append_self (l s : List Char) : endsWith s (l ++ s) = true := by
  unfold endsWith
  rw [List.reverse_append]
  exact startsWith_append_self _ _

theorem not_mem_of_endsWith (s l : List Char) (cs : List (List Char))
    (h : ∀ c ∈ cs, endsWith s c = false) : l ++ s ∉ cs := by
  intro hm
  have hc := h _ hm
  rw [endsWith_append_self] at hc
  exact Bool.noConfusion hc

theorem nodup_with_extra {α : Type} (a d b c : List α) (x : α) (hx : x ∉ a ++ d ++ b ++ c)
    (h : (a ++ d ++ b ++ c).Nodup) : (a ++ d ++ (x :: b) ++ c).Nodup := by
  have e1 : a ++ d ++ (x :: b) ++ c = (a ++ d) ++ x :: (b ++ c) := by simp
  have e2 : a ++ d ++ b ++ c = (a ++ d) ++ (b ++ c) := by simp
  rw [e1, List.nodup_middle, List.nodup_cons]
  rw [e2] at hx h
  exact ⟨hx, h⟩

theorem planBaseNames_nodup (config : ProjectConfig) : (planBaseNames config).Nodup := by
  unfold planBaseNames
  cases config.EnableGRPC with
  | false =>
    cases dbDisabled config <;> simp only [if_true, Bool.false_eq_true, if_false] <;> decide
  | true =>
    cases dbDisabled config <;> simp only [if_true, Bool.false_eq_true, if_false] <;>
      refine nodup_with_extra _ _ _ _ _ (not_mem_of_endsWith _ _ _ (by decide)) (by decide)

theorem writtenPaths_nodup (g : Generator) (config : ProjectConfig) :
    (writtenPaths (generatePlan g config)).Nodup :=
  List.Nodup.of_map baseOf (by rw [map_baseOf_writtenPaths]; exact planBaseNames_nodup config)

/-- C22: the paths of the files written by one run of `Generate` are pairwise
distinct, for every configuration (also one whose name is empty or has a
separator in it): the plan of a run writes no path twice, so every path of
the plan is written exactly once and the groups of files of the renderers
(source files, database files, gRPC files, deployment files) have no path in
common; when no system call fails the calls of the run are those of the plan,
and in any environment they are a beginning of the plan, so that the paths
written are pairwise distinct there too. -/
theorem written_paths_distinct (env : Env) (g : Generator) (config : ProjectConfig) (w : World) :
    (writtenPaths (generatePlan g config)).Nodup ∧
    (∀ path ∈ writtenPaths (generatePlan g config),
      (writtenPaths (generatePlan g config)).count path = 1) ∧
    (sourceFiles g ++ (if dbDisabled config then [] else databaseFiles g) ++
      (if config.EnableGRPC then grpcFiles g config else []) ++ deployFiles g).Nodup ∧
    (env.noFault → (Generate env g config w).2.log = w.log ++ generatePlan g config) ∧
    ∃ ops, (Generate env g config w).2.log = w.log ++ ops ∧ ops <+: generatePlan g config ∧
      (writtenPaths ops).Nodup := by
  have hnd := writtenPaths_nodup g config
  refine ⟨hnd, fun path hp => List.count_eq_one_of_mem hnd hp, ?_, ?_, ?_⟩
  · rw [← writtenPaths_generatePlan]; exact hnd
  · intro h
    rw [isPlan_Generate h g config w, World.run_log]
  · obtain ⟨ops, post, hplan, hlog⟩ := generate_log_prefix env g config w
    refine ⟨ops, hlog, ⟨post, hplan.symm⟩, ?_⟩
    rw [hplan, writtenPaths_append] at hnd
    exact List.Nodup.of_append_left hnd

/-! ## C23: the application port -/

/-- C23: the app port of config.yaml, the port of its swagger host, the port of
the `@host` annotation of cmd/main.go, the port the Dockerfile exposes and the
first port mapping of docker-compose.yml and of the Makefile's `docker run`
all name port 8080, whatever the configuration. -/
theorem application_port_agreement (config : ProjectConfig) :
    applicationPorts config = List.replicate 8 (some (lit "8080")) := by
  have hyaml : yamlValue "app:" "port" (configYAMLContent config) = some (lit "8080") ∧
      (yamlValue "swagger:" "host" (configYAMLContent config)).map portOfHost
        = some (lit "8080") := by
    obtain ⟨name, moduleName, framework, database, grpc, path⟩ := config
    cases grpc <;> simp only [configYAMLContent, Bool.false_eq_true, reduceIte] <;>
      split_ifs <;> constructor <;> decide!
  have hmain : ((valuesWith (lit "// @host ") (linesOf (mainGoContent config))).head?).map
      portOfHost = some (lit "8080") := by
    unfold mainGoContent
    decide!
  have hdocker : (valuesWith (lit "EXPOSE ") (linesOf (dockerfileContent config))).head?
      = some (lit "8080") := by
    unfold dockerfileContent
    decide!
  simp only [applicationPorts, composeAppPorts_eq, makefileRunPorts_eq, List.head?_cons,
    Option.map_some', hyaml.1, hyaml.2, hmain, hdocker]
  decide

/-! ## C24: the directory skeleton -/

theorem createDirs_run (env : Env) (g : Generator)
    (hmk : ∀ fs path, env.fault fs (.mkdirAll path) = none) (dirs : List String) (w : World) :
    createDirs env g dirs w =
      (none, w.run (dirs.map (fun dir => FsOp.mkdirAll (filepathJoin [g.projectPath, dir])))) := by
  induction dirs generalizing w with
  | nil => rfl
  | cons d ds ih =>
    simp only [createDirs, check, osMkdirAll, syscall, hmk, List.map, World.run]
    exact ih _

theorem prefix_of_not_mem {α : Type} (s tail pre post : List α) (x : α) (hx : x ∉ s)
    (h : s ++ tail = pre ++ x :: post) : ∃ rest, pre = s ++ rest := by
  rcases List.append_eq_append_iff.1 h with ⟨a, ha, _⟩ | ⟨c, hc, hc2⟩
  · exact ⟨a, ha⟩
  · cases c with
    | nil => exact ⟨[], by simpa using hc.symm⟩
    | cons y ys =>
      exfalso
      have hy : x = y := by
        have := congrArg List.head? hc2
        simpa using this
      exact hx (by rw [hc, hy]; simp)

theorem skeleton_before_write (g : Generator) (config : ProjectConfig) (pre post : List FsOp)
    (path data : String) (h : generatePlan g config = pre ++ .writeFile path data :: post) :
    ∃ rest, pre = skeletonPlan g ++ rest := by
  have hplan : ∃ tail, generatePlan g config = skeletonPlan g ++ tail := by
    unfold generatePlan skeletonPlan
    exact ⟨_, by rw [List.append_assoc, List.append_assoc, List.append_assoc]⟩
  obtain ⟨tail, ht⟩ := hplan
  rw [ht] at h
  exact prefix_of_not_mem _ _ _ _ _ (by simp [skeletonPlan]) h

theorem skeletonDirs_ne : ∀ dir ∈ skeletonDirs, dir.data ≠ [] := by decide

theorem skeleton_dirs_after (g : Generator) (w : World) (rest : List FsOp) :
    ∀ dir ∈ skeletonDirs,
      FsOp.mkdirAll (filepathJoin [g.projectPath, dir]) ∈ skeletonPlan g ++ rest ∧
      (w.run (skeletonPlan g ++ rest)).fs.dirs (filepathJoin [g.projectPath, dir]) = true := by
  intro dir hdir
  have hmem : FsOp.mkdirAll (filepathJoin [g.projectPath, dir]) ∈ skeletonPlan g ++ rest :=
    List.mem_append_left _
      (List.mem_map_of_mem (fun dir => FsOp.mkdirAll (filepathJoin [g.projectPath, dir])) hdir)
  refine ⟨hmem, ?_⟩
  rw [run_dirs, makesDir_of_mem _ _ (filepathJoin_ne _ _ (skeletonDirs_ne dir hdir)) hmem,
    Bool.or_true]

/-- C24: when no directory creation fails, `createDirectoryStructure` returns
no error and afterwards each of the 14 skeleton directories, joined onto the
project path, is a directory; and in a run of `Generate`, in any environment,
every write of a file comes after the creation of all 14 directories, which
are there at that moment (the calls before a write of the record all took
effect, since `Generate` stops at the first call that fails). -/
theorem skeleton_created_first (env : Env) (g : Generator) (config : ProjectConfig) (w : World)
    (hmk : ∀ fs path, env.fault fs (.mkdirAll path) = none) :
    skeletonDirs = ["cmd", "internal/config", "internal/handlers", "internal/services",
      "internal/repository", "internal/models", "internal/middleware", "pkg/context",
      "pkg/logger", "pkg/database", "docs", "scripts", "deployments", "api/swagger"] ∧
    (createDirectoryStructure env g w).1 = none ∧
    (∀ dir ∈ skeletonDirs,
      (createDirectoryStructure env g w).2.fs.dirs (filepathJoin [g.projectPath, dir]) = true) ∧
    (∀ pre path data post,
      (Generate env g config w).2.log = w.log ++ pre ++ .writeFile path data :: post →
      ∀ dir ∈ skeletonDirs,
        FsOp.mkdirAll (filepathJoin [g.projectPath, dir]) ∈ pre ∧
        (w.run pre).fs.dirs (filepathJoin [g.projectPath, dir]) = true) := by
  have hrun : createDirectoryStructure env g w = (none, w.run (skeletonPlan g ++ [])) := by
    rw [List.append_nil]
    exact createDirs_run env g hmk skeletonDirs w
  refine ⟨rfl, by rw [hrun], ?_, ?_⟩
  · intro dir hdir
    rw [hrun]
    exact (skeleton_dirs_after g w [] dir hdir).2
  · intro pre path data post hlog dir hdir
    obtain ⟨ops, post2, hplan, hlog2⟩ := generate_log_prefix env g config w
    rw [hlog2, List.append_assoc] at hlog
    have hops := List.append_cancel_left hlog
    rw [hops, List.append_assoc, List.cons_append] at hplan
    obtain ⟨rest, hrest⟩ := skeleton_before_write g config pre _ path data hplan
    rw [hrest]
    exact skeleton_dirs_after g w rest dir hdir

/-- C24 at work: the skeleton of `/srv/orders` on the empty file system. -/
theorem skeleton_created_first_witness :
    (createDirectoryStructure okEnv (New "/srv/orders") emptyWorld).1 = none ∧
    ∀ dir ∈ skeletonDirs,
      (createDirectoryStructure okEnv (New "/srv/orders") emptyWorld).2.fs.dirs
        (filepathJoin [(New "/srv/orders").projectPath, dir]) = true :=
  ⟨(skeleton_created_first okEnv (New "/srv/orders") scenarioA emptyWorld (fun _ _ => rfl)).2.1,
   (skeleton_created_first okEnv (New "/srv/orders") scenarioA emptyWorld (fun _ _ => rfl)).2.2.1⟩

/-! ## C25: everything is created under the project path -/

/-- Joining onto a joined path is joining the two relative paths at once. -/
theorem filepathJoin_join (p a b : String) (ha : IsRelative a) (hb : b.data ≠ []) :
    filepathJoin [filepathJoin [p, a], b] = filepathJoin [p, a ++ "/" ++ b] ∧
    IsRelative (a ++ "/" ++ b) := by
  obtain ⟨ha1, ha2⟩ := ha
  have hdata : (a ++ "/" ++ b).data = a.data ++ '/' :: b.data := by
    simp [String.data_append]
  have hrel : IsRelative (a ++ "/" ++ b) := by
    constructor
    · rw [hdata]; simp
    · rw [hdata, isRooted_append _ _ ha1]; exact ha2
  refine ⟨?_, hrel⟩
  have hnorm : Norm (isRooted p.data)
      (cleanElems (isRooted p.data) (elemsOf p) (splitSep a.data)) :=
    norm_cleanElems _ _ _ (splitSep_no_sep _) (norm_elemsOf p)
  obtain ⟨h1, h2, h3⟩ := elemsOf_renderPath _ _ hnorm
  rw [filepathJoin_pair p (a ++ "/" ++ b) hrel.1 hrel.2, hdata, splitSep_append,
    cleanElems_append, filepathJoin_pair p a ha1 ha2,
    filepathJoin_pair_of_ne _ b h3 hb, h1, h2]

theorem path_irrelevant_plan (g : Generator) (config : ProjectConfig) (x : String) :
    generatePlan g { config with Path := x } = generatePlan g config := by
  unfold generatePlan databasePlan grpcPlan dbDisabled
  simp only [render_congr { config with Path := x } config _ rfl rfl]
  rfl

theorem path_irrelevant_run (env : Env) (g : Generator) (config : ProjectConfig) (x : String) :
    Generate env g { config with Path := x } = Generate env g config := by
  unfold Generate generateGoMod generateConfig generateConfigYAML generateConfigGo
    generateMainFiles generateMainGo generateAppGo generateContext generateLogger
    generateHandlers generateBaseHandler generateHealthHandler generateMiddleware
    generateDatabaseLayer generateDatabaseInterface generateDatabaseImplementation
    generateRepositories generateModels generateGRPC generateProtoFile generateGRPCServer
    generateGRPCClient generateProtoMakefile generateDockerFiles generateDockerfile
    generateDockerCompose generateDockerIgnore generateMakefile
  simp only [render_congr { config with Path := x } config _ rfl rfl]
  rfl

theorem forall_mem_cons_of {α : Type} {P : α → Prop} (a : α) (l : List α) (ha : P a)
    (hl : ∀ x ∈ l, P x) : ∀ x ∈ a :: l, P x := by
  intro x hx
  rcases List.mem_cons.1 hx with rfl | hx
  · exact ha
  · exact hl x hx

theorem forall_mem_nil_of {α : Type} {P : α → Prop} : ∀ x ∈ ([] : List α), P x :=
  fun _ hx => absurd hx (List.not_mem_nil _)

theorem forall_mem_append_of {α : Type} {P : α → Prop} (a b : List α) (ha : ∀ x ∈ a, P x)
    (hb : ∀ x ∈ b, P x) : ∀ x ∈ a ++ b, P x := by
  intro x hx
  rcases List.mem_append.1 hx with hx | hx
  · exact ha x hx
  · exact hb x hx

theorem joinSep_splitSep (cs : List Char) : joinSep (splitSep cs) = cs := by
  induction cs with
  | nil => rfl
  | cons c cs ih =>
    by_cases hc : c = '/'
    · subst hc
      cases hs : splitSep cs with
      | nil => exact absurd hs (splitSep_ne_nil cs)
      | cons x xs =>
        rw [hs] at ih
        simp only [splitSep, if_true, hs, joinSep, List.nil_append, ih]
    · cases hs : splitSep cs with
      | nil => exact absurd hs (splitSep_ne_nil cs)
      | cons x xs =>
        rw [hs] at ih
        simp only [splitSep, if_neg hc, hs]
        cases xs with
        | nil =>
          simp only [joinSep] at ih ⊢
          rw [ih]
        | cons y ys =>
          simp only [joinSep] at ih ⊢
          rw [List.cons_append, ih]

theorem joinSep_append (a b : List (List Char)) (ha : a ≠ []) (hb : b ≠ []) :
    joinSep (a ++ b) = joinSep a ++ '/' :: joinSep b := by
  induction a with
  | nil => exact absurd rfl ha
  | cons x xs ih =>
    cases xs with
    | nil =>
      cases b with
      | nil => exact absurd rfl hb
      | cons y ys => rfl
    | cons z zs =>
      have h2 : joinSep (z :: (zs ++ b)) = joinSep (z :: zs) ++ '/' :: joinSep b :=
        ih (by simp)
      have e1 : joinSep (x :: z :: zs ++ b) = x ++ '/' :: joinSep (z :: (zs ++ b)) := rfl
      have e2 : joinSep (x :: z :: zs) = x ++ '/' :: joinSep (z :: zs) := rfl
      rw [e1, e2, h2, List.append_assoc]
      rfl

/-- A path under the project path, letter by letter. -/
theorem under_data (p : String) (names : List (List Char)) (hne : names ≠ [])
    (hn : ∀ e ∈ names, IsName e) : (under p names).data = rootPrefix p ++ joinSep names := by
  have hnorm := norm_elemsOf p
  have hjn : joinSep names ≠ [] := fun h =>
    hne (joinSep_eq_nil names (fun e he => (hn e he).1) h)
  unfold under rootPrefix
  by_cases hE : elemsOf p = []
  · simp only [hE, List.append_nil, List.reverse_reverse, if_true]
    unfold renderPath
    cases isRooted p.data
    · simp [hjn]
    · simp
  · have hroot : (filepathClean p).data = (renderPath (isRooted p.data) (elemsOf p)).data := by
      rw [← under_nil]; rfl
    have hrev : (elemsOf p).reverse ≠ [] := by simpa using hE
    have hje : joinSep (elemsOf p).reverse ≠ [] := fun h =>
      hrev (joinSep_eq_nil _
        (fun e he => (norm_mem _ _ hnorm e (List.mem_reverse.1 he)).1) h)
    simp only [hE, if_false, hroot]
    unfold renderPath
    rw [List.reverse_append, List.reverse_reverse, joinSep_append _ _ hrev hne]
    cases isRooted p.data
    · simp [hje]
    · simp

theorem confined_of_names (p rel : String) (h : ∀ e ∈ splitSep rel.data, IsName e) :
    (filepathJoin [p, rel]).data = rootPrefix p ++ rel.data := by
  rw [filepathJoin_names p rel h, under_data p _ (splitSep_ne_nil _) h, joinSep_splitSep]

theorem confined_write (p rel data : String) (h : ∀ e ∈ splitSep rel.data, IsName e) :
    Confined p (.writeFile (filepathJoin [p, rel]) data) :=
  ⟨rel, h, rfl, confined_of_names p rel h⟩

theorem confined_mkdir (p rel : String) (h : ∀ e ∈ splitSep rel.data, IsName e) :
    Confined p (.mkdirAll (filepathJoin [p, rel])) :=
  ⟨rel, h, rfl, confined_of_names p rel h⟩

theorem confined_nested (p a b data : String) (ha : ∀ e ∈ splitSep a.data, IsName e)
    (hb : IsName b.data) :
    Confined p (.writeFile (filepathJoin [filepathJoin [p, a], b]) data) := by
  have hrel := names_relative a ha
  have hj := (filepathJoin_join p a b ⟨hrel.1, hrel.2⟩ hb.1).1
  have hdata : (a ++ "/" ++ b).data = a.data ++ '/' :: b.data := by
    simp [String.data_append]
  have hnames : ∀ e ∈ splitSep (a ++ "/" ++ b).data, IsName e := by
    rw [hdata, splitSep_append, splitSep_of_not_mem b.data hb.2.2.2]
    intro e he
    rcases List.mem_append.1 he with he | he
    · exact ha e he
    · rw [List.mem_singleton.1 he]; exact hb
  refine ⟨a ++ "/" ++ b, hnames, hj, ?_⟩
  show (filepathJoin [filepathJoin [p, a], b]).data = _
  rw [hj]
  exact confined_of_names p _ hnames

theorem skeletonDirs_names : ∀ dir ∈ skeletonDirs, ∀ e ∈ splitSep dir.data, IsName e := by
  unfold IsName
  decide

theorem isName_protoName (name : String) (h : '/' ∉ name.data) :
    IsName (name ++ ".proto").data := by
  have hd : (name ++ ".proto").data = name.data ++ ".proto".data := String.data_append _ _
  rw [hd]
  refine ⟨by simp, ?_, ?_, ?_⟩
  · intro e
    have := congrArg List.length e
    simp at this
  · intro e
    have := congrArg List.length e
    simp at this
  · intro hm
    rcases List.mem_append.1 hm with hm | hm
    · exact h hm
    · exact absurd hm (by decide)

theorem confined_plan (g : Generator) (config : ProjectConfig)
    (hname : '/' ∉ config.Name.data) :
    ∀ op ∈ generatePlan g config, Confined g.projectPath op := by
  have hsk : ∀ op ∈ skeletonDirs.map
      (fun dir => FsOp.mkdirAll (filepathJoin [g.projectPath, dir])),
      Confined g.projectPath op := by
    intro op hop
    obtain ⟨dir, hdir, rfl⟩ := List.mem_map.1 hop
    exact confined_mkdir _ _ (skeletonDirs_names dir hdir)
  have hdb : ∀ op ∈ databasePlan g config, Confined g.projectPath op := by
    unfold databasePlan
    split
    · exact forall_mem_nil_of
    · exact forall_mem_cons_of _ _ (confined_write _ _ _ (by unfold IsName; decide)) <|
        forall_mem_cons_of _ _ (confined_write _ _ _ (by unfold IsName; decide)) <|
        forall_mem_cons_of _ _ (confined_write _ _ _ (by unfold IsName; decide)) <|
        forall_mem_cons_of _ _ (confined_write _ _ _ (by unfold IsName; decide)) <|
        forall_mem_nil_of
  have hgrpc : ∀ op ∈ (if config.EnableGRPC then grpcPlan g config else []),
      Confined g.projectPath op := by
    split
    · unfold grpcPlan
      exact forall_mem_cons_of _ _ (confined_mkdir _ _ (by unfold IsName; decide)) <|
        forall_mem_cons_of _ _
          (confined_nested _ _ _ _ (by unfold IsName; decide)
            (isName_protoName _ hname)) <|
        forall_mem_cons_of _ _ (confined_mkdir _ _ (by unfold IsName; decide)) <|
        forall_mem_cons_of _ _
          (confined_nested _ _ _ _ (by unfold IsName; decide) (by unfold IsName; decide)) <|
        forall_mem_cons_of _ _ (confined_write _ _ _ (by unfold IsName; decide)) <|
        forall_mem_cons_of _ _ (confined_mkdir _ _ (by unfold IsName; decide)) <|
        forall_mem_cons_of _ _ (confined_write _ _ _ (by unfold IsName; decide)) <|
        forall_mem_nil_of
    · exact forall_mem_nil_of
  unfold generatePlan
  refine forall_mem_append_of _ _ (forall_mem_append_of _ _ (forall_mem_append_of _ _
    (forall_mem_append_of _ _ hsk ?_) hdb) hgrpc) ?_
  · exact forall_mem_cons_of _ _ (confined_write _ _ _ (by unfold IsName; decide)) <|
      forall_mem_cons_of _ _ (confined_write _ _ _ (by unfold IsName; decide)) <|
      forall_mem_cons_of _ _ (confined_write _ _ _ (by unfold IsName; decide)) <|
      forall_mem_cons_of _ _ (confined_write _ _ _ (by unfold IsName; decide)) <|
      forall_mem_cons_of _ _ (confined_mkdir _ _ (by unfold IsName; decide)) <|
      forall_mem_cons_of _ _
        (confined_nested _ _ _ _ (by unfold IsName; decide) (by unfold IsName; decide)) <|
      forall_mem_cons_of _ _ (confined_write _ _ _ (by unfold IsName; decide)) <|
      forall_mem_cons_of _ _ (confined_write _ _ _ (by unfold IsName; decide)) <|
      forall_mem_cons_of _ _ (confined_write _ _ _ (by unfold IsName; decide)) <|
      forall_mem_cons_of _ _ (confined_write _ _ _ (by unfold IsName; decide)) <|
      forall_mem_cons_of _ _ (confined_write _ _ _ (by unfold IsName; decide)) <|
      forall_mem_nil_of
  · exact forall_mem_cons_of _ _ (confined_write _ _ _ (by unfold IsName; decide)) <|
      forall_mem_cons_of _ _ (confined_write _ _ _ (by unfold IsName; decide)) <|
      forall_mem_cons_of _ _ (confined_write _ _ _ (by unfold IsName; decide)) <|
      forall_mem_cons_of _ _ (confined_write _ _ _ (by unfold IsName; decide)) <|
      forall_mem_nil_of

/-- C25 as stated fails for a name with `..` in it: with the project path
`/srv/orders` and the name `../../../../tmp/evil` the proto file is planned,
and in a run written, at `/tmp/evil.proto`, which does not begin with the
project path and is not under it. -/
theorem proto_file_outside_project_path :
    "/tmp/evil.proto" ∈ writtenPaths (generatePlan (New "/srv/orders") escapingName) ∧
    ((Generate okEnv (New "/srv/orders") escapingName emptyWorld).2.fs.files
      "/tmp/evil.proto").isSome = true ∧
    startsWith "/srv/orders".data "/tmp/evil.proto".data = false ∧
    rootPrefix "/srv/orders" = "/srv/orders/".data ∧
    ∀ data, ¬ Confined "/srv/orders" (.writeFile "/tmp/evil.proto" data) := by
  have hroot : rootPrefix "/srv/orders" = "/srv/orders/".data := by decide
  refine ⟨by decide!, by decide!, by decide, hroot, ?_⟩
  rintro data ⟨rel, _, _, hd⟩
  rw [hroot] at hd
  simp [FsOp.path] at hd

/-- C25, amended: `New p` is a generator whose project path is `p`; for a
configuration whose name has no separator in it, every system call of the
plan of `New(p).Generate(c)`, and so every directory or file a run creates in
any environment, is about a path under `p`: `p` joined with a relative path
of plain names, which is the cleaned `p`, a separator and that relative path;
and a configuration that differs only in `Path` gives the same plan (the same
paths with the same contents) and the same run. -/
theorem created_under_project_path (env : Env) (p : String) (c : ProjectConfig) (w : World)
    (x : String) (hname : '/' ∉ c.Name.data) :
    New p = { projectPath := p } ∧ (New p).projectPath = p ∧
    (∀ op ∈ generatePlan (New p) c, Confined p op) ∧
    (∀ ops, (Generate env (New p) c w).2.log = w.log ++ ops → ∀ op ∈ ops, Confined p op) ∧
    generatePlan (New p) { c with Path := x } = generatePlan (New p) c ∧
    Generate env (New p) { c with Path := x } = Generate env (New p) c := by
  refine ⟨rfl, rfl, confined_plan (New p) c hname, ?_, path_irrelevant_plan _ _ _,
    path_irrelevant_run _ _ _ _⟩
  intro ops hlog op hop
  obtain ⟨ops2, post, hplan, hlog2⟩ := generate_log_prefix env (New p) c w
  rw [hlog2] at hlog
  have hops := List.append_cancel_left hlog
  refine confined_plan (New p) c hname op ?_
  rw [hplan, hops]
  exact List.mem_append_left _ hop

/-- C25 at work: scenario A under `/srv/orders`. -/
theorem created_under_project_path_witness :
    (New "/srv/orders").projectPath = "/srv/orders" ∧
    ∀ op ∈ generatePlan (New "/srv/orders") scenarioA, Confined "/srv/orders" op :=
  ⟨(created_under_project_path okEnv "/srv/orders" scenarioA emptyWorld "" (by decide)).2.1,
   (created_under_project_path okEnv "/srv/orders" scenarioA emptyWorld "" (by decide)).2.2.1⟩

/-! ## C26: the version -/

/-- C26 on the code: the version string is not empty, but it is "1.0.0", not
the "1.0.1" that `TestVersionCommand` asks for. -/
theorem version_is_not_the_tested_one :
    Version = "1.0.0" ∧ Version ≠ "" ∧ Version ≠ "1.0.1" := by
  decide

/-! ## C27: imported modules and go.mod -/

/-- C27 on the code: with the framework "chi", handler.go is the Gin variant
and imports gin, swaggo/files and gin-swagger, none of which go.mod requires;
with the database "postgres", database.go is the PostgreSQL implementation and
imports gorm and its postgres driver, which go.mod does not require either. -/
theorem fallback_imports_not_required :
    baseHandlerContent unknownFramework = generateGinHandler unknownFramework ∧
    thirdPartyImports (baseHandlerContent unknownFramework) =
      ["github.com/gin-gonic/gin".data, "github.com/swaggo/files".data,
       "github.com/swaggo/gin-swagger".data] ∧
    requiredModules unknownFramework =
      ["gopkg.in/yaml.v3", "github.com/swaggo/swag", "github.com/lib/pq", "gorm.io/gorm",
       "gorm.io/driver/postgres", "google.golang.org/grpc", "google.golang.org/protobuf",
       "github.com/sirupsen/logrus", "github.com/joho/godotenv"] ∧
    importsRequired unknownFramework (baseHandlerContent unknownFramework) = false ∧
    dbDisabled unknownDatabase = false ∧
    thirdPartyImports (databaseImplementationContent unknownDatabase) =
      ["gorm.io/driver/postgres".data, "gorm.io/gorm".data, "gorm.io/gorm/logger".data] ∧
    importsRequired unknownDatabase (databaseImplementationContent unknownDatabase) = false ∧
    importsRequired scenarioA (baseHandlerContent scenarioA) = true ∧
    importsRequired scenarioA (databaseImplementationContent scenarioA) = true := by
  refine ⟨by decide!, by decide!, by decide!, by decide!, by decide, by decide!, by decide!,
    by decide!, by decide!⟩

/-! ## C29: the directory of a file is there when the file is written -/

theorem parentsReady_mono (ops : List FsOp) :
    ∀ (ok ok2 : String → Prop), (∀ q, ok q → ok2 q) → ParentsReady ok ops →
      ParentsReady ok2 ops := by
  induction ops with
  | nil => intro _ _ _ _; trivial
  | cons op ops ih =>
    intro ok ok2 hsub h
    cases op with
    | mkdirAll d =>
      exact ih _ _ (fun q hq => hq.imp id (hsub q)) h
    | writeFile path data =>
      exact ⟨hsub _ h.1, ih _ _ hsub h.2⟩

theorem parentsReady_append (a b : List FsOp) :
    ∀ (ok : String → Prop), ParentsReady ok a → ParentsReady ok b → ParentsReady ok (a ++ b) := by
  induction a with
  | nil => intro _ _ hb; exact hb
  | cons op ops ih =>
    intro ok ha hb
    cases op with
    | mkdirAll d =>
      exact ih _ ha (parentsReady_mono b _ _ (fun q hq => Or.inr hq) hb)
    | writeFile path data =>
      exact ⟨ha.1, ih _ ha.2 hb⟩

theorem parentsReady_split (pre : List FsOp) :
    ∀ (ok : String → Prop) (post : List FsOp) (path data : String),
      ParentsReady ok (pre ++ .writeFile path data :: post) →
      ok (filepathDir path) ∨ FsOp.mkdirAll (filepathDir path) ∈ pre := by
  induction pre with
  | nil => intro ok post path data h; exact Or.inl h.1
  | cons op ops ih =>
    intro ok post path data h
    cases op with
    | mkdirAll d =>
      rcases ih _ post path data h with (h1 | h1) | h1
      · right; rw [h1]; exact List.mem_cons_self _ _
      · left; exact h1
      · right; exact List.mem_cons_of_mem _ h1
    | writeFile p2 d2 =>
      rcases ih _ post path data h.2 with h1 | h1
      · left; exact h1
      · right; exact List.mem_cons_of_mem _ h1

theorem pr_write {ok : String → Prop} {ops : List FsOp} (path data : String)
    (h : ok (filepathDir path)) (hr : ParentsReady ok ops) :
    ParentsReady ok (.writeFile path data :: ops) := ⟨h, hr⟩

theorem pr_mkdir {ok : String → Prop} {ops : List FsOp} (d : String)
    (hr : ParentsReady (fun q => q = d ∨ ok q) ops) : ParentsReady ok (.mkdirAll d :: ops) := hr

theorem known_root (p rel : String) (h : IsName rel.data) :
    parentKnown p (filepathDir (filepathJoin [p, rel])) :=
  Or.inl (filepathDir_join_root p rel h)

theorem known_dir (p rel dir : String) (f : List Char) (hdir : dir ∈ skeletonDirs)
    (hsplit : splitSep rel.data = splitSep dir.data ++ [f])
    (hn : ∀ e ∈ splitSep dir.data ++ [f], IsName e) :
    parentKnown p (filepathDir (filepathJoin [p, rel])) :=
  Or.inr ⟨dir, hdir, filepathDir_join_dir p rel dir f hsplit hn⟩

theorem isName_proto (name : String) (h : '/' ∉ name.data) : IsName (name ++ ".proto").data := by
  have hd : (name ++ ".proto").data = name.data ++ ".proto".data := String.data_append _ _
  rw [hd]
  refine ⟨by simp, ?_, ?_, ?_⟩
  · intro e
    have := congrArg List.length e
    simp at this
  · intro e
    have := congrArg List.length e
    simp at this
  · intro hm
    rcases List.mem_append.1 hm with hm | hm
    · exact h hm
    · exact absurd hm (by decide)

theorem mem_madeDirs (ops : List FsOp) (d : String) (h : FsOp.mkdirAll d ∈ ops) :
    d ∈ madeDirs ops := by
  induction ops with
  | nil => cases h
  | cons op ops ih =>
    rcases List.mem_cons.1 h with heq | h2
    · subst heq
      simp [madeDirs]
    · cases op <;> simp [madeDirs, ih h2]

theorem madeDirs_append (a b : List FsOp) : madeDirs (a ++ b) = madeDirs a ++ madeDirs b := by
  induction a with
  | nil => rfl
  | cons op ops ih => cases op <;> simp [madeDirs, ih]

theorem madeDirs_generatePlan (g : Generator) (config : ProjectConfig) :
    madeDirs (generatePlan g config) =
      skeletonDirs.map (fun dir => filepathJoin [g.projectPath, dir]) ++
      [filepathJoin [g.projectPath, "internal/app"]] ++
      (if config.EnableGRPC then
        [filepathJoin [g.projectPath, "api/proto"], filepathJoin [g.projectPath, "internal/grpc"],
         filepathJoin [g.projectPath, "scripts"]]
       else []) := by
  unfold generatePlan
  rw [madeDirs_append, madeDirs_append, madeDirs_append, madeDirs_append]
  have h1 : madeDirs (skeletonDirs.map
      (fun dir => FsOp.mkdirAll (filepathJoin [g.projectPath, dir]))) =
      skeletonDirs.map (fun dir => filepathJoin [g.projectPath, dir]) := by
    simp [skeletonDirs, madeDirs]
  have h2 : madeDirs (databasePlan g config) = [] := by
    unfold databasePlan
    split <;> simp [madeDirs]
  have h3 : madeDirs (if config.EnableGRPC then grpcPlan g config else []) =
      if config.EnableGRPC then
        [filepathJoin [g.projectPath, "api/proto"], filepathJoin [g.projectPath, "internal/grpc"],
         filepathJoin [g.projectPath, "scripts"]]
      else [] := by
    split <;> simp [grpcPlan, madeDirs]
  rw [h1, h2, h3]
  simp [madeDirs]

/-- The directories the plan asks for are the skeleton directories and three
more. -/
theorem mkdir_of_plan (g : Generator) (config : ProjectConfig) (d : String)
    (h : FsOp.mkdirAll d ∈ generatePlan g config) :
    ∃ dir ∈ skeletonDirs ++ ["internal/app", "api/proto", "internal/grpc"],
      d = filepathJoin [g.projectPath, dir] := by
  have hm := mem_madeDirs _ _ h
  rw [madeDirs_generatePlan] at hm
  rcases List.mem_append.1 hm with hm | hm
  · rcases List.mem_append.1 hm with hm | hm
    · obtain ⟨dir, hdir, rfl⟩ := List.mem_map.1 hm
      exact ⟨dir, List.mem_append_left _ hdir, rfl⟩
    · rw [List.mem_singleton.1 hm]
      exact ⟨"internal/app", by decide, rfl⟩
  · split at hm
    · simp only [List.mem_cons, List.mem_singleton, List.not_mem_nil, or_false] at hm
      rcases hm with rfl | rfl | rfl
      · exact ⟨"api/proto", by decide, rfl⟩
      · exact ⟨"internal/grpc", by decide, rfl⟩
      · exact ⟨"scripts", by decide, rfl⟩
    · cases hm

theorem parentsReady_main (g : Generator) (config : ProjectConfig) :
    ParentsReady (parentKnown g.projectPath)
      [.writeFile (filepathJoin [g.projectPath, "go.mod"]) (render config (goModContent config)),
       .writeFile (filepathJoin [g.projectPath, "config.yaml"])
         (render config (configYAMLContent config)),
       .writeFile (filepathJoin [g.projectPath, "internal/config/config.go"])
         (render config (configGoContent config)),
       .writeFile (filepathJoin [g.projectPath, "cmd/main.go"])
         (render config (mainGoContent config)),
       .mkdirAll (filepathJoin [g.projectPath, "internal/app"]),
       .writeFile (filepathJoin [filepathJoin [g.projectPath, "internal/app"], "app.go"])
         (render config (appGoContent config)),
       .writeFile (filepathJoin [g.projectPath, "pkg/context/context.go"])
         (render config (contextContent config)),
       .writeFile (filepathJoin [g.projectPath, "pkg/logger/logger.go"])
         (render config (loggerContent config)),
       .writeFile (filepathJoin [g.projectPath, "internal/handlers/handler.go"])
         (render config (baseHandlerContent config)),
       .writeFile (filepathJoin [g.projectPath, "internal/handlers/health.go"])
         (render config (healthHandlerContent config)),
       .writeFile (filepathJoin [g.projectPath, "internal/middleware/middleware.go"])
         (render config (middlewareContent config))] :=
  pr_write _ _ (known_root _ _ (by unfold IsName; decide)) <|
  pr_write _ _ (known_root _ _ (by unfold IsName; decide)) <|
  pr_write _ _ (known_dir _ _ "internal/config" "config.go".data (by decide) (by decide)
    (by unfold IsName; decide)) <|
  pr_write _ _ (known_dir _ _ "cmd" "main.go".data (by decide) (by decide)
    (by unfold IsName; decide)) <|
  pr_mkdir _ <|
  pr_write _ _ (Or.inl (filepathDir_join_nested _ _ _ (by unfold IsName; decide)
    (by unfold IsName; decide))) <|
  pr_write _ _ (Or.inr (known_dir _ _ "pkg/context" "context.go".data (by decide) (by decide)
    (by unfold IsName; decide))) <|
  pr_write _ _ (Or.inr (known_dir _ _ "pkg/logger" "logger.go".data (by decide) (by decide)
    (by unfold IsName; decide))) <|
  pr_write _ _ (Or.inr (known_dir _ _ "internal/handlers" "handler.go".data (by decide)
    (by decide) (by unfold IsName; decide))) <|
  pr_write _ _ (Or.inr (known_dir _ _ "internal/handlers" "health.go".data (by decide)
    (by decide) (by unfold IsName; decide))) <|
  pr_write _ _ (Or.inr (known_dir _ _ "internal/middleware" "middleware.go".data (by decide)
    (by decide) (by unfold IsName; decide))) <|
  trivial

theorem parentsReady_database (g : Generator) (config : ProjectConfig) :
    ParentsReady (parentKnown g.projectPath) (databasePlan g config) := by
  unfold databasePlan
  split
  · trivial
  · exact pr_write _ _ (known_dir _ _ "pkg/database" "interface.go".data (by decide)
        (by decide) (by unfold IsName; decide)) <|
      pr_write _ _ (known_dir _ _ "pkg/database" "database.go".data (by decide) (by decide)
        (by unfold IsName; decide)) <|
      pr_write _ _ (known_dir _ _ "internal/repository" "user.go".data (by decide) (by decide)
        (by unfold IsName; decide)) <|
      pr_write _ _ (known_dir _ _ "internal/models" "models.go".data (by decide) (by decide)
        (by unfold IsName; decide)) <|
      trivial

theorem parentsReady_grpc (g : Generator) (config : ProjectConfig)
    (hname : '/' ∉ config.Name.data) :
    ParentsReady (parentKnown g.projectPath) (grpcPlan g config) :=
  pr_mkdir _ <|
  pr_write _ _ (Or.inl (filepathDir_join_nested _ _ _ (by unfold IsName; decide)
    (isName_proto _ hname))) <|
  pr_mkdir _ <|
  pr_write _ _ (Or.inl (filepathDir_join_nested _ _ _ (by unfold IsName; decide)
    (by unfold IsName; decide))) <|
  pr_write _ _ (Or.inl (filepathDir_join_dir _ _ "internal/grpc" "client.go".data (by decide)
    (by unfold IsName; decide))) <|
  pr_mkdir _ <|
  pr_write _ _ (Or.inl (filepathDir_join_dir _ _ "scripts" "proto.mk".data (by decide)
    (by unfold IsName; decide))) <|
  trivial

theorem parentsReady_deploy (g : Generator) (config : ProjectConfig) :
    ParentsReady (parentKnown g.projectPath)
      [.writeFile (filepathJoin [g.projectPath, "Dockerfile"])
         (render config (dockerfileContent config)),
       .writeFile (filepathJoin [g.projectPath, "docker-compose.yml"])
         (render config (dockerComposeContent config)),
       .writeFile (filepathJoin [g.projectPath, ".dockerignore"])
         (render config dockerIgnoreContent),
       .writeFile (filepathJoin [g.projectPath, "Makefile"])
         (render config (makefileContent config))] :=
  pr_write _ _ (known_root _ _ (by unfold IsName; decide)) <|
  pr_write _ _ (known_root _ _ (by unfold IsName; decide)) <|
  pr_write _ _ (known_root _ _ (by unfold IsName; decide)) <|
  pr_write _ _ (known_root _ _ (by unfold IsName; decide)) <|
  trivial

theorem makesDir_of_chain (ops : List FsOp) (d q : String) (h : FsOp.mkdirAll d ∈ ops)
    (hq : q ∈ dirChain [] d.data) : makesDir ops q = true := by
  induction ops with
  | nil => cases h
  | cons op ops ih =>
    rcases List.mem_cons.1 h with heq | h2
    · subst heq
      simp [makesDir, hq]
    · cases op <;> simp [makesDir, ih h2]

theorem plan_body (g : Generator) (config : ProjectConfig) (hname : '/' ∉ config.Name.data) :
    ∃ body, generatePlan g config = skeletonPlan g ++ body ∧
      ParentsReady (parentKnown g.projectPath) body := by
  have hgrpc : ParentsReady (parentKnown g.projectPath)
      (if config.EnableGRPC then grpcPlan g config else []) := by
    split
    · exact parentsReady_grpc g config hname
    · trivial
  have hbody := parentsReady_append _ _ _ (parentsReady_append _ _ _ (parentsReady_append _ _ _
    (parentsReady_main g config) (parentsReady_database g config)) hgrpc)
    (parentsReady_deploy g config)
  refine ⟨_, ?_, hbody⟩
  unfold generatePlan skeletonPlan
  simp only [List.append_assoc]

/-- Where the directory of a written file comes from: it is the project root
or a skeleton directory, or a directory made by a call between the skeleton
and the write. -/
theorem parent_of_write (g : Generator) (config : ProjectConfig)
    (hname : '/' ∉ config.Name.data) (pre post : List FsOp) (path data : String)
    (h : generatePlan g config = pre ++ .writeFile path data :: post) :
    ∃ rest, pre = skeletonPlan g ++ rest ∧
      (parentKnown g.projectPath (filepathDir path) ∨
        FsOp.mkdirAll (filepathDir path) ∈ rest) := by
  obtain ⟨body, hbody, hready⟩ := plan_body g config hname
  obtain ⟨rest, hrest⟩ := skeleton_before_write g config pre post path data h
  refine ⟨rest, hrest, ?_⟩
  rw [hbody, hrest, List.append_assoc] at h
  have hb := List.append_cancel_left h
  rw [hb] at hready
  exact parentsReady_split rest _ post path data hready

theorem parent_exists (g : Generator) (config : ProjectConfig)
    (hname : '/' ∉ config.Name.data) (w : World) (pre post : List FsOp) (path data : String)
    (h : generatePlan g config = pre ++ .writeFile path data :: post) :
    (filepathDir path = filepathClean g.projectPath ∨
      ∃ dir ∈ skeletonDirs ++ ["internal/app", "api/proto", "internal/grpc"],
        filepathDir path = filepathJoin [g.projectPath, dir] ∧
        FsOp.mkdirAll (filepathJoin [g.projectPath, dir]) ∈ pre) ∧
    DirExists (w.run pre).fs (filepathDir path) := by
  obtain ⟨rest, hrest, hparent⟩ := parent_of_write g config hname pre post path data h
  rcases hparent with (hroot | ⟨dir, hdir, hd⟩) | hmade
  · refine ⟨Or.inl hroot, ?_⟩
    rw [hroot]
    refine root_exists g.projectPath "cmd".data _ ?_
    intro q hq
    have hcmd : under g.projectPath ["cmd".data] = filepathJoin [g.projectPath, "cmd"] :=
      (filepathJoin_names g.projectPath "cmd" (by unfold IsName; decide)).symm
    rw [hcmd] at hq
    rw [run_dirs, makesDir_of_chain pre _ q ?_ hq, Bool.or_true]
    rw [hrest]
    exact (skeleton_dirs_after g w rest "cmd" (by decide)).1
  · have hs := skeleton_dirs_after g w rest dir hdir
    rw [← hrest] at hs
    refine ⟨Or.inr ⟨dir, List.mem_append_left _ hdir, hd, hs.1⟩, Or.inl ?_⟩
    rw [hd]
    exact hs.2
  · have hpre : FsOp.mkdirAll (filepathDir path) ∈ pre := by
      rw [hrest]; exact List.mem_append_right _ hmade
    have hplan : FsOp.mkdirAll (filepathDir path) ∈ generatePlan g config := by
      rw [h]; exact List.mem_append_left _ hpre
    obtain ⟨dir, hdir, hd⟩ := mkdir_of_plan g config _ hplan
    refine ⟨Or.inr ⟨dir, hdir, hd, by rw [← hd]; exact hpre⟩, Or.inl ?_⟩
    rw [run_dirs, makesDir_of_mem pre _ (by unfold filepathDir; exact filepathClean_ne _) hpre,
      Bool.or_true]

/-- C29: for a configuration whose name is not empty and has no separator in
it, whenever the plan of `Generate` writes a file, the directory of that file
(Go `filepath.Dir` of its path) is the project root, or one of the 14
skeleton directories or `internal/app`, `api/proto`, `internal/grpc` joined
onto the project path and asked for by an earlier call of the plan; and it is
there in the file system after the calls before the write.  In every
environment `Generate` follows its plan, so this is the state in which the
write is made; and where a missing directory is the only reason for a call
to fail, no call of `Generate` fails. -/
theorem writes_have_parent (env : Env) (g : Generator) (config : ProjectConfig) (w : World)
    (hname : config.Name.data ≠ [] ∧ '/' ∉ config.Name.data) :
    (∀ pre path data post, generatePlan g config = pre ++ .writeFile path data :: post →
      (filepathDir path = filepathClean g.projectPath ∨
        ∃ dir ∈ skeletonDirs ++ ["internal/app", "api/proto", "internal/grpc"],
          filepathDir path = filepathJoin [g.projectPath, dir] ∧
          FsOp.mkdirAll (filepathJoin [g.projectPath, dir]) ∈ pre) ∧
      DirExists (w.run pre).fs (filepathDir path)) ∧
    Follows env (Generate env g config) (generatePlan g config) ∧
    (MissingDirOnly env → Generate env g config w = (none, w.run (generatePlan g config))) := by
  refine ⟨fun pre path data post h => parent_exists g config hname.2 w pre post path data h,
    follows_Generate env g config, ?_⟩
  intro hmd
  rcases follows_Generate env g config w with ⟨h1, h2⟩ | ⟨pre, op, post, hplan, _, hfault, _⟩
  · exact Prod.ext h1 h2
  · exfalso
    cases op with
    | mkdirAll d => exact hfault (hmd.1 _ _)
    | writeFile path data =>
      exact hfault (hmd.2 _ _ _ (parent_exists g config hname.2 w pre post path data hplan).2)

/-- C29 at work: scenario A on the empty file system, where a write fails
exactly when the directory of the file is missing: the run ends without an
error. -/
theorem writes_have_parent_witness :
    (Generate strictEnv (New "/srv/orders") scenarioA emptyWorld).1 = none :=
  congrArg Prod.fst
    ((writes_have_parent strictEnv (New "/srv/orders") scenarioA emptyWorld
      ⟨by decide, by decide⟩).2.2
      ⟨fun _ _ => rfl, fun fs path data h => by
        unfold DirExists at h
        simp only [strictEnv, if_pos h]⟩)

/-! ## C28, C30: the database in app.go, handler.go and docker-compose.yml -/

theorem appGo_database (config : ProjectConfig) :
    mentions (appGoContent config) "handlers.New(a.cfg, a.logger, db)" = !dbDisabled config ∧
    mentions (appGoContent config) "handlers.New(a.cfg, a.logger)" = dbDisabled config ∧
    decide (Tok.moduleName :: lit "/pkg/database" ∈ importPaths (appGoContent config))
      = !dbDisabled config := by
  unfold dbDisabled appGoContent generateFiberApp generateStandardApp
  cases stringsContains (stringsToLower config.Database) "без" <;>
    simp only [Bool.not_true, Bool.not_false, Bool.false_eq_true, reduceIte] <;>
    split_ifs <;> refine ⟨?_, ?_, ?_⟩ <;> decide!

theorem baseHandler_database (config : ProjectConfig) :
    mentions (baseHandlerContent config) ", db database.Database) *Handler"
      = !dbDisabled config ∧
    mentions (baseHandlerContent config) "Logger) *Handler" = dbDisabled config ∧
    decide (Tok.moduleName :: lit "/pkg/database" ∈ importPaths (baseHandlerContent config))
      = !dbDisabled config := by
  unfold dbDisabled baseHandlerContent generateGinHandler generateFiberHandler
    generateEchoHandler
  cases stringsContains (stringsToLower config.Database) "без" <;>
    simp only [Bool.not_true, Bool.not_false, Bool.false_eq_true, reduceIte] <;>
    split_ifs <;> refine ⟨?_, ?_, ?_⟩ <;> decide!

/-- C28: app.go passes a database to `handlers.New` and imports
`<ModuleName>/pkg/database` iff handler.go declares `New` with a database
parameter and imports `<ModuleName>/pkg/database`, and both are so iff the
database phase writes its files; without a database app.go calls `New` with two
arguments and handler.go declares it with two parameters. -/
theorem database_enabled_agreement (g : Generator) (config : ProjectConfig) :
    mentions (appGoContent config) "handlers.New(a.cfg, a.logger, db)" =
      mentions (baseHandlerContent config) ", db database.Database) *Handler" ∧
    mentions (appGoContent config) "handlers.New(a.cfg, a.logger)" =
      mentions (baseHandlerContent config) "Logger) *Handler" ∧
    (Tok.moduleName :: lit "/pkg/database" ∈ importPaths (appGoContent config) ↔
      Tok.moduleName :: lit "/pkg/database" ∈ importPaths (baseHandlerContent config)) ∧
    mentions (appGoContent config) "handlers.New(a.cfg, a.logger, db)" = !dbDisabled config ∧
    (Tok.moduleName :: lit "/pkg/database" ∈ importPaths (appGoContent config) ↔
      dbDisabled config = false) ∧
    writtenPaths (databasePlan g config) =
      (if dbDisabled config then [] else databaseFiles g) ∧
    (writtenPaths (databasePlan g config) ≠ [] ↔ dbDisabled config = false) := by
  obtain ⟨a1, a2, a3⟩ := appGo_database config
  obtain ⟨b1, b2, b3⟩ := baseHandler_database config
  have ha3 : Tok.moduleName :: lit "/pkg/database" ∈ importPaths (appGoContent config) ↔
      dbDisabled config = false := by
    cases hd : dbDisabled config <;> simp [hd] at a3 <;> simp [a3]
  have hb3 : Tok.moduleName :: lit "/pkg/database" ∈ importPaths (baseHandlerContent config) ↔
      dbDisabled config = false := by
    cases hd : dbDisabled config <;> simp [hd] at b3 <;> simp [b3]
  refine ⟨by rw [a1, b1], by rw [a2, b2], by rw [ha3, hb3], a1, ha3,
    writtenPaths_databasePlan g config, ?_⟩
  rw [writtenPaths_databasePlan]
  cases hd : dbDisabled config <;> simp [databaseFiles]

/-- C30 on the code: with no database ("Без БД", the prompt's own choice)
docker-compose.yml has a `depends_on:` key with no service beneath it; with
"postgresql", the spelling of the `--database` flag, it has that and a
top-level `volumes:` key with no volume beneath it; with the prompt's
"PostgreSQL" both keys have an entry. -/
theorem compose_empty_sections :
    lit "    depends_on:" ∈ linesOf (dockerComposeContent { scenarioA with Database := "Без БД" }) ∧
    composeDependsOn (dockerComposeContent { scenarioA with Database := "Без БД" }) = [] ∧
    hasEmptySection (dockerComposeContent { scenarioA with Database := "Без БД" }) = true ∧
    lit "volumes:" ∈ linesOf (dockerComposeContent { scenarioA with Database := "postgresql" }) ∧
    composeVolumes (dockerComposeContent { scenarioA with Database := "postgresql" }) = [] ∧
    composeDependsOn (dockerComposeContent { scenarioA with Database := "postgresql" }) = [] ∧
    hasEmptySection (dockerComposeContent { scenarioA with Database := "postgresql" }) = true ∧
    composeDependsOn (dockerComposeContent { scenarioA with Database := "PostgreSQL" }) =
      [lit "postgres"] ∧
    composeVolumes (dockerComposeContent { scenarioA with Database := "PostgreSQL" }) =
      [lit "postgres_data:"] ∧
    hasEmptySection (dockerComposeContent { scenarioA with Database := "PostgreSQL" }) = false := by
  refine ⟨by decide!, by decide!, by decide!, by decide!, by decide!, by decide!, by decide!,
    by decide!, by decide!, by decide!⟩

theorem compose_empty_section_iff (config : ProjectConfig) :
    hasEmptySection (dockerComposeContent config) =
      !decide (config.Database ∈ ["PostgreSQL", "MySQL", "MongoDB"]) := by
  obtain ⟨name, moduleName, framework, database, grpc, path⟩ := config
  cases grpc <;> simp only [dockerComposeContent, Bool.false_eq_true, reduceIte] <;>
    split_ifs <;> simp_all <;> decide!

end ProjectInitializer
